import Mathlib

/-!
ODIM: plugin contact and session lifecycle

A shallow embedding of the plugin-contact code of `svc-fabrics/fabrics/common.go`
(and of the sibling handler in `svc-managers/managers/managers.go`), of the session code
of `svc-account-session/auth/session.go` and of the subscription bring-up of
`plugin-redfish/rfphandler/pluginStatus.go`, with the theorems that settle the
specification's statements about them.

Conventions of the embedding.

* Go strings are Lean strings. `[]byte` bodies are strings as well, and a nil slice is
  `none`.
* A Go `error` is `Option String`: `none` is `nil`, `some m` is an error whose `Error()`
  text is `m`.
* The outside world (the plugin reached through `ContactClient`, the liveness probe
  `CheckStatus`) is deterministic in the history of what was asked so far: every
  invocation is appended to a trace, and the answer is a function of the trace and of the
  invocation. Nothing is assumed about these functions.
* A function that can dereference a nil pointer returns `none` for its result in that
  case (the Go code panics), together with the state reached.
* `log.Println` and `Body.Close` have no effect that the embedding tracks.
-/

namespace ODIM

/-! ## Go library functions -/

namespace strings

/-- The letters that Unicode simple case folding puts in one orbit with an ASCII letter:
the two cases of the letter, the Kelvin sign for `k` and the long s for `s`. The result
is the lower-case ASCII letter of the orbit; every other character is its own class. -/
def foldClass (c : Char) : Char :=
  if c = Char.ofNat 0x212A then 'k'
  else if c = Char.ofNat 0x017F then 's'
  else if 'A' ≤ c ∧ c ≤ 'Z' then Char.ofNat (c.toNat + 32)
  else c

/-- Go `strings.EqualFold`: equality under Unicode simple case folding, rune by rune.
Exact whenever one of the two strings is ASCII, which holds at every call in the source
(the second argument is a literal). -/
def EqualFold (s t : String) : Bool :=
  s.data.map foldClass == t.data.map foldClass

/-- Go `strings.Replace(s, old, new, -1)` for an empty `old`: `new` is inserted before
every rune and at the end. -/
def insertEverywhere (new : List Char) : List Char → List Char
  | [] => new
  | c :: cs => new ++ c :: insertEverywhere new cs

/-- Go `strings.Replace(s, old, new, -1)` for a non-empty `old`, scanning left to right;
`skip` counts the characters of a matched occurrence still to be dropped. -/
def replaceFrom (old new : List Char) : Nat → List Char → List Char
  | _, [] => []
  | k + 1, _ :: cs => replaceFrom old new k cs
  | 0, c :: cs =>
    if old.isPrefixOf (c :: cs) then new ++ replaceFrom old new (old.length - 1) cs
    else c :: replaceFrom old new 0 cs

/-- Go `strings.Replace(s, old, new, -1)`: every non-overlapping occurrence of `old` in
`s`, from the left, is replaced by `new`. -/
def Replace (s old new : String) : String :=
  if old = new then s
  else if old.data = [] then ⟨insertEverywhere new.data s.data⟩
  else ⟨replaceFrom old.data new.data 0 s.data⟩

/-- The pieces of `s` between the occurrences of a non-empty separator; `cur` holds the
current piece reversed, `skip` the characters of a matched separator still to drop. -/
def splitFrom (sep : List Char) : Nat → List Char → List Char → List (List Char)
  | _, cur, [] => [cur.reverse]
  | k + 1, cur, _ :: cs => splitFrom sep k cur cs
  | 0, cur, c :: cs =>
    if sep.isPrefixOf (c :: cs) then cur.reverse :: splitFrom sep (sep.length - 1) [] cs
    else splitFrom sep 0 (c :: cur) cs

/-- Go `strings.Split(s, sep)`; an empty separator splits after every rune. -/
def Split (s sep : String) : List String :=
  if sep.data = [] then s.data.map (fun c => String.mk [c])
  else (splitFrom sep.data 0 [] s.data).map String.mk

end strings

/-- Go `fmt.Errorf(format)` and `fmt.Sprintf(format)` without operands: a format with no
`%` is the text itself; what the library makes of a format that has one is `verbs`. -/
def fmtNoArgs (verbs : String → String) (format : String) : String :=
  if '%' ∈ format.data then verbs format else format

/-- The conversion `int32(x)` of a Go `int`: the value modulo `2^32`, read as signed. -/
def toInt32 (x : Int) : Int := (x + 2 ^ 31) % 2 ^ 32 - 2 ^ 31

namespace http

def StatusOK : Int := 200
def StatusCreated : Int := 201
def StatusBadRequest : Int := 400
def StatusUnauthorized : Int := 401
def StatusNotFound : Int := 404
def StatusInternalServerError : Int := 500
def MethodGet : String := "GET"
def MethodPost : String := "POST"
def MethodDelete : String := "DELETE"

/-- A `map[string]string` or `http.Header` as an association list. -/
abbrev Header := List (String × String)

/-- The lookup `Header.Get(key)`: the value stored under the key, `""` when absent. -/
def Header.Get (h : Header) (key : String) : String :=
  match h.find? (fun kv => kv.1 == key) with
  | some kv => kv.2
  | none => ""

/-- The part of `*http.Response` the code reads: `Body` is the result of
`ioutil.ReadAll(resp.Body)`, the bytes or the read error. -/
structure Response where
  StatusCode : Int
  Header : Header
  Body : Except String String

end http

namespace response

/-- Modelled from the spec: the status message constant `response.InternalError` of
`lib-utilities/response`, the `InternalError` class of the error taxonomy. -/
def InternalError : String := "InternalError"
/-- Modelled from the spec: the status message constant `response.NoValidSession`. -/
def NoValidSession : String := "NoValidSession"
/-- Modelled from the spec: the status message constant `response.ResourceNotFound`. -/
def ResourceNotFound : String := "ResourceNotFound"
/-- Modelled from the spec: the status message constant `response.MalformedJSON`. -/
def MalformedJSON : String := "MalformedJSON"
/-- Modelled from the spec: the status message constant `response.Success`. -/
def Success : String := "Success"

end response

/-! ## Data model -/

/-- The fields of `fabmodel.Plugin` that the code uses. -/
structure Plugin where
  ID : String
  IP : String
  Port : String
  Username : String
  Password : String
  PreferredAuthType : String
deriving DecidableEq, Repr

/-- The `PostBody interface{}` of a request: nil, the login map built by `createToken`,
or the value `json.Unmarshal` decoded from a text (represented by that text). -/
inductive PostBody where
  | nil
  | login (Username Password : String)
  | decoded (text : String)
deriving DecidableEq, Repr

/-- One invocation of `ContactClient(url, method, token, odataID, body, basicAuth)`;
`basicAuth` is `none` for a nil map. -/
structure ClientCall where
  url : String
  method : String
  token : String
  odataID : String
  body : PostBody
  basicAuth : Option (List (String × String))
deriving DecidableEq, Repr

/-- What the service asks of the outside world. -/
inductive Event where
  | call (c : ClientCall)
  | probe (p : Plugin)
deriving DecidableEq, Repr

/-- The type of `ContactClient`: the Go pair `(*http.Response, error)` it returns, as a
function of the history and of the invocation. -/
abbrev Client := List Event → ClientCall → Option http.Response × Option String

structure pluginContactRequest where
  URL : String
  HTTPMethodType : String
  ContactClient : Client
  PostBody : PostBody
  LoginCredential : Option (List (String × String))
  Plugin : Plugin
  Token : String

structure responseStatus where
  StatusCode : Int
  StatusMessage : String
  Location : String
deriving DecidableEq, Repr

/-- The mutable state: the history of outside invocations and the package variable
`Token` (`PluginToken.Tokens`, a map read with `""` for a missing key). -/
structure State where
  trace : List Event
  Tokens : String → String

/-- The method `PluginToken.storeToken`. -/
def storeToken (s : State) (plguinID token : String) : State :=
  { s with Tokens := fun k => if k = plguinID then token else s.Tokens k }

/-- The method `PluginToken.getToken`. -/
def getToken (s : State) (pluginID : String) : String :=
  s.Tokens pluginID

/-- The `response.RPC.Body interface{}`: nil, a value decoded from a JSON text
(represented by the text), the error body built by `common.GeneralError`, or the
collection built by `getFabricCollection`. -/
inductive RPCBody where
  | nil
  | decoded (text : String)
  | generalError (StatusMessage ErrorMessage : String) (MessageArgs : List String)
  | fabricCollection (Members : List String)
deriving DecidableEq, Repr

structure RPC where
  StatusCode : Int
  StatusMessage : String
  Header : http.Header
  Body : RPCBody
deriving DecidableEq, Repr

/-- The fields of `fabmodel.Fabric` that the code uses. -/
structure Fabric where
  FabricUUID : String
  PluginID : String
deriving DecidableEq, Repr

/-- The collaborators and configuration that are not part of the sources at hand. -/
structure Env where
  /-- The call `common.PluginStatus.CheckStatus` for a plugin: its `status` and `err`. -/
  CheckStatus : List Event → Plugin → Bool × Option String
  /-- What `fmt` makes of a format with a `%` in it. -/
  verbs : String → String
  /-- The error of `json.Unmarshal` of a text into an `interface{}`, `none` on success. -/
  jsonError : String → Option String
  /-- The error of `json.Unmarshal` of a text into a `map[string]interface{}`. -/
  jsonMapError : String → Option String
  /-- The text `json.Marshal` gives for a response body, `none` for a nil slice. -/
  jsonMarshal : RPCBody → Option String
  /-- The lookup `fabmodel.GetManagingPluginIDForFabricID`. -/
  GetManagingPluginIDForFabricID : String → Except String Fabric
  /-- The lookup `fabmodel.GetPluginData`. -/
  GetPluginData : String → Except String Plugin
  /-- The fabrics `fabmodel.GetAllTheFabrics` returns (its error is ignored by the code). -/
  GetAllTheFabrics : List Fabric
  /-- The table `config.Data.URLTranslation.SouthBoundURL`, in the order of one iteration. -/
  SouthBoundURL : List (String × String)
  /-- The table `config.Data.URLTranslation.NorthBoundURL`, in the order of one iteration. -/
  NorthBoundURL : List (String × String)

/-- The four results of `contactPlugin`. -/
structure ContactResult where
  body : Option String
  token : String
  status : responseStatus
  err : Option String
deriving DecidableEq, Repr

/-! ## Plugin contact (`svc-fabrics/fabrics/common.go`) -/

/-- One invocation of a client: the answer, and the invocation appended to the trace. -/
def invoke (client : Client) (c : ClientCall) (s : State) :
    (Option http.Response × Option String) × State :=
  (client s.trace c, { s with trace := s.trace ++ [Event.call c] })

/-- The URL `reqURL` that `callPlugin` builds. -/
def reqURL (req : pluginContactRequest) : String :=
  "https://" ++ req.Plugin.IP ++ ":" ++ req.Plugin.Port ++ req.URL

/-- The invocation of line 123 of `callPlugin`, made for a `BasicAuth` plugin only; its
result is not used. -/
def firstCall (req : pluginContactRequest) : ClientCall :=
  ⟨reqURL req, req.HTTPMethodType, "", "", req.PostBody, req.LoginCredential⟩

/-- The invocation of line 125 of `callPlugin`, whose result is returned. -/
def returnedCall (req : pluginContactRequest) : ClientCall :=
  ⟨reqURL req, req.HTTPMethodType, req.Token, "", req.PostBody, none⟩

def callPlugin (req : pluginContactRequest) (s : State) :
    (Option http.Response × Option String) × State :=
  let s1 :=
    if strings.EqualFold req.Plugin.PreferredAuthType "BasicAuth" then
      (invoke req.ContactClient (firstCall req) s).2
    else s
  invoke req.ContactClient (returnedCall req) s1

/-- The function `getPluginStatus`: both branches return the probe's `status`. -/
def getPluginStatus (env : Env) (plugin : Plugin) (s : State) : Bool × State :=
  let r := env.CheckStatus s.trace plugin
  let s1 := { s with trace := s.trace ++ [Event.probe plugin] }
  if r.2.isSome && !r.1 then (r.1, s1) else (r.1, s1)

/-- The result of `contactPlugin` for a failure to connect or to read the body. -/
def internalFailure (env : Env) (errorMessage : String) : ContactResult :=
  { body := none, token := "",
    status := ⟨http.StatusInternalServerError, response.InternalError, ""⟩,
    err := some (fmtNoArgs env.verbs errorMessage) }

/-- The part of `contactPlugin` after the transport calls (from `defer
pluginResponse.Body.Close()` on); a nil response is dereferenced there. -/
def readResponse (env : Env) (pluginResponse : Option http.Response)
    (errorMessage : String) : Option ContactResult :=
  match pluginResponse with
  | none => none
  | some r =>
    if !(r.StatusCode == http.StatusCreated || r.StatusCode == http.StatusOK) then
      match r.Body with
      | .error e => some (internalFailure env ("error while trying to read response body: " ++ e))
      | .ok body =>
        some { body := some body, token := "",
               status := ⟨toInt32 r.StatusCode, "", ""⟩,
               err := some (fmtNoArgs env.verbs errorMessage) }
    else
      match r.Body with
      | .error e => some (internalFailure env ("error while trying to read response body: " ++ e))
      | .ok body =>
        some { body := some body, token := r.Header.Get "X-Auth-Token",
               status := ⟨toInt32 r.StatusCode, "", r.Header.Get "Location"⟩,
               err := none }

/-- Lines 81 to 85 of `contactPlugin`: the call and, when it returned an error, the
liveness probe followed, if the plugin is up, by one more call. The result is the pair
`(pluginResponse, err)` held after line 85. -/
def callWithProbe (env : Env) (req : pluginContactRequest) (s : State) :
    (Option http.Response × Option String) × State :=
  let first := callPlugin req s
  match first.1.2 with
  | some _ =>
    let probe := getPluginStatus env req.Plugin first.2
    if probe.1 then callPlugin req probe.2 else (first.1, probe.2)
  | none => first

def contactPlugin (env : Env) (req : pluginContactRequest) (errorMessage : String)
    (s : State) : Option ContactResult × State :=
  let last := callWithProbe env req s
  match last.1.2 with
  | some e => (some (internalFailure env (errorMessage ++ e)), last.2)
  | none => (readResponse env last.1.1 errorMessage, last.2)

/-- Modelled from the spec: `common.GeneralError` of `lib-utilities/common`, which builds
the structured error response: the given status code and status message, and a body with
the message and the offending argument names. Its headers are not modelled. -/
def GeneralError (statusCode : Int) (statusMsg errMsg : String) (msgArgs : List String) : RPC :=
  { StatusCode := statusCode, StatusMessage := statusMsg, Header := [],
    Body := RPCBody.generalError statusMsg errMsg msgArgs }

/-- The struct `Fabrics`, the receiver of the handlers. -/
structure Fabrics where
  Auth : String → List String → List String → Int × String
  ContactClient : Client

/-- The request `fabricsproto.FabricRequest`. -/
structure FabricRequest where
  SessionToken : String
  Method : String
  URL : String
  RequestBody : String

/-- The request `contactRequest` that `createToken` builds for the login. -/
def loginRequest (f : Fabrics) (plugin : Plugin) : pluginContactRequest :=
  { URL := "/ODIM/v1/Sessions", HTTPMethodType := http.MethodPost,
    ContactClient := f.ContactClient,
    PostBody := PostBody.login plugin.Username plugin.Password,
    LoginCredential := none, Plugin := plugin, Token := "" }

/-- The method `Fabrics.createToken`: `none` when the login call panics. -/
def createToken (env : Env) (f : Fabrics) (plugin : Plugin) (s : State) :
    Option String × State :=
  match contactPlugin env (loginRequest f plugin) "error while logging in to plugin: " s with
  | (none, s1) => (none, s1)
  | (some r, s1) =>
    if r.token != "" then (some r.token, storeToken s1 plugin.ID r.token)
    else (some r.token, s1)

/-- The method `Fabrics.getPluginToken`. -/
def getPluginToken (env : Env) (f : Fabrics) (plugin : Plugin) (s : State) :
    Option String × State :=
  let authToken := getToken s plugin.ID
  if authToken == "" then createToken env f plugin s
  else (some authToken, s)

/-- The method `Fabrics.retryFabricsOperation`. -/
def retryFabricsOperation (env : Env) (f : Fabrics) (req : pluginContactRequest)
    (errorMessage : String) (s : State) : Option ContactResult × State :=
  match createToken env f req.Plugin s with
  | (none, s1) => (none, s1)
  | (some token, s1) =>
    if token == "" then
      let resp := GeneralError http.StatusUnauthorized response.NoValidSession
        ("error: Unable to create session with plugin " ++ req.Plugin.ID) []
      (some { body := env.jsonMarshal resp.Body, token := "",
              status := ⟨resp.StatusCode, "", ""⟩,
              err := some (fmtNoArgs env.verbs "error: Unable to create session with plugin") },
       s1)
    else contactPlugin env { req with Token := token } errorMessage s1

/-- The zero value of `pluginContactRequest`; its nil `ContactClient` is never called. -/
def zeroRequest : pluginContactRequest :=
  { URL := "", HTTPMethodType := "", ContactClient := fun _ _ => (none, none),
    PostBody := PostBody.nil, LoginCredential := none,
    Plugin := ⟨"", "", "", "", "", ""⟩, Token := "" }

/-- The zero value of `response.RPC`. -/
def zeroRPC : RPC := { StatusCode := 0, StatusMessage := "", Header := [], Body := RPCBody.nil }

/-- Modelled from the spec: the privilege constant `common.PrivilegeConfigureComponents`. -/
def PrivilegeConfigureComponents : String := "ConfigureComponents"

def getFabricID (url : String) : String :=
  let data := strings.Split url "/redfish/v1/Fabrics/"
  if data.length > 1 then
    let fabricData := strings.Split (data.getD 1 "") "/"
    fabricData.getD 0 ""
  else ""

def getFabricCollection (env : Env) : RPC :=
  let members := env.GetAllTheFabrics.map (fun fab => "/redfish/v1/Fabrics/" ++ fab.FabricUUID)
  { StatusCode := http.StatusOK, StatusMessage := response.Success,
    Header := [("Allow", "\"GET\""), ("Cache-Control", "no-cache"),
      ("Connection", "keep-alive"), ("Content-type", "application/json; charset=utf-8"),
      ("Transfer-Encoding", "chunked"), ("OData-Version", "4.0")],
    Body := RPCBody.fabricCollection members }

/-- The loop of `parseFabricsRequest` over the southbound table: `reqURL` and `reqData`
start empty and every iteration assigns them from the request's URL and body. -/
def southboundLoop (table : List (String × String)) (URL RequestBody : String) :
    String × String :=
  table.foldl
    (fun _ kv => (strings.Replace URL kv.1 kv.2, strings.Replace RequestBody kv.1 kv.2))
    ("", "")

/-- The method `Fabrics.parseFabricsRequest`: the request for the plugin, the response and
the error; `none` when the login call made for the token panics. -/
def parseFabricsRequest (env : Env) (f : Fabrics) (req : FabricRequest) (s : State) :
    Option (pluginContactRequest × RPC × Option String) × State :=
  let auth := f.Auth req.SessionToken [PrivilegeConfigureComponents] []
  if auth.1 != http.StatusOK then
    let errorMessage := "error while trying to authenticate session"
    (some (zeroRequest, GeneralError auth.1 auth.2 errorMessage [],
      some (fmtNoArgs env.verbs errorMessage)), s)
  else if req.URL == "/redfish/v1/Fabrics" then
    (some (zeroRequest, getFabricCollection env, none), s)
  else
    match env.GetManagingPluginIDForFabricID (getFabricID req.URL) with
    | .error e =>
      (some (zeroRequest,
        GeneralError http.StatusNotFound response.ResourceNotFound
          ("error while trying to get fabric Data: " ++ e) ["Plugin", "Fabric"],
        some e), s)
    | .ok fabric =>
      match env.GetPluginData fabric.PluginID with
      | .error e =>
        (some (zeroRequest,
          GeneralError http.StatusNotFound response.ResourceNotFound
            ("error while trying to get plugin Data: " ++ e) ["Plugin", "Fabric"],
          some e), s)
      | .ok plugin =>
        let contactRequest : pluginContactRequest :=
          { zeroRequest with ContactClient := f.ContactClient, Plugin := plugin }
        -- the two branches on the authentication type
        let authed : Option (Except (RPC × Option String) pluginContactRequest) × State :=
          if strings.EqualFold plugin.PreferredAuthType "XAuthToken" then
            match getPluginToken env f plugin s with
            | (none, s1) => (none, s1)
            | (some token, s1) =>
              if token == "" then
                let errorMessage := "error: Unable to create session with plugin " ++ plugin.ID
                (some (.error (GeneralError http.StatusUnauthorized response.NoValidSession
                  errorMessage [], some (fmtNoArgs env.verbs errorMessage))), s1)
              else (some (.ok { contactRequest with Token := token }), s1)
          else
            (some (.ok { contactRequest with
              LoginCredential := some [("Username", plugin.Username),
                                       ("Password", plugin.Password)] }), s)
        match authed with
        | (none, s1) => (none, s1)
        | (some (.error (resp, err)), s1) => (some (contactRequest, resp, err), s1)
        | (some (.ok contactRequest), s1) =>
          let translated := southboundLoop env.SouthBoundURL req.URL req.RequestBody
          let contactRequest :=
            { contactRequest with URL := translated.1, HTTPMethodType := req.Method }
          if !(req.Method == http.MethodGet || req.Method == http.MethodDelete) then
            match env.jsonError translated.2 with
            | some e =>
              (some (contactRequest,
                GeneralError http.StatusBadRequest response.MalformedJSON
                  ("error while trying to get JSON request body: " ++ e) [],
                some ("error while trying to get JSON request body: " ++ e)), s1)
            | none =>
              (some ({ contactRequest with PostBody := PostBody.decoded translated.2 },
                zeroRPC, none), s1)
          else (some (contactRequest, zeroRPC, none), s1)

/-- The loop of `fillResponse` over the northbound table: every iteration rewrites the
`location` and the `data` of the iteration before. -/
def northboundLoop (table : List (String × String)) (location data : String) :
    String × String :=
  table.foldl
    (fun acc kv => (strings.Replace acc.1 kv.1 kv.2, strings.Replace acc.2 kv.1 kv.2))
    (location, data)

def fillResponse (env : Env) (body : Option String) (location method : String)
    (statusCode : Int) : RPC :=
  let translated := northboundLoop env.NorthBoundURL location (body.getD "")
  let header : http.Header :=
    [("Allow", "\"GET\", \"PUT\", \"POST\", \"PATCH\", \"DELETE\""),
      ("Cache-Control", "no-cache"), ("Connection", "keep-alive"),
      ("Content-type", "application/json; charset=utf-8"),
      ("Transfer-Encoding", "chunked"), ("OData-Version", "4.0")]
  let header := if translated.1 != "" then header ++ [("Location", translated.1)] else header
  if method != http.MethodDelete then
    match env.jsonMapError translated.2 with
    | some e => GeneralError http.StatusInternalServerError response.InternalError e []
    | none =>
      { StatusCode := statusCode, StatusMessage := response.Success, Header := header,
        Body := RPCBody.decoded translated.2 }
  else
    { StatusCode := statusCode, StatusMessage := response.Success, Header := header,
      Body := RPCBody.nil }

/-- The response `parseFabricsResponse` returns for a failed contact: the status code of
the contact, the body decoded if it is JSON, and the content-type header. -/
def failedResponse (env : Env) (body : Option String) (status : responseStatus) : RPC :=
  { StatusCode := status.StatusCode, StatusMessage := "",
    Header := [("Content-type", "application/json; charset=utf-8")],
    Body :=
      match body with
      | none => RPCBody.nil
      | some text => if (env.jsonError text).isNone then RPCBody.decoded text else RPCBody.nil }

/-- The text `errorMessage` that `parseFabricsResponse` formats with `fmt.Sprintf`. -/
def operationError (method reqURI : String) : String :=
  "error while performing " ++ method ++ " operation on " ++ reqURI ++ ": "

/-- The method `Fabrics.parseFabricsResponse`: `none` when a plugin contact panics. -/
def parseFabricsResponse (env : Env) (f : Fabrics) (pluginRequest : pluginContactRequest)
    (reqURI : String) (s : State) : Option RPC × State :=
  let errorMessage := operationError pluginRequest.HTTPMethodType reqURI
  match contactPlugin env pluginRequest errorMessage s with
  | (none, s1) => (none, s1)
  | (some r, s1) =>
    if r.err.isSome then
      if r.status.StatusCode == http.StatusUnauthorized &&
          strings.EqualFold pluginRequest.Plugin.PreferredAuthType "XAuthToken" then
        match retryFabricsOperation env f pluginRequest errorMessage s1 with
        | (none, s2) => (none, s2)
        | (some r2, s2) =>
          if r2.err.isSome then (some (failedResponse env r2.body r2.status), s2)
          else
            (some (fillResponse env r2.body r2.status.Location pluginRequest.HTTPMethodType
              r2.status.StatusCode), s2)
      else (some (failedResponse env r.body r.status), s1)
    else
      (some (fillResponse env r.body r.status.Location pluginRequest.HTTPMethodType
        r.status.StatusCode), s1)

/-! ## The plugin manager handler (`svc-managers/managers/managers.go`) -/

namespace managers

/-- A value of a decoded JSON object, as far as the type assertion `.(string)` can tell:
a JSON string, or anything else (given by its text). -/
inductive JSONValue where
  | str (s : String)
  | other (text : String)
deriving DecidableEq, Repr

/-- The fields of `mgrcommon.PluginContactRequest` that the handler sets. -/
structure PluginContactRequest where
  ContactClient : Client
  Plugin : Plugin
  Token : String
  BasicAuth : Option (List (String × String))
  OID : String

/-- The zero value of `mgrcommon.PluginContactRequest`. -/
def zeroRequest : PluginContactRequest :=
  { ContactClient := fun _ _ => (none, none), Plugin := ⟨"", "", "", "", "", ""⟩,
    Token := "", BasicAuth := none, OID := "" }

/-- The functions of `mgrcommon` and `mgrmodel` that the handler calls and whose code is
not part of the sources at hand; nothing is assumed about them. A result `none` is a
panic inside the function. -/
structure Deps where
  GetManagerByURL : String → Except String String
  /-- The result of `json.Unmarshal` of a text into a `map[string]interface{}`. -/
  jsonObject : String → Except String (List (String × JSONValue))
  GetPluginData : String → Except String Plugin
  GetPluginToken : PluginContactRequest → State → Option String × State
  ContactPlugin : PluginContactRequest → String → State → Option ContactResult × State
  RetryManagersOperation : PluginContactRequest → String → State → Option ContactResult × State

/-- The struct `DeviceContact`, as far as `getPluginManagerResoure` uses it. -/
structure DeviceContact where
  ContactClient : Client

/-- The index expression `m[key]` on a decoded object: the value, `none` for a nil
interface (key absent). -/
def index (m : List (String × JSONValue)) (key : String) : Option JSONValue :=
  (m.find? (fun kv => kv.1 == key)).map (fun kv => kv.2)

/-- The type assertion `v.(string)`: `none` is the panic of a failed assertion. -/
def assertString : Option JSONValue → Option String
  | some (JSONValue.str s) => some s
  | _ => none

/-- The function `fillResponse` of the managers package. -/
def fillResponse (env : Env) (body : Option String) : RPC :=
  let data := env.NorthBoundURL.foldl (fun acc kv => strings.Replace acc kv.1 kv.2)
    (body.getD "")
  match env.jsonMapError data with
  | some e => GeneralError http.StatusInternalServerError response.InternalError e []
  | none =>
    { StatusCode := http.StatusOK, StatusMessage := response.Success,
      Header := [("Allow", "\"GET\""), ("Cache-Control", "no-cache"),
        ("Connection", "keep-alive"), ("Content-type", "application/json; charset=utf-8"),
        ("Transfer-Encoding", "chunked"), ("OData-Version", "4.0")],
      Body := RPCBody.decoded data }

/-- Lines 309 to 328 of `getPluginManagerResoure`: the request for the plugin, with a
token for a token-based plugin and with the basic credentials otherwise; the error
response when no token could be had; `none` when `GetPluginToken` panics. -/
def authRequest (deps : Deps) (d : DeviceContact) (plugin : Plugin) (s : State) :
    Option (Except RPC PluginContactRequest) × State :=
  let req : PluginContactRequest :=
    { zeroRequest with ContactClient := d.ContactClient, Plugin := plugin }
  if strings.EqualFold plugin.PreferredAuthType "XAuthToken" then
    match deps.GetPluginToken req s with
    | (none, s1) => (none, s1)
    | (some token, s1) =>
      if token == "" then
        (some (.error (GeneralError http.StatusUnauthorized response.NoValidSession
          ("error: Unable to create session with plugin " ++ plugin.ID) [])), s1)
      else (some (.ok { req with Token := token }), s1)
  else
    (some (.ok { req with
      BasicAuth := some [("UserName", plugin.Username), ("Password", plugin.Password)] }), s)

/-- The method `DeviceContact.getPluginManagerResoure`: `none` when it panics. -/
def getPluginManagerResoure (env : Env) (deps : Deps) (d : DeviceContact)
    (managerID reqURI : String) (s : State) : Option RPC × State :=
  match deps.GetManagerByURL ("/redfish/v1/Managers/" ++ managerID) with
  | .error e =>
    (some (GeneralError http.StatusNotFound response.ResourceNotFound e
      ["Managers", managerID]), s)
  | .ok data =>
    match deps.jsonObject data with
    | .error e =>
      (some (GeneralError http.StatusInternalServerError response.InternalError
        ("error unmarshalling manager details: " ++ e) []), s)
    | .ok managerData =>
      match assertString (index managerData "Name") with
      | none => (none, s)
      | some pluginID =>
        match deps.GetPluginData pluginID with
        | .error e =>
          (some (GeneralError http.StatusNotFound response.ResourceNotFound e
            ["Plugin", pluginID]), s)
        | .ok plugin =>
          match authRequest deps d plugin s with
          | (none, s1) => (none, s1)
          | (some (.error resp), s1) => (some resp, s1)
          | (some (.ok req), s1) =>
            let req := { req with OID := reqURI }
            let errorMessage := "error while getting the details " ++ reqURI ++ ": "
            match deps.ContactPlugin req errorMessage s1 with
            | (none, s2) => (none, s2)
            | (some r, s2) =>
              if r.err.isSome then
                if r.status.StatusCode == http.StatusUnauthorized &&
                    strings.EqualFold req.Plugin.PreferredAuthType "XAuthToken" then
                  match deps.RetryManagersOperation req errorMessage s2 with
                  | (none, s3) => (none, s3)
                  | (some r2, s3) =>
                    if r2.err.isSome then (some (failedResponse env r2.body r2.status), s3)
                    else (some (fillResponse env r2.body), s3)
                else (some (failedResponse env r.body r.status), s2)
              else (some (fillResponse env r.body), s2)

end managers

/-! ## Sessions (`svc-account-session/auth/session.go`)

Conventions of this part.

* A `time.Time` is a number of nanoseconds since the Unix epoch, a `time.Duration` a number
  of nanoseconds; `Sub` saturates as in Go.
* `Duration.Minutes()` and the two configured limits are `float64` values; they are taken
  as the rational numbers they denote, and `Minutes` is a parameter about which nothing is
  assumed unless a statement says so.
* Every `time.Since` and `time.Now` of a call reads the clock: a call is given the sequence
  `now` of its readings, `now 0` being the first.
* `go expiredSessionCleanUp()` starts the sweep concurrently with the caller. The sweep is
  the transition `expiredSessionCleanUp` of its own, which runs under `Lock` and may take
  place at any point before or after the lookup of the caller.
-/

namespace errors

/-- The error classes `errors.ErrType` that the sources name; `other` stands for the rest. -/
inductive ErrType where
  | UndefinedErrorType
  | InvalidAuthToken
  | DBKeyNotFound
  | other (code : Nat)
deriving DecidableEq, Repr

/-- The type `errors.Error`: the class `ErrNo()` and the text `Error()`. -/
structure Error where
  ErrNo : ErrType
  text : String
deriving DecidableEq, Repr

/-- Modelled from the spec: `errors.PackError` of `lib-utilities/errors`, which builds the
error of a class of the taxonomy from the parts of its message. -/
def PackError (errVal : ErrType) (a : List String) : Error :=
  { ErrNo := errVal, text := String.join a }

end errors

namespace time

def minDuration : Int := -(2 ^ 63)

def maxDuration : Int := 2 ^ 63 - 1

/-- Go `t.Sub(u)`: the duration `t - u`, or the minimum or maximum duration when it does
not fit. -/
def Sub (t u : Int) : Int :=
  if t - u < minDuration then minDuration
  else if maxDuration < t - u then maxDuration
  else t - u

/-- Go `time.Since(t)` when the clock reads `now`. -/
def Since (now t : Int) : Int := Sub now t

/-- The zero `time.Time` (January 1 of year 1), the initial value of a `time.Time`
variable. -/
def zero : Int := -62135596800000000000

end time

/-- The fields of `asmodel.Session` that the code uses. -/
structure Session where
  Token : String
  UserName : String
  Privileges : List (String × Bool)
  LastUsedTime : Int
deriving DecidableEq, Repr

/-- The fields of `asmodel.User` that the code uses. -/
structure User where
  UserName : String
  Password : String
  RoleID : String
  AccountTypes : List String
deriving DecidableEq, Repr

/-- The failures of the session store for one call: of the key enumeration, and of the
lookup and of the deletion of the record of a token. -/
structure StoreFaults where
  GetAllSessionKeys : Option errors.Error
  GetSession : String → Option errors.Error
  Delete : String → Option errors.Error

namespace asmodel

/-- Modelled from the spec: `asmodel.GetSession`, the lookup of the session record of a
token in the session table; it fails when the store fails, with the error of the store,
and when there is no record, with an error of the class `InvalidAuthToken` (the spec:
validation "fails with `InvalidToken` if token is empty or not found"). -/
def GetSession (faults : StoreFaults) (table : List Session) (token : String) :
    Except errors.Error Session :=
  match faults.GetSession token with
  | some e => .error e
  | none =>
    match table.find? (fun s => s.Token == token) with
    | some s => .ok s
    | none =>
      .error (errors.PackError errors.ErrType.InvalidAuthToken
        ["no data with the with key ", token, " found"])

/-- Modelled from the spec: `asmodel.GetAllSessionKeys`, the enumeration of all session
keys. -/
def GetAllSessionKeys (faults : StoreFaults) (table : List Session) :
    Except errors.Error (List String) :=
  match faults.GetAllSessionKeys with
  | some e => .error e
  | none => .ok (table.map fun s => s.Token)

/-- Modelled from the spec: `Session.Delete`, the deletion of the record of the session's
token from the session table. -/
def Delete (faults : StoreFaults) (table : List Session) (session : Session) :
    Except errors.Error (List Session) :=
  match faults.Delete session.Token with
  | some e => .error e
  | none => .ok (table.filter fun s => s.Token != session.Token)

end asmodel

/-- The configuration `config.Data.AuthConf` and the collaborators of the session code. -/
structure AuthConf where
  /-- The value of `Duration.Minutes()` for a duration in nanoseconds. -/
  Minutes : Int → ℚ
  SessionTimeOutInMins : ℚ
  ExpiredSessionCleanUpTimeInMins : ℚ
  /-- The password digest: `sha3.New512` of the bytes, encoded with `base64.URLEncoding`. -/
  hashPassword : String → String
  /-- The lookup `asmodel.GetUserDetails`. -/
  GetUserDetails : String → Except errors.Error User

/-- The test of lines 65 and 91: the time since the session was last used, in minutes,
exceeds `SessionTimeOutInMins`. -/
def timedOut (conf : AuthConf) (now : Int) (session : Session) : Bool :=
  decide (conf.Minutes (time.Since now session.LastUsedTime) > conf.SessionTimeOutInMins)

/-- The function `CheckSessionCreationCredentials`: the user or the error. -/
def CheckSessionCreationCredentials (conf : AuthConf) (userName password : String) :
    Except errors.Error User :=
  if userName == "" || password == "" then
    .error (errors.PackError errors.ErrType.UndefinedErrorType
      ["error: username or password missing"])
  else
    match conf.GetUserDetails userName with
    | .error err =>
      .error (errors.PackError err.ErrNo
        ["error while trying to get user with username ", userName, ": ", err.text])
    | .ok user =>
      if user.Password != conf.hashPassword password then
        .error (errors.PackError errors.ErrType.UndefinedErrorType ["error: password mismatch "])
      else .ok user

/-- The function `CheckSessionTimeOut`, for the table as its lookup finds it and the
clock reading `now` of line 65: the session or the error. -/
def CheckSessionTimeOut (conf : AuthConf) (faults : StoreFaults) (table : List Session)
    (now : Int) (sessionToken : String) : Except errors.Error Session :=
  if sessionToken == "" then
    .error (errors.PackError errors.ErrType.InvalidAuthToken
      ["error: no session token found in header"])
  else
    match asmodel.GetSession faults table sessionToken with
    | .error err =>
      .error (errors.PackError err.ErrNo
        ["error while trying to get session details with the token ", sessionToken, ": ",
          err.text])
    | .ok session =>
      if timedOut conf now session then
        .error (errors.PackError errors.ErrType.InvalidAuthToken
          ["error: invalid token ", sessionToken])
      else .ok session

/-- The state the sweep works on: the session table and the package variable
`lastExpiredSessionCleanUpTime`. -/
structure AuthState where
  table : List Session
  lastExpiredSessionCleanUpTime : Int

/-- The loop of lines 84 to 98 over the enumerated tokens: `k` is the number of clock
readings made so far, the result is the table and the number of readings after the loop.
A failed lookup and a failed deletion are logged and the loop goes on. -/
def sweepLoop (conf : AuthConf) (faults : StoreFaults) (now : Nat → Int) :
    List String → Nat → List Session → List Session × Nat
  | [], k, table => (table, k)
  | token :: rest, k, table =>
    match asmodel.GetSession faults table token with
    | .error _ => sweepLoop conf faults now rest k table
    | .ok session =>
      if timedOut conf (now k) session then
        match asmodel.Delete faults table session with
        | .error _ => sweepLoop conf faults now rest (k + 1) table
        | .ok table1 => sweepLoop conf faults now rest (k + 1) table1
      else sweepLoop conf faults now rest (k + 1) table

/-- The function `expiredSessionCleanUp`, run under `Lock` with the clock readings `now`. -/
def expiredSessionCleanUp (conf : AuthConf) (faults : StoreFaults) (now : Nat → Int)
    (st : AuthState) : AuthState :=
  if conf.Minutes (time.Since (now 0) st.lastExpiredSessionCleanUpTime) >
      conf.ExpiredSessionCleanUpTimeInMins then
    match asmodel.GetAllSessionKeys faults st.table with
    | .error _ => st
    | .ok sessionTokens =>
      let swept := sweepLoop conf faults now sessionTokens 1 st.table
      { table := swept.1, lastExpiredSessionCleanUpTime := now swept.2 }
  else st

/-! ## Event subscriptions at start-up (`plugin-redfish/rfphandler/pluginStatus.go`)

The calls of the Redfish client to a device are recorded in a trace, and the client
answers as a function of the trace and of the call, as the plugin client does above.
`checkCreateSub` sends one message on one of its two channels; the embedding returns that
message, or `none` when the function dereferences a nil response.
-/

namespace http

/-- The bytes Go accepts in a header key (`validHeaderFieldByte`). -/
def validHeaderFieldByte (c : Char) : Bool :=
  c.isAlphanum || "!#$%&*+-.^_|~".data.contains c || c.toNat = 39 || c.toNat = 96

/-- The loop of `textproto.CanonicalMIMEHeaderKey`: the first letter and every letter after
a hyphen in upper case, the others in lower case. -/
def canonicalLoop : Bool → List Char → List Char
  | _, [] => []
  | upper, c :: cs =>
    let c1 := if upper then c.toUpper else c.toLower
    c1 :: canonicalLoop (c1 == '-') cs

/-- Go `textproto.CanonicalMIMEHeaderKey`, which `Header.Get` applies to its argument; a
key with a byte that is not valid in a header key is left as it is. -/
def CanonicalMIMEHeaderKey (key : String) : String :=
  if key.data.all validHeaderFieldByte then ⟨canonicalLoop true key.data⟩ else key

end http

namespace rfphandler

/-- The fields of `rfpmodel.Device` that the code uses. -/
structure Device where
  Host : String
  Username : String
  Password : String
deriving DecidableEq, Repr

/-- The fields of `rfpmodel.Startup`; a `[]string` is `none` when it is nil. -/
structure Startup where
  Location : String
  EventTypes : Option (List String)
  Device : Device
deriving DecidableEq, Repr

/-- The fields of `rfpmodel.EvtSubPost` that the code sets or reads. -/
structure EvtSubPost where
  Destination : String
  EventTypes : Option (List String)
  Context : String
  Protocol : String
deriving DecidableEq, Repr

/-- The fields of `rfputilities.RedfishDevice` that the code sets. -/
structure RedfishDevice where
  Host : String
  Username : String
  Password : String
  Location : String
  PostBody : Option String
deriving DecidableEq, Repr

/-- A call of a method of the Redfish client. -/
inductive DeviceCall where
  | GetSubscriptionDetail (device : RedfishDevice)
  | DeleteSubscriptionDetail (device : RedfishDevice)
  | SubscribeForEvents (device : RedfishDevice)
deriving DecidableEq, Repr

/-- The Redfish client: the Go pair `(*http.Response, error)` of a call, as a function of
the calls made before and of the call. -/
abbrev RedfishClient := List DeviceCall → DeviceCall → Option http.Response × Option String

/-- The collaborators and the configuration of the handler. -/
structure PluginEnv where
  /-- The result of `rfputilities.GetRedfishClient()`. -/
  GetRedfishClient : Except String RedfishClient
  /-- The result of `json.Unmarshal` of a body into an `rfpmodel.EvtSubPost`. -/
  jsonEvtSubPost : String → Except String EvtSubPost
  /-- The result of `json.Marshal` of an `rfpmodel.EvtSubPost`. -/
  jsonMarshal : EvtSubPost → Except String String
  LoadBalancerHost : String
  LoadBalancerPort : String
  DestURI : String

/-- The message `checkCreateSub` sends: an error on `errorCh` or its map `respBody` on
`startUpResponse`. -/
inductive Message where
  | error (text : String)
  | result (respBody : List (String × String))
deriving DecidableEq, Repr

/-- Go `reflect.DeepEqual` on two `[]string`: both nil, or both non-nil with the same
elements in the same order. -/
def DeepEqual (a b : Option (List String)) : Bool := a == b

/-- One call of the client: the answer, and the call appended to the trace. -/
def call (client : RedfishClient) (c : DeviceCall) (trace : List DeviceCall) :
    (Option http.Response × Option String) × List DeviceCall :=
  (client trace c, trace ++ [c])

/-- The request `req` of lines 185 and 209, for the given event types. -/
def subscriptionRequest (env : PluginEnv) (eventTypes : Option (List String)) : EvtSubPost :=
  { Destination := "https://" ++ env.LoadBalancerHost ++ ":" ++ env.LoadBalancerPort ++ env.DestURI,
    EventTypes := eventTypes, Context := "Event Subscription", Protocol := "Redfish" }

/-- The message of lines 231 and 232 for a response: the map with the `location` header of
the response under the host of the device. -/
def located (startup : Startup) (resp : http.Response) : Message :=
  Message.result [(startup.Device.Host, resp.Header.Get (http.CanonicalMIMEHeaderKey "location"))]

/-- The value `device` that `checkCreateSub` builds from the start-up entry. -/
def redfishDevice (startup : Startup) : RedfishDevice :=
  { Host := startup.Device.Host, Username := startup.Device.Username,
    Password := startup.Device.Password, Location := startup.Location, PostBody := none }

/-- The function `checkCreateSub`. In the branch of status 200 the responses of the
deletion and of the subscription are held by a variable `resp` declared inside the block
(`resp, err := ...` at line 177), so that line 231 reads the response of the query. -/
def checkCreateSub (env : PluginEnv) (startup : Startup) (trace : List DeviceCall) :
    Option Message × List DeviceCall :=
  let device := redfishDevice startup
  match env.GetRedfishClient with
  | .error e => (some (Message.error e), trace)
  | .ok redfishClient =>
    match call redfishClient (DeviceCall.GetSubscriptionDetail device) trace with
    | ((_, some e), t1) => (some (Message.error e), t1)
    | ((none, none), t1) => (none, t1)
    | ((some resp, none), t1) =>
      if resp.StatusCode == http.StatusOK then
        match resp.Body with
        | .error e => (some (Message.error e), t1)
        | .ok body =>
          match env.jsonEvtSubPost body with
          | .error e => (some (Message.error e), t1)
          | .ok obj =>
            if !DeepEqual obj.EventTypes startup.EventTypes then
              match call redfishClient (DeviceCall.DeleteSubscriptionDetail device) t1 with
              | ((_, some e), t2) => (some (Message.error e), t2)
              | ((none, none), t2) => (none, t2)
              | ((some _, none), t2) =>
                match env.jsonMarshal (subscriptionRequest env startup.EventTypes) with
                | .error e => (some (Message.error e), t2)
                | .ok postBody =>
                  match call redfishClient
                      (DeviceCall.SubscribeForEvents { device with PostBody := some postBody })
                      t2 with
                  | ((_, some e), t3) => (some (Message.error e), t3)
                  | ((none, none), t3) => (none, t3)
                  | ((some _, none), t3) => (some (located startup resp), t3)
            else (some (located startup resp), t1)
      else if resp.StatusCode == http.StatusNotFound then
        match env.jsonMarshal (subscriptionRequest env (some ["Alert"])) with
        | .error e => (some (Message.error e), t1)
        | .ok postBody =>
          match call redfishClient
              (DeviceCall.SubscribeForEvents { device with PostBody := some postBody }) t1 with
          | ((_, some e), t2) => (some (Message.error e), t2)
          | ((none, none), t2) => (none, t2)
          | ((some resp1, none), t2) => (some (located startup resp1), t2)
      else (some (located startup resp), t1)

/-- Lines 115 to 117 of the collector in `GetPluginStartup`: every entry of a received map
is written into `respBody` (a map is a function from its keys). -/
def mergeResult (respBody : String → Option String) (startResp : List (String × String)) :
    String → Option String :=
  startResp.foldl (fun m kv => fun k => if k = kv.1 then some kv.2 else m k) respBody

/-- The map `respBody` after the collector has received the maps of a list, in order. -/
def mergeAll (arrivals : List (List (String × String))) : String → Option String :=
  arrivals.foldl mergeResult (fun _ => none)

end rfphandler

/-! ## The manager resources (`svc-managers/managers/managers.go`) -/

namespace managers

/-- The request `managersproto.ManagerRequest`. -/
structure ManagerRequest where
  SessionToken : String
  ManagerID : String
  URL : String
  ResourceID : String
deriving DecidableEq, Repr

/-- The fields of `mgrcommon.ResourceInfoRequest` that `getResourceInfoFromDevice` sets,
but for the function `DecryptDevicePassword`. -/
structure ResourceInfoRequest where
  URL : String
  UUID : String
  SystemID : String
  ContactClient : Client

/-- The table and the functions that `GetManagersResource` uses and whose code is not part
of the sources at hand; nothing is assumed about them. A result `none` is a panic inside
the function. -/
structure ResourceDeps where
  /-- The map `common.ManagersResource`: the empty text for a name without entry. -/
  ManagersResource : String → String
  GetResource : String → String → Except errors.Error String
  /-- The function held by the field `GetDeviceInfo` of `DeviceContact`. -/
  GetDeviceInfo : ResourceInfoRequest → State → Option (Except String String) × State

/-- The index expression `a[i]` on a slice: `none` is the panic of an index out of
range. -/
def sliceIndex (a : List String) (i : Int) : Option String :=
  if i < 0 then none else a.get? i.toNat

/-- Lines 141 to 144 of `GetManagers`: the variable `managerType` after the lookup of
"ManagerType" and the type assertion on the value found; `none` when the assertion
panics. -/
def managerType (managerData : List (String × JSONValue)) : Option String :=
  match index managerData "ManagerType" with
  | none => some ""
  | some val => assertString (some val)

/-- The method `DeviceContact.getResourceInfoFromDevice`. -/
def getResourceInfoFromDevice (rdeps : ResourceDeps) (d : DeviceContact)
    (reqURL uuid systemID : String) (s : State) : Option (Except String String) × State :=
  rdeps.GetDeviceInfo
    { URL := reqURL, UUID := uuid, SystemID := systemID, ContactClient := d.ContactClient } s

/-- The response of `GetManagersResource` for the text of a resource: the body is the
decoded text, nil when it cannot be decoded (the error of `json.Unmarshal` is dropped). -/
def resourceFound (env : Env) (data : String) : RPC :=
  { StatusCode := http.StatusOK, StatusMessage := response.Success,
    Header := [("Allow", "\"GET\""), ("Cache-Control", "no-cache"),
      ("Connection", "keep-alive"), ("Content-type", "application/json; charset=utf-8"),
      ("Transfer-Encoding", "chunked"), ("OData-Version", "4.0")],
    Body := if (env.jsonMapError data).isNone then RPCBody.decoded data else RPCBody.nil }

/-- The method `DeviceContact.GetManagersResource`: `none` when it panics. -/
def GetManagersResource (env : Env) (deps : Deps) (rdeps : ResourceDeps) (d : DeviceContact)
    (req : ManagerRequest) (s : State) : Option RPC × State :=
  let requestData := strings.Split req.ManagerID ":"
  if requestData.length ≤ 1 then
    match sliceIndex requestData 0 with
    | none => (none, s)
    | some managerID => getPluginManagerResoure env deps d managerID req.URL s
  else
    match sliceIndex requestData 0 with
    | none => (none, s)
    | some uuid =>
      let urlData := strings.Split req.URL "/"
      let tableName : Option String :=
        if req.ResourceID == "" then
          (sliceIndex urlData ((urlData.length : Int) - 1)).map rdeps.ManagersResource
        else sliceIndex urlData ((urlData.length : Int) - 2)
      match tableName with
      | none => (none, s)
      | some tableName =>
        match rdeps.GetResource tableName req.URL with
        | .ok data => (some (resourceFound env data), s)
        | .error err =>
          if err.ErrNo == errors.ErrType.DBKeyNotFound then
            match sliceIndex requestData 1 with
            | none => (none, s)
            | some systemID =>
              match getResourceInfoFromDevice rdeps d req.URL uuid systemID s with
              | (none, s1) => (none, s1)
              | (some (.error e), s1) =>
                (some (GeneralError http.StatusNotFound response.ResourceNotFound
                  ("error while getting details from device: " ++ e)
                  [tableName, req.ManagerID]), s1)
              | (some (.ok data), s1) => (some (resourceFound env data), s1)
          else
            (some (GeneralError http.StatusInternalServerError response.InternalError
              ("error getting managers details: " ++ err.text) []), s)

end managers

/-! ## Account update (`svc-account-session/account/update.go`)

The session is the one the caller has looked up: the pointer `session` is not nil. The
write of the account is the call `user.UpdateUserDetails(requestUser)`; `Update` returns,
next to its response, the list of the calls of `UpdateUserDetails` it has made, each with
its receiver and its argument. -/

namespace http

def StatusForbidden : Int := 403

end http

namespace response

/-- Modelled from the spec: the status message constant `response.GeneralError`. -/
def GeneralError : String := "GeneralError"
/-- Modelled from the spec: the status message constant `response.PropertyValueNotInList`. -/
def PropertyValueNotInList : String := "PropertyValueNotInList"
/-- Modelled from the spec: the status message constant `response.InsufficientPrivilege`. -/
def InsufficientPrivilege : String := "InsufficientPrivilege"
/-- Modelled from the spec: the status message constant
`response.PropertyValueFormatError`. -/
def PropertyValueFormatError : String := "PropertyValueFormatError"
/-- Modelled from the spec: the status message constant `response.AccountModified`. -/
def AccountModified : String := "AccountModified"

end response

namespace account

/-- Modelled from the spec: the privilege constant `common.PrivilegeConfigureUsers`. -/
def PrivilegeConfigureUsers : String := "ConfigureUsers"

/-- Modelled from the spec: the privilege constant `common.PrivilegeConfigureSelf`. -/
def PrivilegeConfigureSelf : String := "ConfigureSelf"

/-- The fields of `accountproto.UpdateAccountRequest` that `Update` reads. -/
structure UpdateAccountRequest where
  AccountID : String
  UserName : String
  Password : String
  RoleId : String
deriving DecidableEq, Repr

/-- The struct `response.ErrArgs`. -/
structure ErrArgs where
  StatusMessage : String
  ErrorMessage : String
  MessageArgs : List String
deriving DecidableEq, Repr

/-- The struct `response.Args`. -/
structure Args where
  Code : String
  Message : String
  ErrorArgs : List ErrArgs
deriving DecidableEq, Repr

/-- The struct `response.Response` as `Update` fills it. -/
structure Response where
  OdataType : String
  OdataID : String
  OdataContext : String
  ID : String
  Name : String
deriving DecidableEq, Repr

/-- The struct `asresponse.Account` as `Update` fills it; `Message` is the argument of
`CreateGenericResponse`, `Role` the `OdataID` of the link to the role. -/
structure Account where
  Response : Response
  Message : String
  UserName : String
  RoleID : String
  AccountTypes : List String
  Role : String
deriving DecidableEq, Repr

/-- The body of a response of `Update`: nil, what `CreateGenericErrorResponse` makes of
its arguments (represented by the arguments), what `CreateInternalErrorResponse` makes of
a message, or an account. -/
inductive Body where
  | nil
  | genericError (args : Args)
  | internalError (errorMessage : String)
  | account (a : Account)
deriving DecidableEq, Repr

/-- The struct `response.RPC` with the bodies of `Update`. -/
structure RPC where
  StatusCode : Int
  StatusMessage : String
  Header : http.Header
  Body : Body
deriving DecidableEq, Repr

/-- The constants and functions of `common`, `asmodel`, `response` and of the package that
`Update` uses and whose code is not part of the sources at hand; nothing is assumed about
them. -/
structure Deps where
  RoleAdmin : String
  RoleMonitor : String
  RoleClient : String
  /-- The error of `asmodel.GetRoleDetailsByID`. -/
  GetRoleDetailsByID : String → Option errors.Error
  GetUserDetails : String → Except errors.Error User
  /-- The error of `validatePassword` for a user name and a password. -/
  validatePassword : String → String → Option String
  /-- The SHA3-512 digest of a password in URL-safe base64. -/
  hashPassword : String → String
  /-- The error of `user.UpdateUserDetails(requestUser)`. -/
  UpdateUserDetails : User → User → Option errors.Error
  /-- The response after `resp.CreateInternalErrorResponse(errorMessage)` on the zero
  response. -/
  CreateInternalErrorResponse : String → RPC

/-- The index expression `session.Privileges[privilege]` on the map of a session: false
for a privilege without entry. -/
def privilege (session : Session) (name : String) : Bool :=
  ((session.Privileges.find? fun kv => kv.1 == name).map fun kv => kv.2).getD false

/-- The header of every error response of `Update`. -/
def errorHeader : http.Header := [("Content-type", "application/json; charset=utf-8")]

/-- An error response of `Update` with one entry of error arguments. -/
def errorResponse (statusCode : Int) (statusMessage errorMessage : String)
    (messageArgs : List String) : RPC :=
  { StatusCode := statusCode, StatusMessage := statusMessage, Header := errorHeader,
    Body := Body.genericError
      { Code := response.GeneralError, Message := "",
        ErrorArgs := [⟨statusMessage, errorMessage, messageArgs⟩] } }

/-- Lines 81 to 84 of `Update`: whether the role of the request is looked up and the
lookup fails. -/
def invalidRole (deps : Deps) (roleID : String) : Bool :=
  if roleID != "" then
    if roleID != deps.RoleAdmin then
      if roleID != deps.RoleMonitor then
        if roleID != deps.RoleClient then (deps.GetRoleDetailsByID roleID).isSome
        else false
      else false
    else false
  else false

/-- Lines 194 to 247 of `Update`: the response that rejects the new password, or the
`requestUser` to write, in which a new password is replaced by its digest. -/
def checkPassword (deps : Deps) (session : Session) (user requestUser : User) :
    Except RPC User :=
  if requestUser.Password != "" then
    if !privilege session PrivilegeConfigureSelf &&
        !privilege session PrivilegeConfigureUsers then
      .error (errorResponse http.StatusForbidden response.InsufficientPrivilege
        "error: roles, user is associated with, doesn't allow changing own or other users password"
        [])
    else
      match deps.validatePassword user.UserName requestUser.Password with
      | some e =>
        .error (errorResponse http.StatusBadRequest response.PropertyValueFormatError e
          [requestUser.Password, "Password"])
      | none => .ok { requestUser with Password := deps.hashPassword requestUser.Password }
  else .ok requestUser

/-- The successful response of `Update` for the stored account `user`. -/
def accountModified (req : UpdateAccountRequest) (user : User) : RPC :=
  { StatusCode := http.StatusOK, StatusMessage := response.AccountModified,
    Header := [("Cache-Control", "no-cache"), ("Connection", "keep-alive"),
      ("Content-type", "application/json; charset=utf-8"),
      ("Link", "</redfish/v1/AccountService/Accounts/" ++ user.UserName ++
        "/>; rel=describedby"),
      ("Location", "/redfish/v1/AccountService/Accounts/" ++ user.UserName ++ "/"),
      ("Transfer-Encoding", "chunked"), ("OData-Version", "4.0")],
    Body := Body.account
      { Response :=
          { OdataType := "#ManagerAccount.v1_4_0.ManagerAccount",
            OdataID := "/redfish/v1/AccountService/Accounts/" ++ req.AccountID,
            OdataContext := "/redfish/v1/$metadata#ManagerAccount.ManagerAccount",
            ID := req.AccountID, Name := "Account Service" },
        Message := response.AccountModified,
        UserName := user.UserName, RoleID := user.RoleID, AccountTypes := user.AccountTypes,
        Role := "/redfish/v1/AccountService/Roles/" ++ user.RoleID ++ "/" } }

/-- The function `Update`: its response, and the calls of `UpdateUserDetails` it has
made (receiver and argument). -/
def Update (deps : Deps) (req : UpdateAccountRequest) (session : Session) :
    RPC × List (User × User) :=
  let requestUser : User :=
    { UserName := req.UserName, Password := req.Password, RoleID := req.RoleId,
      AccountTypes := ["Redfish"] }
  let id := req.AccountID
  if requestUser.UserName != "" then
    ({ StatusCode := http.StatusBadRequest, StatusMessage := response.GeneralError,
       Header := errorHeader,
       Body := Body.genericError
        { Code := response.GeneralError, Message := "error: username cannot be modified",
          ErrorArgs := [] } }, [])
  else if invalidRole deps requestUser.RoleID then
    (errorResponse http.StatusBadRequest response.PropertyValueNotInList
      ("error: Invalid RoleID " ++ requestUser.RoleID ++ " present")
      [requestUser.RoleID, "RoleID"], [])
  else
    match deps.GetUserDetails id with
    | .error gerr =>
      let errorMessage := "error while trying to get  account: " ++ gerr.text
      if gerr.ErrNo == errors.ErrType.DBKeyNotFound then
        (errorResponse http.StatusNotFound response.ResourceNotFound errorMessage
          ["Account", id], [])
      else
        ({ deps.CreateInternalErrorResponse errorMessage with Header := errorHeader }, [])
    | .ok user =>
      if user.UserName != session.UserName &&
          !privilege session PrivilegeConfigureUsers then
        (errorResponse http.StatusForbidden response.InsufficientPrivilege
          "error: user does not have the privilege to update other accounts" [], [])
      else if requestUser.RoleID != "" && !privilege session PrivilegeConfigureUsers then
        (errorResponse http.StatusForbidden response.InsufficientPrivilege
          "error: user does not have the privilege to update any account role, including his own account"
          [], [])
      else
        match checkPassword deps session user requestUser with
        | .error resp => (resp, [])
        | .ok requestUser =>
          match deps.UpdateUserDetails user requestUser with
          | some uerr =>
            ({ deps.CreateInternalErrorResponse
                ("error while trying to update user: " ++ uerr.text) with
               Header := errorHeader }, [(user, requestUser)])
          | none => (accountModified req user, [(user, requestUser)])

end account

/-! ## The handlers of the plugin (`plugin-redfish/rfphandler/pluginStatus.go`)

`GetPluginStartup` starts one goroutine that collects and one worker for every entry of
the request. The goroutines meet on three unbuffered channels and on a wait group; they
are embedded as a transition system on the states `Run`. A worker is an entry of
`pending` from its start until the collector has received its message: a send on an
unbuffered channel completes only with the receive. A state without enabled transition in
which a goroutine has not returned is a state in which that goroutine stays blocked. -/

namespace rfphandler

/-- The struct `rfpresponse.EmbQueue`. -/
structure EmbQueue where
  QueueName : String
  QueueDesc : String
deriving DecidableEq, Repr

/-- The struct `rfpresponse.EventMessageBus`; a `[]EmbQueue` is `none` when it is nil. -/
structure EventMessageBus where
  EmbType : String
  EmbQueue : Option (List EmbQueue)
deriving DecidableEq, Repr

/-- The value `rfputilities.Status`: its time stamp, and its other fields as a text. -/
structure Status where
  fields : String
  TimeStamp : String
deriving DecidableEq, Repr

/-- The struct `rfpresponse.PluginStatusResponse`. -/
structure PluginStatusResponse where
  Comment : String
  Name : String
  Version : String
  Status : Status
  EventMessageBus : EventMessageBus
deriving DecidableEq, Repr

/-- The configuration and the variables that `GetPluginStatus` reads: the message bus of
`pluginConfig.Data`, the variable `rfputilities.Status`, and the text of
`time.Now().Format(time.RFC3339)`. -/
structure StatusConf where
  EmbType : String
  EmbQueue : List String
  Status : Status
  now : String

/-- The part of a request that the handlers read: the headers, with canonical keys, and
the body. -/
structure Request where
  Header : http.Header
  Body : String
deriving DecidableEq, Repr

/-- What a handler writes to its context: the status code of `ctx.StatusCode` with the
text of `ctx.WriteString`, or with the value of `ctx.JSON`. -/
inductive Reply where
  | text (StatusCode : Int) (text : String)
  | status (StatusCode : Int) (resp : PluginStatusResponse)
deriving DecidableEq, Repr

/-- The status code of a reply. -/
def Reply.StatusCode : Reply → Int
  | Reply.text code _ => code
  | Reply.status code _ => code

/-- The loop of `GetPluginStatus` over the configured queue names: `messageQueueInfo`
starts nil and every iteration appends an entry. -/
def messageQueueInfo (queues : List String) : Option (List EmbQueue) :=
  queues.foldl
    (fun info name => some (info.getD [] ++ [⟨name, "Queue for redfish events"⟩])) none

/-- The handler `GetPluginStatus`. -/
def GetPluginStatus (TokenValidation : String → Bool) (conf : StatusConf) (req : Request) :
    Reply :=
  let token := req.Header.Get (http.CanonicalMIMEHeaderKey "X-Auth-Token")
  if token != "" && !TokenValidation token then
    Reply.text http.StatusUnauthorized "Invalid/Expired X-Auth-Token"
  else
    Reply.status http.StatusOK
      { Comment := "Plugin Status Response", Name := "Common Redfish Plugin Status",
        Version := "v0.1", Status := { conf.Status with TimeStamp := conf.now },
        EventMessageBus :=
          { EmbType := conf.EmbType, EmbQueue := messageQueueInfo conf.EmbQueue } }

/-- Where the collecting goroutine is: in its `select`, or returned. -/
inductive Collector where
  | selecting
  | returned
deriving DecidableEq, Repr

/-- Where the handler is after the start of the workers: in `writeWG.Wait()`, in the send
`quit <- true`, or returned. -/
inductive Handler where
  | waiting
  | sendingQuit
  | returned
deriving DecidableEq, Repr

/-- What the goroutines of `GetPluginStartup` write to the context: status 500 with the
text of an error, or status 200 with the JSON of `respBody`. -/
inductive Written where
  | error (text : String)
  | respBody
deriving DecidableEq, Repr

/-- The status code of a write. -/
def Written.StatusCode : Written → Int
  | Written.error _ => http.StatusInternalServerError
  | Written.respBody => http.StatusOK

/-- The state of the goroutines of `GetPluginStartup` once the workers are started:
the messages of the workers that have not yet been received, the counter of `writeWG`,
the collector, the handler, the map `respBody`, and what has been written. -/
structure Run where
  pending : List Message
  counter : Int
  collector : Collector
  handler : Handler
  respBody : String → Option String
  written : List Written

/-- The transitions: the collector receives the message of the pending worker `i` (on
`errorCh` or on `startUpResponse`), `writeWG.Wait()` returns, the collector receives the
value the handler sends on `quit`. -/
inductive Action where
  | receive (i : Nat)
  | waitReturns
  | quit
deriving DecidableEq, Repr

/-- One transition; `none` when it is not enabled. A received error is written with
status 500 and ends the collector (`return` at line 113); a received map is merged into
`respBody`; both count the wait group down. After the receive on `quit` the `break`
leaves the `select` only, and the collector is in its `select` again, while the handler
writes `respBody` with status 200 and returns. -/
def step (a : Action) (r : Run) : Option Run :=
  match a with
  | Action.receive i =>
    if r.collector = Collector.selecting then
      match r.pending.get? i with
      | none => none
      | some (Message.error text) =>
        some { r with pending := r.pending.eraseIdx i, counter := r.counter - 1,
                      collector := Collector.returned,
                      written := r.written ++ [Written.error text] }
      | some (Message.result startResp) =>
        some { r with pending := r.pending.eraseIdx i, counter := r.counter - 1,
                      respBody := mergeResult r.respBody startResp }
    else none
  | Action.waitReturns =>
    if r.handler = Handler.waiting ∧ r.counter = 0 then
      some { r with handler := Handler.sendingQuit }
    else none
  | Action.quit =>
    if r.handler = Handler.sendingQuit ∧ r.collector = Collector.selecting then
      some { r with handler := Handler.returned, written := r.written ++ [Written.respBody] }
    else none

/-- The state after a sequence of transitions; `none` when one of them is not enabled. -/
def run : List Action → Run → Option Run
  | [], r => some r
  | a :: rest, r => (step a r).bind (run rest)

/-- The enabled transitions of a state. -/
def enabled (r : Run) : List Action :=
  ((List.range r.pending.length).map Action.receive ++ [Action.waitReturns, Action.quit]).filter
    fun a => (step a r).isSome

/-- The state in which the handler reaches `writeWG.Wait()`: every worker has been
counted and started and is pending with its message, nothing has been received. -/
def start (messages : List Message) : Run :=
  { pending := messages, counter := messages.length, collector := Collector.selecting,
    handler := Handler.waiting, respBody := fun _ => none, written := [] }

/-- The handler `GetPluginStartup` up to `writeWG.Wait()`: the reply when the token or
the body is rejected, and the state of the goroutines otherwise. `ReadJSON` is the result
of `ctx.ReadJSON` for the body, `worker` the message that `checkCreateSub` comes to send
for an entry. -/
def GetPluginStartup (TokenValidation : String → Bool)
    (ReadJSON : String → Except String (List Startup)) (worker : Startup → Message)
    (req : Request) : Except Reply Run :=
  let token := req.Header.Get (http.CanonicalMIMEHeaderKey "X-Auth-Token")
  if token != "" && !TokenValidation token then
    .error (Reply.text http.StatusUnauthorized "Invalid/Expired X-Auth-Token")
  else
    match ReadJSON req.Body with
    | .error _ => .error (Reply.text http.StatusBadRequest "Error: bad request.")
    | .ok startup => .ok (start (startup.map worker))

end rfphandler

/-! ## Auxiliary definitions for the statements -/

/-- The invocations one `callPlugin` makes, in order. -/
def callEvents (req : pluginContactRequest) : List Event :=
  (if strings.EqualFold req.Plugin.PreferredAuthType "BasicAuth"
    then [Event.call (firstCall req)] else []) ++ [Event.call (returnedCall req)]

/-- An environment whose liveness probe always answers `alive`, with empty translation
tables and a JSON decoder that rejects the empty text only. -/
def sampleEnv (alive : Bool) : Env :=
  { CheckStatus := fun _ _ => (alive, none), verbs := fun t => t,
    jsonError := fun t => if t = "" then some "unexpected end of JSON input" else none,
    jsonMapError := fun t => if t = "" then some "unexpected end of JSON input" else none,
    jsonMarshal := fun _ => some "{}",
    GetManagingPluginIDForFabricID := fun id => .ok ⟨id, "GRF"⟩,
    GetPluginData := fun id => .ok ⟨id, "10.0.0.1", "9091", "admin", "secret", "BasicAuth"⟩,
    GetAllTheFabrics := [], SouthBoundURL := [], NorthBoundURL := [] }

/-- A token-based plugin. -/
def tokenPlugin : Plugin := ⟨"GRF", "10.0.0.1", "9091", "admin", "secret", "XAuthToken"⟩

/-- A plugin with basic authentication. -/
def basicPlugin : Plugin := ⟨"ILO", "10.0.0.2", "9092", "admin", "secret", "BasicAuth"⟩

/-- The state of a fresh process: nothing asked yet, no token cached. -/
def emptyState : State := { trace := [], Tokens := fun _ => "" }

/-- A client that cannot connect: "connection refused" at its first invocation,
"timeout" at every later one. -/
def refusedThenTimeout : Client := fun trace _ =>
  if trace.isEmpty then (none, some "connection refused") else (none, some "timeout")

/-- A client that answers 200 to an invocation with credentials and 401 to one without. -/
def credentialsOnly : Client := fun _ c =>
  if c.basicAuth.isSome then (some ⟨200, [], .ok "{}"⟩, none)
  else (some ⟨401, [], .ok "{}"⟩, none)

/-- A GET of a switch collection through a client. -/
def sampleRequest (client : Client) (plugin : Plugin) : pluginContactRequest :=
  { URL := "/ODIM/v1/Fabrics/f1/Switches", HTTPMethodType := "GET", ContactClient := client,
    PostBody := PostBody.nil, LoginCredential := none, Plugin := plugin, Token := "" }

/-- The invocations one `contactPlugin` makes from a state: the call, then after an error
the probe and, if it reports the plugin up, one more call. -/
def contactEvents (env : Env) (req : pluginContactRequest) (s : State) : List Event :=
  callEvents req ++
    (if (callPlugin req s).1.2.isSome then
      Event.probe req.Plugin ::
        (if (getPluginStatus env req.Plugin (callPlugin req s).2).1 then callEvents req else [])
     else [])

/-- A plugin whose sessions have all expired: it answers a login (a POST of credentials)
with 201 and the token "fresh", and every other invocation with 401. -/
def expiredSessions : Client := fun _ c =>
  match c.body with
  | PostBody.login _ _ => (some ⟨201, [("X-Auth-Token", "fresh")], .ok "{}"⟩, none)
  | _ => (some ⟨401, [], .ok "{}"⟩, none)

/-- A plugin that answers every invocation with 404. -/
def notFound : Client := fun _ _ => (some ⟨404, [], .ok "{}"⟩, none)

/-- A handler whose authorizer accepts every session. -/
def sampleFabrics (client : Client) : Fabrics :=
  { Auth := fun _ _ _ => (200, "Success"), ContactClient := client }

/-- A state whose cache holds the token "stale" for every plugin. -/
def staleState : State := { trace := [], Tokens := fun _ => "stale" }

/-- Collaborators of the manager handler: the manager record names the plugin "GRF", which
is token-based with the token "cached", and the plugin contact answers 404. -/
def sampleDeps : managers.Deps :=
  { GetManagerByURL := fun _ => .ok "{}",
    jsonObject := fun _ => .ok [("Name", managers.JSONValue.str "GRF")],
    GetPluginData := fun _ => .ok tokenPlugin,
    GetPluginToken := fun _ s => (some "cached", s),
    ContactPlugin := fun _ m s => (some ⟨some "{}", "", ⟨404, "", ""⟩, some m⟩, s),
    RetryManagersOperation := fun _ m s => (some ⟨some "{}", "", ⟨401, "", ""⟩, some m⟩, s) }

/-- An environment as `sampleEnv`, with the given southbound translation table. -/
def translatingEnv (table : List (String × String)) : Env :=
  { sampleEnv true with SouthBoundURL := table }

/-- A POST to the ports of a fabric. -/
def portRequest : FabricRequest :=
  { SessionToken := "session", Method := "POST", URL := "/redfish/v1/Fabrics/f1/Ports",
    RequestBody := "\x7b\"Link\": \"/redfish/v1/Fabrics/f1\"\x7d" }

/-- One run of the sweep: the failures of the store during the run and the clock
readings of the run. -/
structure SweepCall where
  faults : StoreFaults
  now : Nat → Int

/-- The sweeps of a sequence of calls, one after the other (they run under `Lock`). -/
def runSweeps (conf : AuthConf) : List SweepCall → AuthState → AuthState
  | [], st => st
  | c :: cs, st => runSweeps conf cs (expiredSessionCleanUp conf c.faults c.now st)

/-- Whether a call of the sweep in a state enumerates the session table: the sweep is due
and the keys are obtained, so that the loop over them runs. -/
def enumerates (conf : AuthConf) (c : SweepCall) (st : AuthState) : Bool :=
  decide (conf.Minutes (time.Since (c.now 0) st.lastExpiredSessionCleanUpTime) >
    conf.ExpiredSessionCleanUpTimeInMins) && c.faults.GetAllSessionKeys.isNone

/-- The number of calls of a sequence that enumerate the session table. -/
def enumerations (conf : AuthConf) : List SweepCall → AuthState → Nat
  | [], _ => 0
  | c :: cs, st =>
    (if enumerates conf c st then 1 else 0) +
      enumerations conf cs (expiredSessionCleanUp conf c.faults c.now st)

/-- The sessions of a table that a sweep leaves, session by session: a session stays when
its lookup fails, when it has not timed out at the clock reading made for it, or when its
deletion fails; `k` is the number of the next clock reading. -/
def survivors (conf : AuthConf) (faults : StoreFaults) (now : Nat → Int) :
    Nat → List Session → List Session
  | _, [] => []
  | k, s :: rest =>
    if (faults.GetSession s.Token).isSome then s :: survivors conf faults now k rest
    else if timedOut conf (now k) s && (faults.Delete s.Token).isNone then
      survivors conf faults now (k + 1) rest
    else s :: survivors conf faults now (k + 1) rest

/-- The number of sessions of a table whose lookup succeeds (one clock reading each). -/
def lookups (faults : StoreFaults) (table : List Session) : Nat :=
  (table.filter fun s => (faults.GetSession s.Token).isNone).length

/-- A store without failures. -/
def noFaults : StoreFaults :=
  { GetAllSessionKeys := none, GetSession := fun _ => none, Delete := fun _ => none }

/-- The exact number of minutes of a duration in nanoseconds. -/
def exactMinutes (d : Int) : ℚ := (d : ℚ) / 60000000000

/-- A configuration with a session timeout of 30 minutes and a sweep interval of 15;
the only user is "admin", whose stored password is the digest of "secret". -/
def sampleAuthConf : AuthConf :=
  { Minutes := exactMinutes, SessionTimeOutInMins := 30, ExpiredSessionCleanUpTimeInMins := 15,
    hashPassword := fun p => "sha3(" ++ p ++ ")",
    GetUserDetails := fun name =>
      if name = "admin" then .ok ⟨"admin", "sha3(secret)", "Administrator", ["Redfish"]⟩
      else .error (errors.PackError errors.ErrType.DBKeyNotFound
        ["no data with the with key ", name, " found"]) }

/-- One minute, in nanoseconds. -/
def minute : Int := 60000000000

/-- A session last used at time 0. -/
def oldSession : Session := ⟨"t-old", "admin", [], 0⟩

/-- A session last used after 50 minutes. -/
def freshSession : Session := ⟨"t-new", "admin", [], 50 * minute⟩

/-- A clock that reads 60 minutes at every reading. -/
def atOneHour : Nat → Int := fun _ => 60 * minute

/-- A store in which the record of "t-bad" cannot be looked up and the record of
"t-stuck" cannot be deleted. -/
def brokenStore : StoreFaults :=
  { GetAllSessionKeys := none,
    GetSession := fun t =>
      if t = "t-bad" then some (errors.PackError (errors.ErrType.other 1) ["corrupt record"])
      else none,
    Delete := fun t =>
      if t = "t-stuck" then some (errors.PackError (errors.ErrType.other 2) ["delete failed"])
      else none }

/-- The elements of a `[]string`, none for a nil slice as for an empty one. -/
def elements (a : Option (List String)) : List String := a.getD []

/-- A device whose subscription query is answered 200 with the given body and no
`Location` header, whose deletion is answered 200 and whose subscription is answered 201
with the location of a new subscription. -/
def subscribedDevice (body : String) : rfphandler.RedfishClient := fun _ c =>
  match c with
  | .GetSubscriptionDetail _ => (some ⟨200, [], .ok body⟩, none)
  | .DeleteSubscriptionDetail _ => (some ⟨200, [], .ok ""⟩, none)
  | .SubscribeForEvents _ =>
    (some ⟨201, [("Location", "/redfish/v1/EventService/Subscriptions/2")], .ok ""⟩, none)

/-- A device without subscription: the query is answered 404, the subscription 201 with
the location of the new subscription. -/
def unsubscribedDevice : rfphandler.RedfishClient := fun _ c =>
  match c with
  | .SubscribeForEvents _ =>
    (some ⟨201, [("Location", "/redfish/v1/EventService/Subscriptions/1")], .ok ""⟩, none)
  | _ => (some ⟨404, [], .ok ""⟩, none)

/-- An environment of the plugin with a client; a body is decoded to a subscription
without event types when it is "none", to one with the event type `Alert` when it is
"alert", and to one with an empty list otherwise; a subscription is encoded as the list of
its event types. -/
def samplePluginEnv (client : rfphandler.RedfishClient) : rfphandler.PluginEnv :=
  { GetRedfishClient := .ok client,
    jsonEvtSubPost := fun body =>
      .ok ⟨"https://odim:45000/events",
        if body = "none" then none else if body = "alert" then some ["Alert"] else some [],
        "Event Subscription", "Redfish"⟩,
    jsonMarshal := fun req => .ok (String.intercalate "," (req.EventTypes.getD [])),
    LoadBalancerHost := "odim", LoadBalancerPort := "45000", DestURI := "/events" }

/-- A start-up entry for the device at 10.0.0.9 with the given desired event types. -/
def sampleStartup (eventTypes : Option (List String)) : rfphandler.Startup :=
  { Location := "", EventTypes := eventTypes, Device := ⟨"10.0.0.9", "root", "pw"⟩ }

/-- Whether a text has a border: a non-empty proper prefix that is also a suffix. -/
def bordered (s : List Char) : Bool :=
  (List.range s.length).any fun k => 0 < k && s.take k == s.drop (s.length - k)

/-- An environment as `sampleEnv`, in which every plugin is the token-based `tokenPlugin`. -/
def tokenEnv : Env :=
  { sampleEnv true with GetPluginData := fun _ => .ok tokenPlugin }

/-- A POST to the ports of a fabric with an empty body, which is not a JSON text. -/
def emptyBodyRequest : FabricRequest :=
  { SessionToken := "session", Method := "POST", URL := "/redfish/v1/Fabrics/f1/Ports",
    RequestBody := "" }

/-- The response of `parseFabricsRequest` to a body that cannot be decoded. -/
def malformedBody (e : String) : RPC :=
  GeneralError http.StatusBadRequest response.MalformedJSON
    ("error while trying to get JSON request body: " ++ e) []

/-- A device that answers every call with 500 and a `Location` header. -/
def failingDevice : rfphandler.RedfishClient := fun _ _ =>
  (some ⟨500, [("Location", "/redfish/v1/EventService/Subscriptions/7")], .ok ""⟩, none)

/-- Collaborators as `sampleDeps`, with a stored manager record that is the JSON object
without fields. -/
def namelessDeps : managers.Deps :=
  { sampleDeps with jsonObject := fun _ => .ok [] }

/-- Collaborators of `GetManagersResource`: no table is named, every resource is stored
as the empty object and no device is asked. -/
def sampleResourceDeps : managers.ResourceDeps :=
  { ManagersResource := fun _ => "", GetResource := fun _ _ => .ok "{}",
    GetDeviceInfo := fun _ s => (some (.ok "{}"), s) }

/-- Collaborators of `Update`: the three roles of the product, no further role, the
accounts "admin" and "operator", a password rule that wants eight characters, a store
that accepts every write, and 500 as internal error response. -/
def sampleAccountDeps : account.Deps :=
  { RoleAdmin := "Administrator", RoleMonitor := "Operator", RoleClient := "ReadOnly",
    GetRoleDetailsByID := fun _ =>
      some (errors.PackError errors.ErrType.DBKeyNotFound ["no such role"]),
    GetUserDetails := fun name =>
      if name = "admin" then .ok ⟨"admin", "sha3(secret)", "Administrator", ["Redfish"]⟩
      else if name = "operator" then .ok ⟨"operator", "sha3(opsecret)", "Operator", ["Redfish"]⟩
      else .error (errors.PackError errors.ErrType.DBKeyNotFound
        ["no data with the with key ", name, " found"]),
    validatePassword := fun _ p =>
      if p.length < 8 then some "error: invalid password, password length is less than the minimum length"
      else none,
    hashPassword := fun p => "sha3(" ++ p ++ ")",
    UpdateUserDetails := fun _ _ => none,
    CreateInternalErrorResponse := fun m =>
      { StatusCode := http.StatusInternalServerError, StatusMessage := response.InternalError,
        Header := [], Body := account.Body.internalError m } }

/-- A session of "operator" that holds the privileges `Login` and `ConfigureSelf`. -/
def operatorSession : Session :=
  ⟨"t-op", "operator", [("Login", true), ("ConfigureSelf", true)], 0⟩

/-- A session of "operator" that holds the privilege `Login` only. -/
def loginOnlySession : Session := ⟨"t-ro", "operator", [("Login", true)], 0⟩

/-- The state after the only worker has sent an error and `writeWG.Wait()` has returned:
the collector has written the error and returned, the handler is in `quit <- true`. -/
def blockedHandler : rfphandler.Run :=
  { pending := [], counter := 0, collector := rfphandler.Collector.returned,
    handler := rfphandler.Handler.sendingQuit, respBody := fun _ => none,
    written := [rfphandler.Written.error "connection refused"] }

/-- A request without headers and with an empty body. -/
def bareRequest : rfphandler.Request := { Header := [], Body := "" }

/-- The invariant of the runs that start with the given messages. -/
def Reached (messages : List rfphandler.Message) (r : rfphandler.Run) : Prop :=
  r.counter = r.pending.length ∧
  (∀ m ∈ r.pending, m ∈ messages) ∧
  (r.handler ≠ rfphandler.Handler.waiting → r.pending = []) ∧
  (r.handler = rfphandler.Handler.returned →
    r.collector = rfphandler.Collector.selecting ∧ r.written = [rfphandler.Written.respBody]) ∧
  (r.collector = rfphandler.Collector.returned →
    ∃ text, rfphandler.Message.error text ∈ messages ∧ r.written = [rfphandler.Written.error text]) ∧
  (r.collector = rfphandler.Collector.selecting → r.handler ≠ rfphandler.Handler.returned → r.written = [])

/-! ## Properties of the plugin contact -/

@[simp] theorem callPlugin_tokens (req : pluginContactRequest) (s : State) :
    (callPlugin req s).2.Tokens = s.Tokens := by
  unfold callPlugin invoke
  split <;> rfl

theorem callPlugin_trace (req : pluginContactRequest) (s : State) :
    (callPlugin req s).2.trace = s.trace ++ callEvents req := by
  unfold callPlugin invoke callEvents
  split <;> simp

theorem getPluginStatus_eq (env : Env) (plugin : Plugin) (s : State) :
    getPluginStatus env plugin s =
      ((env.CheckStatus s.trace plugin).1, { s with trace := s.trace ++ [Event.probe plugin] }) := by
  unfold getPluginStatus
  simp only [ite_self]

@[simp] theorem callWithProbe_tokens (env : Env) (req : pluginContactRequest) (s : State) :
    (callWithProbe env req s).2.Tokens = s.Tokens := by
  unfold callWithProbe
  simp only [getPluginStatus_eq]
  split
  · split <;> simp
  · simp

@[simp] theorem contactPlugin_tokens (env : Env) (req : pluginContactRequest)
    (errorMessage : String) (s : State) :
    (contactPlugin env req errorMessage s).2.Tokens = s.Tokens := by
  unfold contactPlugin
  simp only []
  split <;> simp

/-- The invocations of `callWithProbe`: one call, then after an error the probe and, if it
reports the plugin up, one more call. -/
theorem callWithProbe_trace (env : Env) (req : pluginContactRequest) (s : State) :
    (callWithProbe env req s).2.trace = s.trace ++ callEvents req ++
      (if (callPlugin req s).1.2.isSome then
        Event.probe req.Plugin ::
          (if (getPluginStatus env req.Plugin (callPlugin req s).2).1
            then callEvents req else [])
       else []) := by
  unfold callWithProbe
  simp only [getPluginStatus_eq]
  cases h : (callPlugin req s).1.2 with
  | none => simp [callPlugin_trace]
  | some e =>
    simp only [Option.isSome_some, if_true]
    split <;> simp [callPlugin_trace]

/-- The pair held after line 85 is the result of the retry when one was made, of the first
call otherwise. -/
theorem callWithProbe_result (env : Env) (req : pluginContactRequest) (s : State) :
    (callWithProbe env req s).1 =
      (if (callPlugin req s).1.2.isSome && (getPluginStatus env req.Plugin (callPlugin req s).2).1
        then callPlugin req (getPluginStatus env req.Plugin (callPlugin req s).2).2
        else callPlugin req s).1 := by
  unfold callWithProbe
  cases h : (callPlugin req s).1.2 with
  | none => simp [h]
  | some e =>
    by_cases hp : (getPluginStatus env req.Plugin (callPlugin req s).2).1 = true <;>
      simp [h, hp]

/-- The result of `contactPlugin` when the last attempt made returned an error. -/
theorem contactPlugin_of_transport_error (env : Env) (req : pluginContactRequest)
    (errorMessage : String) (s : State) (e : String)
    (h : (callWithProbe env req s).1.2 = some e) :
    (contactPlugin env req errorMessage s).1 = some (internalFailure env (errorMessage ++ e)) := by
  unfold contactPlugin
  simp only [h]

theorem contactPlugin_trace (env : Env) (req : pluginContactRequest) (errorMessage : String)
    (s : State) :
    (contactPlugin env req errorMessage s).2.trace = s.trace ++ contactEvents env req s := by
  have h : (contactPlugin env req errorMessage s).2 = (callWithProbe env req s).2 := by
    unfold contactPlugin
    simp only []
    split <;> rfl
  rw [h, callWithProbe_trace, contactEvents, List.append_assoc]

/-- C5: in `contactPlugin` an error of the first transport call is followed by the
liveness probe, then by exactly one more call if the probe reports the plugin up and by
nothing if it reports it down, so that the call is attempted at most twice; and when the
last attempt made returned an error, the result is no body, an empty token, status 500
with message `InternalError` and a non-nil error. -/
theorem contactPlugin_probe_then_one_retry (env : Env) (req : pluginContactRequest)
    (errorMessage : String) (s : State) :
    let first := callPlugin req s
    let probe := getPluginStatus env req.Plugin first.2
    let last := if first.1.2.isSome && probe.1 then callPlugin req probe.2 else first
    let out := contactPlugin env req errorMessage s
    out.2.trace = s.trace ++ callEvents req ++
      (if first.1.2.isSome then
        Event.probe req.Plugin :: (if probe.1 then callEvents req else [])
       else []) ∧
    (last.1.2.isSome →
      ∃ m, out.1 = some { body := none, token := "",
                          status := ⟨500, response.InternalError, ""⟩, err := some m }) := by
  intro first probe last out
  constructor
  · have h : out.2 = (callWithProbe env req s).2 := by
      show (contactPlugin env req errorMessage s).2 = _
      unfold contactPlugin
      simp only []
      split <;> rfl
    rw [h]
    exact callWithProbe_trace env req s
  · intro hlast
    have hl : (callWithProbe env req s).1 = last.1 := callWithProbe_result env req s
    obtain ⟨e, he⟩ := Option.isSome_iff_exists.mp hlast
    refine ⟨fmtNoArgs env.verbs (errorMessage ++ e), ?_⟩
    exact contactPlugin_of_transport_error env req errorMessage s e (by rw [hl]; exact he)

theorem toInt32_of_range (x : Int) (hlo : -2 ^ 31 ≤ x) (hhi : x < 2 ^ 31) : toInt32 x = x := by
  unfold toInt32
  omega

/-- C6: when the response received has a status other than 200 and 201 and a readable
body, `contactPlugin` returns that body with the status code of the plugin and an error
made of the caller's message, and this status differs from the status of a connectivity
failure (500 with message `InternalError`), whatever the plugin's status code is. -/
theorem contactPlugin_protocol_failure (env : Env) (req : pluginContactRequest)
    (errorMessage : String) (s : State) (r : http.Response) (body : String)
    (hreceived : (callWithProbe env req s).1 = (some r, none))
    (hstatus : r.StatusCode ≠ 200 ∧ r.StatusCode ≠ 201)
    (hbody : r.Body = .ok body)
    (hrange : -2 ^ 31 ≤ r.StatusCode ∧ r.StatusCode < 2 ^ 31) :
    (contactPlugin env req errorMessage s).1 =
        some { body := some body, token := "", status := ⟨r.StatusCode, "", ""⟩,
               err := some (fmtNoArgs env.verbs errorMessage) } ∧
      ∀ m, (⟨r.StatusCode, "", ""⟩ : responseStatus) ≠ (internalFailure env m).status := by
  constructor
  · unfold contactPlugin
    simp only [hreceived, readResponse, http.StatusCreated, http.StatusOK, hbody]
    simp [hstatus.1, hstatus.2, toInt32_of_range _ hrange.1 hrange.2]
  · intro m h
    have h2 := congrArg responseStatus.StatusMessage h
    simp [internalFailure, response.InternalError] at h2

/-- C6, at a plugin that answers 401 with a body. -/
theorem contactPlugin_protocol_failure_witness :
    (contactPlugin (sampleEnv true) (sampleRequest credentialsOnly tokenPlugin) "failed: "
        emptyState).1 =
        some { body := some "{}", token := "", status := ⟨401, "", ""⟩,
               err := some (fmtNoArgs (sampleEnv true).verbs "failed: ") } ∧
      ∀ m, (⟨401, "", ""⟩ : responseStatus) ≠ (internalFailure (sampleEnv true) m).status :=
  contactPlugin_protocol_failure (sampleEnv true) (sampleRequest credentialsOnly tokenPlugin)
    "failed: " emptyState ⟨401, [], .ok "{}"⟩ "{}" rfl (by decide) rfl (by decide)

/-- The result of `contactPlugin` for a response with status 200 or 201 and a readable
body. -/
theorem contactPlugin_ok_value (env : Env) (req : pluginContactRequest)
    (errorMessage : String) (s : State) (r : http.Response) (b : String)
    (hr : (callWithProbe env req s).1 = (some r, none))
    (hs : r.StatusCode = 200 ∨ r.StatusCode = 201) (hb : r.Body = .ok b) :
    (contactPlugin env req errorMessage s).1 =
      some { body := some b, token := r.Header.Get "X-Auth-Token",
             status := ⟨r.StatusCode, "", r.Header.Get "Location"⟩, err := none } := by
  unfold contactPlugin
  simp only [hr, readResponse, http.StatusCreated, http.StatusOK, hb]
  rcases hs with hs | hs <;> simp [hs, toInt32]

/-- A result of `contactPlugin` without error comes from a response with status 200 or
201 whose body was read. -/
theorem contactPlugin_nil_error_elim (env : Env) (req : pluginContactRequest)
    (errorMessage : String) (s : State) (res : ContactResult)
    (hres : (contactPlugin env req errorMessage s).1 = some res) (herr : res.err = none) :
    ∃ r b, (callWithProbe env req s).1 = (some r, none) ∧
      (r.StatusCode = 200 ∨ r.StatusCode = 201) ∧ r.Body = .ok b := by
  unfold contactPlugin at hres
  rcases hlast : (callWithProbe env req s).1 with ⟨resp, e⟩
  simp only [hlast] at hres
  cases e with
  | some e =>
    simp only [Option.some.injEq] at hres
    rw [← hres] at herr
    simp [internalFailure] at herr
  | none =>
    cases resp with
    | none => simp [readResponse] at hres
    | some r =>
      simp only [readResponse, http.StatusCreated, http.StatusOK] at hres
      by_cases hs : r.StatusCode = 201 ∨ r.StatusCode = 200
      · cases hb : r.Body with
        | error e =>
          have hs2 : (r.StatusCode == 201 || r.StatusCode == 200) = true := by
            rcases hs with hs | hs <;> simp [hs]
          simp only [hs2, hb] at hres
          simp only [Bool.not_true, Bool.false_eq_true, if_false, Option.some.injEq] at hres
          rw [← hres] at herr
          simp [internalFailure] at herr
        | ok b => exact ⟨r, b, rfl, hs.symm, hb⟩
      · have hs2 : (r.StatusCode == 201 || r.StatusCode == 200) = false := by
          simp only [not_or] at hs
          simp [hs.1, hs.2]
        simp only [hs2, Bool.not_false, if_true] at hres
        cases hb : r.Body with
        | error e =>
          simp only [hb, Option.some.injEq] at hres
          rw [← hres] at herr
          simp [internalFailure] at herr
        | ok b =>
          simp only [hb, Option.some.injEq] at hres
          rw [← hres] at herr
          simp at herr

/-- C7: `contactPlugin` returns with a nil error exactly when a response was obtained, its
status is 200 or 201 and its body was read; it then returns the body, the value of the
`X-Auth-Token` header as the token, the status code of the response and the value of its
`Location` header. -/
theorem contactPlugin_nil_error_iff (env : Env) (req : pluginContactRequest)
    (errorMessage : String) (s : State) :
    ((∃ res, (contactPlugin env req errorMessage s).1 = some res ∧ res.err = none) ↔
      ∃ r b, (callWithProbe env req s).1 = (some r, none) ∧
        (r.StatusCode = 200 ∨ r.StatusCode = 201) ∧ r.Body = .ok b) ∧
    ∀ r b, (callWithProbe env req s).1 = (some r, none) →
      (r.StatusCode = 200 ∨ r.StatusCode = 201) → r.Body = .ok b →
      (contactPlugin env req errorMessage s).1 =
        some { body := some b, token := r.Header.Get "X-Auth-Token",
               status := ⟨r.StatusCode, "", r.Header.Get "Location"⟩, err := none } := by
  refine ⟨⟨?_, ?_⟩, contactPlugin_ok_value env req errorMessage s⟩
  · rintro ⟨res, hres, herr⟩
    exact contactPlugin_nil_error_elim env req errorMessage s res hres herr
  · rintro ⟨r, b, hr, hs, hb⟩
    exact ⟨_, contactPlugin_ok_value env req errorMessage s r b hr hs hb, rfl⟩

/-- C8, as stated, fails: the first attempt is refused, the probe reports the plugin up,
the retry times out, and the error returned carries the retry's message, not the first. -/
theorem contactPlugin_error_text_counterexample :
    (callPlugin (sampleRequest refusedThenTimeout tokenPlugin) emptyState).1.2 =
        some "connection refused" ∧
      ((contactPlugin (sampleEnv true) (sampleRequest refusedThenTimeout tokenPlugin)
          "failed: " emptyState).1.bind fun r => r.err) = some "failed: timeout" ∧
      ((contactPlugin (sampleEnv true) (sampleRequest refusedThenTimeout tokenPlugin)
          "failed: " emptyState).1.bind fun r => r.err) ≠ some "failed: connection refused" := by
  decide

/-- C8, amended: when the last attempt made by `contactPlugin` (the retry if the probe
reported the plugin up, the first call otherwise) returned an error `e`, the error
returned is `fmt.Errorf` of the caller's message followed by `e`, which is this very text
when it has no `%` in it. -/
theorem contactPlugin_error_wraps_last_attempt (env : Env) (req : pluginContactRequest)
    (errorMessage : String) (s : State) (e : String)
    (hlast : (if (callPlugin req s).1.2.isSome &&
                (getPluginStatus env req.Plugin (callPlugin req s).2).1
              then callPlugin req (getPluginStatus env req.Plugin (callPlugin req s).2).2
              else callPlugin req s).1.2 = some e) :
    ∃ res, (contactPlugin env req errorMessage s).1 = some res ∧
      res.err = some (fmtNoArgs env.verbs (errorMessage ++ e)) ∧
      ('%' ∉ (errorMessage ++ e).data → res.err = some (errorMessage ++ e)) := by
  refine ⟨internalFailure env (errorMessage ++ e), ?_, rfl, ?_⟩
  · exact contactPlugin_of_transport_error env req errorMessage s e
      (by rw [callWithProbe_result]; exact hlast)
  · intro h
    simp only [internalFailure, fmtNoArgs, if_neg h]

/-- C8, amended, at a plugin that is down: the first error is the one reported. -/
theorem contactPlugin_error_wraps_last_attempt_witness :
    ∃ res, (contactPlugin (sampleEnv false) (sampleRequest refusedThenTimeout tokenPlugin)
        "failed: " emptyState).1 = some res ∧
      res.err = some (fmtNoArgs (sampleEnv false).verbs ("failed: " ++ "connection refused")) ∧
      ('%' ∉ ("failed: " ++ "connection refused").data →
        res.err = some ("failed: " ++ "connection refused")) :=
  contactPlugin_error_wraps_last_attempt (sampleEnv false)
    (sampleRequest refusedThenTimeout tokenPlugin) "failed: " emptyState "connection refused"
    (by decide)

/-- C9, on a request to a `BasicAuth` plugin as `parseFabricsRequest` builds it (credentials
set, no token): `callPlugin` invokes the client twice at the same URL, the credentials go
with the first invocation, whose answer (200) is dropped, and the answer returned (401) is
that of the second invocation, which carries no credentials. -/
theorem callPlugin_basicAuth_returns_uncredentialed_call :
    (callPlugin { sampleRequest credentialsOnly basicPlugin with
        LoginCredential := some [("Username", "admin"), ("Password", "secret")] }
      emptyState).2.trace =
      [Event.call ⟨"https://10.0.0.2:9092/ODIM/v1/Fabrics/f1/Switches", "GET", "", "",
          PostBody.nil, some [("Username", "admin"), ("Password", "secret")]⟩,
       Event.call ⟨"https://10.0.0.2:9092/ODIM/v1/Fabrics/f1/Switches", "GET", "", "",
          PostBody.nil, none⟩] ∧
    ((callPlugin { sampleRequest credentialsOnly basicPlugin with
        LoginCredential := some [("Username", "admin"), ("Password", "secret")] }
      emptyState).1.1.map fun r => r.StatusCode) = some 401 := by
  decide

/-! ## Properties of the token cache and of the retry -/

theorem callPlugin_frame (req : pluginContactRequest) (s : State) (T : String → String) :
    callPlugin req { s with Tokens := T } =
      ((callPlugin req s).1, { (callPlugin req s).2 with Tokens := T }) := by
  unfold callPlugin invoke
  split <;> rfl

/-- The plugin contact neither reads nor writes the token cache. -/
theorem contactPlugin_frame (env : Env) (req : pluginContactRequest) (errorMessage : String)
    (s : State) (T : String → String) :
    contactPlugin env req errorMessage { s with Tokens := T } =
      ((contactPlugin env req errorMessage s).1,
        { (contactPlugin env req errorMessage s).2 with Tokens := T }) := by
  have hprobe : callWithProbe env req { s with Tokens := T } =
      ((callWithProbe env req s).1, { (callWithProbe env req s).2 with Tokens := T }) := by
    unfold callWithProbe
    simp only [callPlugin_frame, getPluginStatus_eq]
    cases h : (callPlugin req s).1.2 with
    | none => simp [h]
    | some e =>
      simp only [h]
      split
      · exact callPlugin_frame req
          ⟨(callPlugin req s).2.trace ++ [Event.probe req.Plugin], (callPlugin req s).2.Tokens⟩ T
      · rfl
  unfold contactPlugin
  simp only [hprobe]
  split <;> rfl

theorem getToken_storeToken (s : State) (id token k : String) :
    getToken (storeToken s id token) k = if k = id then token else getToken s k := rfl

/-- The first invocation of a login is the POST of the credentials to the sessions URL of
the plugin. -/
theorem login_first_event (env : Env) (f : Fabrics) (plugin : Plugin) (s : State) :
    ∃ rest, (contactPlugin env (loginRequest f plugin) "error while logging in to plugin: "
        s).2.trace =
      s.trace ++ Event.call ⟨"https://" ++ plugin.IP ++ ":" ++ plugin.Port ++ "/ODIM/v1/Sessions",
        "POST", "", "", PostBody.login plugin.Username plugin.Password, none⟩ :: rest := by
  rw [contactPlugin_trace]
  unfold contactEvents callEvents
  split
  · exact ⟨_, by simp [firstCall, returnedCall, loginRequest, reqURL, http.MethodPost]; rfl⟩
  · exact ⟨_, by simp [firstCall, returnedCall, loginRequest, reqURL, http.MethodPost]; rfl⟩

/-- With a client that never answers with both a nil response and a nil error,
`contactPlugin` returns (it does not dereference a nil response). -/
theorem contactPlugin_returns (env : Env) (req : pluginContactRequest) (errorMessage : String)
    (s : State) (hclient : ∀ trace c, req.ContactClient trace c ≠ (none, none)) :
    ∃ r, (contactPlugin env req errorMessage s).1 = some r := by
  have hcall : ∀ s0, (callPlugin req s0).1 ≠ (none, none) := by
    intro s0
    unfold callPlugin invoke
    exact hclient _ _
  have hlast : (callWithProbe env req s).1 ≠ (none, none) := by
    rw [callWithProbe_result]
    split
    · exact hcall _
    · exact hcall _
  unfold contactPlugin
  rcases h : (callWithProbe env req s).1 with ⟨resp, e⟩
  simp only [h]
  cases e with
  | some e => exact ⟨_, rfl⟩
  | none =>
    cases resp with
    | none => exact absurd h hlast
    | some r =>
      simp only [readResponse]
      split <;> split <;> exact ⟨_, rfl⟩

/-- C2: with a non-empty token cached under `plugin.ID`, `getPluginToken` returns it and
leaves the state as it was (the client is not invoked). With none cached it makes the
login contact, whose first invocation is the POST of the plugin's `Username` and
`Password` to `/ODIM/v1/Sessions`; a non-empty token of that login is returned and stored
under `plugin.ID`, so that the next `getPluginToken` for this ID returns it without any
invocation; an empty one is returned with the cache as it was. The login contact returns
whenever the client never answers with both a nil response and a nil error. -/
theorem getPluginToken_cached_or_one_login (env : Env) (f : Fabrics) (plugin : Plugin)
    (s : State) :
    (getToken s plugin.ID ≠ "" →
      getPluginToken env f plugin s = (some (getToken s plugin.ID), s)) ∧
    (getToken s plugin.ID = "" →
      ∀ r s1, contactPlugin env (loginRequest f plugin)
          "error while logging in to plugin: " s = (some r, s1) →
        (∃ rest, s1.trace = s.trace ++
          Event.call ⟨"https://" ++ plugin.IP ++ ":" ++ plugin.Port ++ "/ODIM/v1/Sessions",
            "POST", "", "", PostBody.login plugin.Username plugin.Password, none⟩ :: rest) ∧
        (r.token ≠ "" →
          getPluginToken env f plugin s = (some r.token, storeToken s1 plugin.ID r.token) ∧
          ∀ (f2 : Fabrics) (plugin2 : Plugin), plugin2.ID = plugin.ID →
            getPluginToken env f2 plugin2 (storeToken s1 plugin.ID r.token) =
              (some r.token, storeToken s1 plugin.ID r.token)) ∧
        (r.token = "" →
          getPluginToken env f plugin s = (some "", s1) ∧ s1.Tokens = s.Tokens)) ∧
    ((∀ trace c, f.ContactClient trace c ≠ (none, none)) →
      ∃ r, (contactPlugin env (loginRequest f plugin)
        "error while logging in to plugin: " s).1 = some r) := by
  refine ⟨?_, ?_, fun hclient => contactPlugin_returns env (loginRequest f plugin) _ s hclient⟩
  · intro h
    unfold getPluginToken
    simp [h]
  · intro h r s1 hlogin
    have hstate : s1 = (contactPlugin env (loginRequest f plugin)
        "error while logging in to plugin: " s).2 := by rw [hlogin]
    refine ⟨?_, ?_, ?_⟩
    · rw [hstate]
      exact login_first_event env f plugin s
    · intro ht
      constructor
      · unfold getPluginToken createToken
        simp [h, hlogin, ht]
      · intro f2 plugin2 hid
        unfold getPluginToken
        simp [hid, getToken_storeToken, ht]
    · intro ht
      constructor
      · unfold getPluginToken createToken
        simp [h, hlogin, ht]
      · rw [hstate]
        exact contactPlugin_tokens _ _ _ _

/-- C2, at a fresh process and a plugin that issues the token "fresh": the first
`getPluginToken` returns it after one invocation, and the next one returns it from the
cache. -/
theorem getPluginToken_cached_or_one_login_witness :
    ∃ s1, s1.trace = [Event.call ⟨"https://10.0.0.1:9091/ODIM/v1/Sessions", "POST", "", "",
          PostBody.login "admin" "secret", none⟩] ∧
      getPluginToken (sampleEnv true) (sampleFabrics expiredSessions) tokenPlugin emptyState =
        (some "fresh", storeToken s1 "GRF" "fresh") ∧
      getPluginToken (sampleEnv true) (sampleFabrics expiredSessions) tokenPlugin
        (storeToken s1 "GRF" "fresh") = (some "fresh", storeToken s1 "GRF" "fresh") :=
  have h := ((getPluginToken_cached_or_one_login (sampleEnv true)
    (sampleFabrics expiredSessions) tokenPlugin emptyState).2.1 rfl
    ⟨some "{}", "fresh", ⟨201, "", ""⟩, none⟩
    (contactPlugin (sampleEnv true) (loginRequest (sampleFabrics expiredSessions) tokenPlugin)
      "error while logging in to plugin: " emptyState).2 rfl).2.1 (by decide)
  ⟨_, by decide, h.1, h.2 (sampleFabrics expiredSessions) tokenPlugin rfl⟩

/-- The login does not depend on what is cached. -/
theorem createToken_frame (env : Env) (f : Fabrics) (plugin : Plugin) (s : State)
    (T : String → String) :
    (createToken env f plugin { s with Tokens := T }).1 = (createToken env f plugin s).1 ∧
    (createToken env f plugin { s with Tokens := T }).2.trace =
      (createToken env f plugin s).2.trace := by
  unfold createToken
  rw [contactPlugin_frame]
  rcases h : contactPlugin env (loginRequest f plugin) "error while logging in to plugin: " s
    with ⟨res, s1⟩
  cases res with
  | none => simp
  | some r =>
    simp only []
    split <;> simp [storeToken]

theorem createToken_trace (env : Env) (f : Fabrics) (plugin : Plugin) (s : State) :
    (createToken env f plugin s).2.trace =
      s.trace ++ contactEvents env (loginRequest f plugin) s := by
  rw [← contactPlugin_trace env (loginRequest f plugin) "error while logging in to plugin: " s]
  unfold createToken
  rcases contactPlugin env (loginRequest f plugin) "error while logging in to plugin: " s
    with ⟨res, s1⟩
  cases res with
  | none => rfl
  | some r =>
    simp only []
    split <;> rfl

/-- The plugin contact in two states with the same trace gives the same result and the
same trace. -/
theorem contactPlugin_of_same_trace (env : Env) (req : pluginContactRequest)
    (errorMessage : String) (s s2 : State) (h : s2.trace = s.trace) :
    (contactPlugin env req errorMessage s2).1 = (contactPlugin env req errorMessage s).1 ∧
    (contactPlugin env req errorMessage s2).2.trace =
      (contactPlugin env req errorMessage s).2.trace := by
  have hs2 : s2 = { s with Tokens := s2.Tokens } := by
    cases s
    cases s2
    simp only at h
    subst h
    rfl
  rw [hs2, contactPlugin_frame]
  exact ⟨rfl, rfl⟩

/-- The retry does not depend on what is cached: its result and its invocations are the
same for every content of the cache. -/
theorem retryFabricsOperation_frame (env : Env) (f : Fabrics) (req : pluginContactRequest)
    (errorMessage : String) (s : State) (T : String → String) :
    (retryFabricsOperation env f req errorMessage { s with Tokens := T }).1 =
      (retryFabricsOperation env f req errorMessage s).1 ∧
    (retryFabricsOperation env f req errorMessage { s with Tokens := T }).2.trace =
      (retryFabricsOperation env f req errorMessage s).2.trace := by
  obtain ⟨h1, h2⟩ := createToken_frame env f req.Plugin s T
  unfold retryFabricsOperation
  rcases hc : createToken env f req.Plugin s with ⟨res, s1⟩
  rcases hc2 : createToken env f req.Plugin { s with Tokens := T } with ⟨res2, s2⟩
  rw [hc, hc2] at h1 h2
  simp only at h1 h2
  subst h1
  cases res2 with
  | none => exact ⟨rfl, h2⟩
  | some token =>
    simp only []
    by_cases ht : (token == "") = true
    · rw [if_pos ht, if_pos ht]
      exact ⟨rfl, h2⟩
    · rw [if_neg ht, if_neg ht]
      exact contactPlugin_of_same_trace env { req with Token := token } errorMessage s1 s2 h2

/-- The invocations of the retry begin with those of a login, whatever the login gives. -/
theorem retryFabricsOperation_trace_begins_with_login (env : Env) (f : Fabrics)
    (req : pluginContactRequest) (errorMessage : String) (s : State) :
    ∃ rest, (retryFabricsOperation env f req errorMessage s).2.trace =
      s.trace ++ contactEvents env (loginRequest f req.Plugin) s ++ rest := by
  have hlog := createToken_trace env f req.Plugin s
  unfold retryFabricsOperation
  rcases hc : createToken env f req.Plugin s with ⟨res, s1⟩
  rw [hc] at hlog
  simp only at hlog
  cases res with
  | none => exact ⟨[], by simp [hlog]⟩
  | some token =>
    simp only []
    by_cases ht : (token == "") = true
    · rw [if_pos ht]
      exact ⟨[], by simp [hlog]⟩
    · rw [if_neg ht, contactPlugin_trace, hlog]
      exact ⟨_, rfl⟩

/-- C3: `retryFabricsOperation` always logs in, whatever the cache holds: for every
content of the cache its result and its invocations are the same, and its invocations
begin with those of a login. When the login call panics, so does the retry. When the
login returns no token, nothing is replayed, the cache is left as it is and the result is
the 401 response. When the login returns a
non-empty token `t`, the entry of `req.Plugin.ID` becomes `t` and every other entry is
kept, and the rest of the operation is one `contactPlugin` of the request with
`Token = t`, whose result is returned. -/
theorem retryFabricsOperation_fresh_login_one_replay (env : Env) (f : Fabrics)
    (req : pluginContactRequest) (errorMessage : String) (s : State) :
    (∀ T, (retryFabricsOperation env f req errorMessage { s with Tokens := T }).1 =
          (retryFabricsOperation env f req errorMessage s).1 ∧
        (retryFabricsOperation env f req errorMessage { s with Tokens := T }).2.trace =
          (retryFabricsOperation env f req errorMessage s).2.trace) ∧
    (∃ rest, (retryFabricsOperation env f req errorMessage s).2.trace =
      s.trace ++ contactEvents env (loginRequest f req.Plugin) s ++ rest) ∧
    (∀ s1, contactPlugin env (loginRequest f req.Plugin)
        "error while logging in to plugin: " s = (none, s1) →
      retryFabricsOperation env f req errorMessage s = (none, s1)) ∧
    (∀ r s1, contactPlugin env (loginRequest f req.Plugin)
        "error while logging in to plugin: " s = (some r, s1) → r.token = "" →
      (retryFabricsOperation env f req errorMessage s).2 = s1 ∧
      (retryFabricsOperation env f req errorMessage s).2.trace =
        s.trace ++ contactEvents env (loginRequest f req.Plugin) s ∧
      (∀ k, getToken (retryFabricsOperation env f req errorMessage s).2 k = getToken s k) ∧
      ∃ res, (retryFabricsOperation env f req errorMessage s).1 = some res ∧
        res.status.StatusCode = http.StatusUnauthorized ∧ res.err.isSome = true) ∧
    (∀ r s1, contactPlugin env (loginRequest f req.Plugin)
        "error while logging in to plugin: " s = (some r, s1) → r.token ≠ "" →
      retryFabricsOperation env f req errorMessage s =
        contactPlugin env { req with Token := r.token } errorMessage
          (storeToken s1 req.Plugin.ID r.token) ∧
      (∀ k, getToken (retryFabricsOperation env f req errorMessage s).2 k =
        if k = req.Plugin.ID then r.token else getToken s k) ∧
      (retryFabricsOperation env f req errorMessage s).2.trace =
        s.trace ++ contactEvents env (loginRequest f req.Plugin) s ++
          contactEvents env { req with Token := r.token }
            (storeToken s1 req.Plugin.ID r.token)) := by
  refine ⟨retryFabricsOperation_frame env f req errorMessage s,
    retryFabricsOperation_trace_begins_with_login env f req errorMessage s, ?_, ?_, ?_⟩
  · intro s1 hlogin
    unfold retryFabricsOperation createToken
    simp [hlogin]
  · intro r s1 hlogin htoken
    have hs1 : s1 = (contactPlugin env (loginRequest f req.Plugin)
        "error while logging in to plugin: " s).2 := by rw [hlogin]
    have hmain : retryFabricsOperation env f req errorMessage s =
        (some { body := env.jsonMarshal (GeneralError http.StatusUnauthorized
                  response.NoValidSession
                  ("error: Unable to create session with plugin " ++ req.Plugin.ID) []).Body,
                token := "",
                status := ⟨(GeneralError http.StatusUnauthorized response.NoValidSession
                  ("error: Unable to create session with plugin " ++ req.Plugin.ID)
                  []).StatusCode, "", ""⟩,
                err := some (fmtNoArgs env.verbs
                  "error: Unable to create session with plugin") }, s1) := by
      unfold retryFabricsOperation createToken
      simp [hlogin, htoken]
    rw [hmain]
    refine ⟨rfl, ?_, ?_, _, rfl, rfl, rfl⟩
    · show s1.trace = _
      rw [hs1, contactPlugin_trace]
    · intro k
      show s1.Tokens k = _
      rw [hs1, contactPlugin_tokens]
      rfl
  · intro r s1 hlogin htoken
    have hs1 : s1 = (contactPlugin env (loginRequest f req.Plugin)
        "error while logging in to plugin: " s).2 := by rw [hlogin]
    have hmain : retryFabricsOperation env f req errorMessage s =
        contactPlugin env { req with Token := r.token } errorMessage
          (storeToken s1 req.Plugin.ID r.token) := by
      unfold retryFabricsOperation createToken
      simp [hlogin, htoken]
    refine ⟨hmain, ?_, ?_⟩
    · intro k
      rw [hmain]
      show (contactPlugin env _ errorMessage (storeToken s1 req.Plugin.ID r.token)).2.Tokens k = _
      rw [contactPlugin_tokens]
      show (if k = req.Plugin.ID then r.token else s1.Tokens k) = _
      rw [hs1, contactPlugin_tokens]
      rfl
    · rw [hmain, contactPlugin_trace]
      show s1.trace ++ _ = _
      rw [hs1, contactPlugin_trace]

/-- C3, at a cache that holds "stale" and a plugin that issues "fresh": the entry of the
plugin becomes "fresh", and the invocations are the login and one replay. -/
theorem retryFabricsOperation_fresh_login_one_replay_witness :
    (∀ k, getToken (retryFabricsOperation (sampleEnv true) (sampleFabrics expiredSessions)
        { sampleRequest expiredSessions tokenPlugin with Token := "stale" } "failed: "
        staleState).2 k = if k = "GRF" then "fresh" else getToken staleState k) ∧
      (retryFabricsOperation (sampleEnv true) (sampleFabrics expiredSessions)
        { sampleRequest expiredSessions tokenPlugin with Token := "stale" } "failed: "
        staleState).2.trace =
        [Event.call ⟨"https://10.0.0.1:9091/ODIM/v1/Sessions", "POST", "", "",
            PostBody.login "admin" "secret", none⟩,
         Event.call ⟨"https://10.0.0.1:9091/ODIM/v1/Fabrics/f1/Switches", "GET", "fresh", "",
            PostBody.nil, none⟩] :=
  have h := (retryFabricsOperation_fresh_login_one_replay (sampleEnv true)
    (sampleFabrics expiredSessions)
    { sampleRequest expiredSessions tokenPlugin with Token := "stale" } "failed: "
    staleState).2.2.2.2
    ⟨some "{}", "fresh", ⟨201, "", ""⟩, none⟩
    (contactPlugin (sampleEnv true) (loginRequest (sampleFabrics expiredSessions) tokenPlugin)
      "error while logging in to plugin: " staleState).2 rfl (by decide)
  ⟨h.2.1, by decide⟩

/-- A result of `contactPlugin` without error has the status 200 or 201. -/
theorem contactPlugin_status_of_nil_error (env : Env) (req : pluginContactRequest)
    (errorMessage : String) (s : State) (res : ContactResult)
    (h : (contactPlugin env req errorMessage s).1 = some res) (herr : res.err = none) :
    res.status.StatusCode = 200 ∨ res.status.StatusCode = 201 := by
  obtain ⟨r, b, hr, hs, hb⟩ := contactPlugin_nil_error_elim env req errorMessage s res h herr
  have h2 := contactPlugin_ok_value env req errorMessage s r b hr hs hb
  rw [h] at h2
  simp only [Option.some.injEq] at h2
  rw [h2]
  exact hs

/-- C1: for a token-based plugin, when the contact of the request returns 401, the login
gives a token and the contact of the request with the new token returns 401 again,
`parseFabricsResponse` returns the response of that second contact, with status code 401,
and the invocations made are those of the first contact, of the login and of the second
contact and none after: the request is contacted exactly twice. -/
theorem parseFabricsResponse_second_401_is_final (env : Env) (f : Fabrics)
    (req : pluginContactRequest) (reqURI : String) (s : State)
    (r1 r2 : ContactResult) (t : String)
    (hauth : strings.EqualFold req.Plugin.PreferredAuthType "XAuthToken" = true)
    (h1 : (contactPlugin env req (operationError req.HTTPMethodType reqURI) s).1 = some r1)
    (h1c : r1.status.StatusCode = 401)
    (hlogin : (createToken env f req.Plugin
      (contactPlugin env req (operationError req.HTTPMethodType reqURI) s).2).1 = some t)
    (ht : t ≠ "")
    (h2 : (contactPlugin env { req with Token := t } (operationError req.HTTPMethodType reqURI)
      (createToken env f req.Plugin
        (contactPlugin env req (operationError req.HTTPMethodType reqURI) s).2).2).1 = some r2)
    (h2c : r2.status.StatusCode = 401) :
    (parseFabricsResponse env f req reqURI s).1 = some (failedResponse env r2.body r2.status) ∧
      (failedResponse env r2.body r2.status).StatusCode = 401 ∧
      (parseFabricsResponse env f req reqURI s).2.trace =
        s.trace ++ contactEvents env req s ++
          contactEvents env (loginRequest f req.Plugin)
            (contactPlugin env req (operationError req.HTTPMethodType reqURI) s).2 ++
          contactEvents env { req with Token := t }
            (createToken env f req.Plugin
              (contactPlugin env req (operationError req.HTTPMethodType reqURI) s).2).2 := by
  have h1e : r1.err.isSome = true := by
    cases he : r1.err with
    | some e => rfl
    | none =>
      rcases contactPlugin_status_of_nil_error env req _ s r1 h1 he with h | h <;>
        rw [h1c] at h <;> omega
  have h2e : r2.err.isSome = true := by
    cases he : r2.err with
    | some e => rfl
    | none =>
      rcases contactPlugin_status_of_nil_error env _ _ _ r2 h2 he with h | h <;>
        rw [h2c] at h <;> omega
  rcases hc1 : contactPlugin env req (operationError req.HTTPMethodType reqURI) s with ⟨o1, s1⟩
  rw [hc1] at h1 hlogin h2
  simp only at h1 hlogin h2
  subst h1
  rcases hct : createToken env f req.Plugin s1 with ⟨ot, s2⟩
  rw [hct] at hlogin h2
  simp only at hlogin h2
  subst hlogin
  rcases hc2 : contactPlugin env { req with Token := t } (operationError req.HTTPMethodType reqURI)
    s2 with ⟨o2, s3⟩
  rw [hc2] at h2
  simp only at h2
  subst h2
  have ht2 : (t == "") = false := by simpa using ht
  have hfinal : parseFabricsResponse env f req reqURI s =
      (some (failedResponse env r2.body r2.status), s3) := by
    unfold parseFabricsResponse retryFabricsOperation
    simp only [hc1, h1e, h1c, hauth, hct, ht2, hc2, h2e]
    simp [http.StatusUnauthorized, h2e]
  refine ⟨by rw [hfinal], h2c, ?_⟩
  rw [hfinal]
  have e3 := contactPlugin_trace env { req with Token := t }
    (operationError req.HTTPMethodType reqURI) s2
  have e2 := createToken_trace env f req.Plugin s1
  have e1 := contactPlugin_trace env req (operationError req.HTTPMethodType reqURI) s
  rw [hc2] at e3
  rw [hct] at e2
  rw [hc1] at e1
  simp only at e1 e2 e3
  show s3.trace = _
  rw [e3, e2, e1]

/-- C1, at a plugin whose sessions have all expired: the request is answered 401, the
login gives "fresh", the replay is answered 401, and the three invocations are all. -/
theorem parseFabricsResponse_second_401_is_final_witness :
    (parseFabricsResponse (sampleEnv true) (sampleFabrics expiredSessions)
        { sampleRequest expiredSessions tokenPlugin with Token := "stale" }
        "/redfish/v1/Fabrics/f1/Switches" staleState).1 =
        some (failedResponse (sampleEnv true) (some "{}") ⟨401, "", ""⟩) ∧
      (parseFabricsResponse (sampleEnv true) (sampleFabrics expiredSessions)
        { sampleRequest expiredSessions tokenPlugin with Token := "stale" }
        "/redfish/v1/Fabrics/f1/Switches" staleState).2.trace =
        [Event.call ⟨"https://10.0.0.1:9091/ODIM/v1/Fabrics/f1/Switches", "GET", "stale", "",
            PostBody.nil, none⟩,
         Event.call ⟨"https://10.0.0.1:9091/ODIM/v1/Sessions", "POST", "", "",
            PostBody.login "admin" "secret", none⟩,
         Event.call ⟨"https://10.0.0.1:9091/ODIM/v1/Fabrics/f1/Switches", "GET", "fresh", "",
            PostBody.nil, none⟩] :=
  have h := parseFabricsResponse_second_401_is_final (sampleEnv true)
    (sampleFabrics expiredSessions)
    { sampleRequest expiredSessions tokenPlugin with Token := "stale" }
    "/redfish/v1/Fabrics/f1/Switches" staleState
    ⟨some "{}", "", ⟨401, "", ""⟩,
      some "error while performing GET operation on /redfish/v1/Fabrics/f1/Switches: "⟩
    ⟨some "{}", "", ⟨401, "", ""⟩,
      some "error while performing GET operation on /redfish/v1/Fabrics/f1/Switches: "⟩
    "fresh" (by decide) (by decide) rfl (by decide) (by decide) (by decide) rfl
  ⟨h.1, h.2.2.trans (by decide)⟩

theorem authRequest_plugin (deps : managers.Deps) (d : managers.DeviceContact)
    (plugin : Plugin) (s s1 : State) (req : managers.PluginContactRequest)
    (h : managers.authRequest deps d plugin s = (some (.ok req), s1)) :
    req.Plugin = plugin := by
  unfold managers.authRequest at h
  dsimp only at h
  split at h
  · split at h
    · simp at h
    · split at h
      · simp at h
      · simp only [Prod.mk.injEq, Option.some.injEq, Except.ok.injEq] at h
        rw [← h.1]
  · simp only [Prod.mk.injEq, Option.some.injEq, Except.ok.injEq] at h
    rw [← h.1]

/-- C4: when the contact of the request fails with a status other than 401, or fails at a
plugin that is not token-based, `parseFabricsResponse` returns a response with the status
code of that contact and stops in the state in which the contact ended (no login, no
replay, no change of the cache); and `getPluginManagerResoure` does the same, whatever
`RetryManagersOperation` is (it is not called). -/
theorem no_retry_unless_unauthorized_token_plugin (env : Env) :
    (∀ (f : Fabrics) (req : pluginContactRequest) (reqURI : String) (s : State)
        (r : ContactResult),
      (contactPlugin env req (operationError req.HTTPMethodType reqURI) s).1 = some r →
      r.err ≠ none →
      (r.status.StatusCode ≠ 401 ∨
        strings.EqualFold req.Plugin.PreferredAuthType "XAuthToken" = false) →
      parseFabricsResponse env f req reqURI s =
          (some (failedResponse env r.body r.status),
            (contactPlugin env req (operationError req.HTTPMethodType reqURI) s).2) ∧
        (failedResponse env r.body r.status).StatusCode = r.status.StatusCode) ∧
    (∀ (deps : managers.Deps) (d : managers.DeviceContact) (managerID reqURI : String)
        (s s1 s2 : State) (data : String) (managerData : List (String × managers.JSONValue))
        (pluginID : String) (plugin : Plugin) (req : managers.PluginContactRequest)
        (r : ContactResult),
      deps.GetManagerByURL ("/redfish/v1/Managers/" ++ managerID) = .ok data →
      deps.jsonObject data = .ok managerData →
      managers.assertString (managers.index managerData "Name") = some pluginID →
      deps.GetPluginData pluginID = .ok plugin →
      managers.authRequest deps d plugin s = (some (.ok req), s1) →
      deps.ContactPlugin { req with OID := reqURI }
        ("error while getting the details " ++ reqURI ++ ": ") s1 = (some r, s2) →
      r.err ≠ none →
      (r.status.StatusCode ≠ 401 ∨
        strings.EqualFold plugin.PreferredAuthType "XAuthToken" = false) →
      (failedResponse env r.body r.status).StatusCode = r.status.StatusCode ∧
        ∀ retry, managers.getPluginManagerResoure env
            { deps with RetryManagersOperation := retry } d managerID reqURI s =
          (some (failedResponse env r.body r.status), s2)) := by
  constructor
  · intro f req reqURI s r h1 herr hcase
    refine ⟨?_, rfl⟩
    rcases hc : contactPlugin env req (operationError req.HTTPMethodType reqURI) s with ⟨o, s1⟩
    rw [hc] at h1
    simp only at h1
    subst h1
    obtain ⟨e, he⟩ := Option.ne_none_iff_exists'.mp herr
    unfold parseFabricsResponse
    simp only [hc, he, Option.isSome_some, if_true]
    rcases hcase with hcode | hauth
    · simp [http.StatusUnauthorized, hcode]
    · simp [hauth]
  · intro deps d managerID reqURI s s1 s2 data managerData pluginID plugin req r
      hmgr hobj hname hplugin hauthReq hcontact herr hcase
    refine ⟨rfl, ?_⟩
    intro retry
    have hp : req.Plugin = plugin := authRequest_plugin deps d plugin s s1 req hauthReq
    have hauthReq2 : managers.authRequest { deps with RetryManagersOperation := retry } d plugin s
        = (some (.ok req), s1) := by
      rw [← hauthReq]
      rfl
    obtain ⟨e, he⟩ := Option.ne_none_iff_exists'.mp herr
    subst hp
    unfold managers.getPluginManagerResoure
    simp only [hmgr, hobj, hname, hplugin, hauthReq2, hcontact, he, Option.isSome_some, if_true]
    rcases hcase with hcode | hauth
    · simp [http.StatusUnauthorized, hcode]
    · simp [hauth]

/-- C4, at a token-based plugin that answers 404, for both handlers: the response is 404
and the only invocation is that of the request. -/
theorem no_retry_unless_unauthorized_token_plugin_witness :
    (parseFabricsResponse (sampleEnv true) (sampleFabrics notFound)
        (sampleRequest notFound tokenPlugin) "/redfish/v1/Fabrics/f1/Switches" emptyState =
        (some (failedResponse (sampleEnv true) (some "{}") ⟨404, "", ""⟩),
          (contactPlugin (sampleEnv true) (sampleRequest notFound tokenPlugin)
            (operationError "GET" "/redfish/v1/Fabrics/f1/Switches") emptyState).2)) ∧
      (contactPlugin (sampleEnv true) (sampleRequest notFound tokenPlugin)
        (operationError "GET" "/redfish/v1/Fabrics/f1/Switches") emptyState).2.trace =
        [Event.call ⟨"https://10.0.0.1:9091/ODIM/v1/Fabrics/f1/Switches", "GET", "", "",
            PostBody.nil, none⟩] ∧
      managers.getPluginManagerResoure (sampleEnv true) sampleDeps ⟨notFound⟩ "m1"
          "/redfish/v1/Managers/m1" emptyState =
        (some (failedResponse (sampleEnv true) (some "{}") ⟨404, "", ""⟩), emptyState) :=
  ⟨((no_retry_unless_unauthorized_token_plugin (sampleEnv true)).1 (sampleFabrics notFound)
      (sampleRequest notFound tokenPlugin) "/redfish/v1/Fabrics/f1/Switches" emptyState
      ⟨some "{}", "", ⟨404, "", ""⟩,
        some "error while performing GET operation on /redfish/v1/Fabrics/f1/Switches: "⟩
      (by decide) (by decide) (Or.inl (by decide))).1,
    by decide,
    ((no_retry_unless_unauthorized_token_plugin (sampleEnv true)).2 sampleDeps ⟨notFound⟩ "m1"
      "/redfish/v1/Managers/m1" emptyState emptyState emptyState "{}"
      [("Name", managers.JSONValue.str "GRF")] "GRF" tokenPlugin
      { managers.zeroRequest with ContactClient := notFound, Plugin := tokenPlugin,
                                  Token := "cached" }
      ⟨some "{}", "", ⟨404, "", ""⟩, some "error while getting the details /redfish/v1/Managers/m1: "⟩
      rfl rfl rfl rfl rfl rfl (by decide) (Or.inl (by decide))).2
      sampleDeps.RetryManagersOperation⟩

/-! ## Translation of the request -/

/-- C10, evaluated: with an empty southbound table `parseFabricsRequest` works on an empty
URL and an empty body instead of the request's, so that a POST with a JSON body is
answered 400 `MalformedJSON`; with two entries only the entry iterated last is applied
(here `Ports`, not `/redfish/v1`), whereas the loop of `fillResponse` applies both entries
of the same table. -/
theorem parseFabricsRequest_translation_keeps_last_entry_only :
    ((parseFabricsRequest (translatingEnv []) (sampleFabrics notFound) portRequest
        emptyState).1.map fun r => (r.1.URL, r.2.1.StatusCode, r.2.1.StatusMessage)) =
      some ("", 400, "MalformedJSON") ∧
    ((parseFabricsRequest (translatingEnv [("/redfish/v1", "/ODIM/v1"), ("Ports", "ports")])
        (sampleFabrics notFound) portRequest emptyState).1.map
          fun r => (r.1.URL, r.1.PostBody)) =
      some ("/redfish/v1/Fabrics/f1/ports",
        PostBody.decoded "\x7b\"Link\": \"/redfish/v1/Fabrics/f1\"\x7d") ∧
    northboundLoop [("/redfish/v1", "/ODIM/v1"), ("Ports", "ports")]
        portRequest.URL portRequest.RequestBody =
      ("/ODIM/v1/Fabrics/f1/ports", "\x7b\"Link\": \"/ODIM/v1/Fabrics/f1\"\x7d") := by
  decide

/-! ## Properties of the sessions -/

theorem find_filter_token (table : List Session) (t token : String) :
    (table.filter fun s => s.Token != t).find? (fun s => s.Token == token) =
      if token = t then none else table.find? (fun s => s.Token == token) := by
  induction table with
  | nil => simp
  | cons a rest ih =>
    simp only [List.filter_cons, List.find?_cons]
    by_cases ha : a.Token = t <;> by_cases hat : a.Token = token
    · subst ha; subst hat
      simp
    · have h1 : (a.Token == token) = false := by simpa using hat
      have h2 : (a.Token != t) = false := by simp [ha]
      simp only [h1, h2]
      simpa using ih
    · have h1 : (a.Token == token) = true := by simpa using hat
      have h2 : (a.Token != t) = true := by simpa using ha
      have h3 : token ≠ t := fun h => ha (hat.trans h)
      simp [h1, h2, h3, List.find?_cons]
    · have h1 : (a.Token == token) = false := by simpa using hat
      have h2 : (a.Token != t) = true := by simpa using ha
      simp only [h1, h2, if_true, List.find?_cons]
      exact ih

/-- A table whose tokens differ from `t` is not changed by the deletion of `t`. -/
theorem filter_token_of_not_mem (table : List Session) (t : String)
    (h : ∀ s ∈ table, s.Token ≠ t) : (table.filter fun s => s.Token != t) = table := by
  rw [List.filter_eq_self]
  intro s hs
  simpa using h s hs

theorem find_token_append_cons (pre rest : List Session) (s : Session)
    (h : ∀ x ∈ pre, x.Token ≠ s.Token) :
    (pre ++ s :: rest).find? (fun x => x.Token == s.Token) = some s := by
  induction pre with
  | nil => simp
  | cons a pre ih =>
    have ha : (a.Token == s.Token) = false := by simpa using h a (List.mem_cons_self _ _)
    simp only [List.cons_append, List.find?_cons, ha]
    exact ih fun x hx => h x (List.mem_cons_of_mem _ hx)

/-- The loop of the sweep computes the survivors: with pairwise distinct tokens, from a
table `pre ++ suf` of which the keys of `suf` remain to be visited, it leaves `pre` and the
survivors of `suf`. -/
theorem sweepLoop_eq_survivors (conf : AuthConf) (faults : StoreFaults) (now : Nat → Int)
    (suf : List Session) :
    ∀ (pre : List Session) (k : Nat),
      (∀ x ∈ pre, ∀ y ∈ suf, x.Token ≠ y.Token) → (suf.map fun s => s.Token).Nodup →
      sweepLoop conf faults now (suf.map fun s => s.Token) k (pre ++ suf) =
        (pre ++ survivors conf faults now k suf, k + lookups faults suf) := by
  induction suf with
  | nil => intro pre k _ _; simp [sweepLoop, survivors, lookups]
  | cons s rest ih =>
    intro pre k hdisj hnodup
    have hnd := List.nodup_cons.mp hnodup
    have hs_rest : ∀ y ∈ rest, s.Token ≠ y.Token := by
      intro y hy h
      exact hnd.1 (List.mem_map.mpr ⟨y, hy, h.symm⟩)
    have hdisj1 : ∀ x ∈ pre ++ [s], ∀ y ∈ rest, x.Token ≠ y.Token := by
      intro x hx y hy
      rcases List.mem_append.mp hx with hx | hx
      · exact hdisj x hx y (List.mem_cons_of_mem _ hy)
      · rw [List.mem_singleton.mp hx]; exact hs_rest y hy
    have hdisj2 : ∀ x ∈ pre, ∀ y ∈ rest, x.Token ≠ y.Token :=
      fun x hx y hy => hdisj x hx y (List.mem_cons_of_mem _ hy)
    have hkeep := ih (pre ++ [s]) k hdisj1 hnd.2
    have hkeep1 := ih (pre ++ [s]) (k + 1) hdisj1 hnd.2
    have hdrop := ih pre (k + 1) hdisj2 hnd.2
    simp only [List.append_assoc, List.singleton_append] at hkeep hkeep1
    simp only [List.map_cons, sweepLoop, survivors, lookups, List.filter_cons]
    cases hf : faults.GetSession s.Token with
    | some e =>
      simp only [asmodel.GetSession, hf, Option.isSome_some, if_true, Option.isNone_some]
      rw [hkeep]
      simp [lookups]
    | none =>
      have hfind := find_token_append_cons pre rest s
        (fun x hx => hdisj x hx s (List.mem_cons_self _ _))
      simp only [asmodel.GetSession, hf, hfind, Option.isSome_none, Option.isNone_none]
      by_cases hto : timedOut conf (now k) s = true
      · cases hd : faults.Delete s.Token with
        | some e =>
          simp only [hto, if_true, asmodel.Delete, hd, Option.isNone_some, Bool.and_false]
          rw [hkeep1]
          simp [lookups]; omega
        | none =>
          have hdel : (pre ++ s :: rest).filter (fun x => x.Token != s.Token) = pre ++ rest := by
            rw [List.filter_append, List.filter_cons]
            rw [filter_token_of_not_mem pre s.Token
              (fun x hx => hdisj x hx s (List.mem_cons_self _ _))]
            rw [filter_token_of_not_mem rest s.Token (fun y hy h => hs_rest y hy h.symm)]
            simp
          simp only [hto, if_true, asmodel.Delete, hd, Option.isNone_none, Bool.and_true, hdel]
          rw [hdrop]
          simp [lookups]; omega
      · simp only [hto, Bool.false_and]
        rw [hkeep1]
        simp [lookups]; omega

/-- The sessions of a swept table are sessions of the table before: the lookup of a token
after the loop finds nothing or what it found before. -/
theorem sweepLoop_find (conf : AuthConf) (faults : StoreFaults) (now : Nat → Int)
    (token : String) (keys : List String) :
    ∀ (k : Nat) (table : List Session),
      (sweepLoop conf faults now keys k table).1.find? (fun s => s.Token == token) = none ∨
      (sweepLoop conf faults now keys k table).1.find? (fun s => s.Token == token) =
        table.find? (fun s => s.Token == token) := by
  induction keys with
  | nil => intro k table; right; rfl
  | cons key rest ih =>
    intro k table
    unfold sweepLoop
    split
    · exact ih k table
    · split
      · split
        · exact ih (k + 1) table
        · rename_i session _ _ _ table1 heq
          unfold asmodel.Delete at heq
          split at heq
          · cases heq
          · simp only [Except.ok.injEq] at heq
            subst heq
            rcases ih (k + 1) (table.filter fun s => s.Token != session.Token) with h | h
            · left; exact h
            · rw [h, find_filter_token]
              split
              · left; rfl
              · right; rfl
      · exact ih (k + 1) table

theorem expiredSessionCleanUp_find (conf : AuthConf) (faults : StoreFaults) (now : Nat → Int)
    (st : AuthState) (token : String) :
    (expiredSessionCleanUp conf faults now st).table.find? (fun s => s.Token == token) = none ∨
    (expiredSessionCleanUp conf faults now st).table.find? (fun s => s.Token == token) =
      st.table.find? (fun s => s.Token == token) := by
  unfold expiredSessionCleanUp
  split
  · split
    · right; rfl
    · exact sweepLoop_find conf faults now token _ 1 st.table
  · right; rfl

theorem runSweeps_find (conf : AuthConf) (token : String) (sweeps : List SweepCall) :
    ∀ st : AuthState,
      (runSweeps conf sweeps st).table.find? (fun s => s.Token == token) = none ∨
      (runSweeps conf sweeps st).table.find? (fun s => s.Token == token) =
        st.table.find? (fun s => s.Token == token) := by
  induction sweeps with
  | nil => intro st; right; rfl
  | cons c cs ih =>
    intro st
    unfold runSweeps
    rcases ih (expiredSessionCleanUp conf c.faults c.now st) with h | h
    · left; exact h
    · rw [h]
      exact expiredSessionCleanUp_find conf c.faults c.now st token

theorem time_Since_mono (t : Int) {now now1 : Int} (h : now ≤ now1) :
    time.Since now t ≤ time.Since now1 t := by
  unfold time.Since time.Sub time.minDuration time.maxDuration
  split <;> split <;> (try split) <;> (try split) <;> omega

/-- A session that has timed out stays so at every later reading of the clock. -/
theorem timedOut_later (conf : AuthConf) (hmono : Monotone conf.Minutes) (s : Session)
    {now now1 : Int} (h : now ≤ now1) (hto : timedOut conf now s = true) :
    timedOut conf now1 s = true := by
  unfold timedOut at hto ⊢
  simp only [decide_eq_true_eq] at hto ⊢
  exact lt_of_lt_of_le hto (hmono (time_Since_mono s.LastUsedTime h))

/-- C11: `CheckSessionTimeOut` never returns a session that has timed out at its clock
reading, whatever the table and the store failures are; and a session stored under a token
that has timed out is rejected (the result is an error) at every later reading, after any
sequence of sweeps, run or throttled, with any store failures. -/
theorem CheckSessionTimeOut_rejects_timed_out (conf : AuthConf) (hmono : Monotone conf.Minutes)
    (st : AuthState) (token : String) (s : Session) (now : Int)
    (hstored : st.table.find? (fun x => x.Token == token) = some s)
    (htimedOut : timedOut conf now s = true) :
    (∀ faults table now1 token1 r,
        CheckSessionTimeOut conf faults table now1 token1 = .ok r →
        timedOut conf now1 r = false) ∧
      ∀ (sweeps : List SweepCall) (faults : StoreFaults) (now1 : Int), now ≤ now1 →
        ∃ e, CheckSessionTimeOut conf faults (runSweeps conf sweeps st).table now1 token =
          .error e := by
  constructor
  · intro faults table now1 token1 r h
    unfold CheckSessionTimeOut at h
    split at h
    · cases h
    · split at h
      · cases h
      · split at h
        · cases h
        · rename_i hto
          simp only [Except.ok.injEq] at h
          subst h
          simpa using hto
  · intro sweeps faults now1 hlater
    unfold CheckSessionTimeOut
    split
    · exact ⟨_, rfl⟩
    · unfold asmodel.GetSession
      cases faults.GetSession token with
      | some e => exact ⟨_, rfl⟩
      | none =>
        rcases runSweeps_find conf token sweeps st with h | h
        · simp only [h]
          exact ⟨_, rfl⟩
        · rw [hstored] at h
          simp only [h, timedOut_later conf hmono s hlater htimedOut, if_true]
          exact ⟨_, rfl⟩

theorem exactMinutes_monotone : Monotone exactMinutes := by
  intro a b h
  unfold exactMinutes
  have : (a : ℚ) ≤ (b : ℚ) := by exact_mod_cast h
  exact div_le_div_of_nonneg_right this (by norm_num)

theorem timedOut_oldSession : timedOut sampleAuthConf (60 * minute) oldSession = true := by
  simp only [timedOut, sampleAuthConf, exactMinutes, oldSession, minute, time.Since, time.Sub,
    time.minDuration, time.maxDuration, decide_eq_true_eq]
  norm_num

/-- C11, at a table that holds a session last used an hour ago, with a timeout of 30
minutes: the session is rejected a minute later, after a sweep or without one. -/
theorem CheckSessionTimeOut_rejects_timed_out_witness :
    (∃ e, CheckSessionTimeOut sampleAuthConf noFaults
        (runSweeps sampleAuthConf [⟨noFaults, atOneHour⟩]
          ⟨[oldSession, freshSession], time.zero⟩).table (61 * minute) "t-old" = .error e) ∧
      ∃ e, CheckSessionTimeOut sampleAuthConf noFaults
        (runSweeps sampleAuthConf [] ⟨[oldSession, freshSession], time.zero⟩).table
          (61 * minute) "t-old" = .error e :=
  have h := (CheckSessionTimeOut_rejects_timed_out sampleAuthConf exactMinutes_monotone
    ⟨[oldSession, freshSession], time.zero⟩ "t-old" oldSession (60 * minute) (by decide)
    timedOut_oldSession).2
  ⟨h [⟨noFaults, atOneHour⟩] noFaults (61 * minute) (by decide),
    h [] noFaults (61 * minute) (by decide)⟩

/-- C13: `CheckSessionCreationCredentials` returns a user exactly when the name and the
password are not empty, the lookup of the name gives that user and the stored password is
the digest of the given one. Otherwise it returns an error: `UndefinedErrorType` for an
empty name or password, whatever the user store holds, and for a password that does not
match; the error number of the lookup when the lookup fails. Its only result is the user
or the error: no session is written. -/
theorem CheckSessionCreationCredentials_iff (conf : AuthConf) (userName password : String) :
    (∀ u, CheckSessionCreationCredentials conf userName password = .ok u ↔
      userName ≠ "" ∧ password ≠ "" ∧ conf.GetUserDetails userName = .ok u ∧
        u.Password = conf.hashPassword password) ∧
    ((userName = "" ∨ password = "") →
      CheckSessionCreationCredentials conf userName password =
        .error (errors.PackError errors.ErrType.UndefinedErrorType
          ["error: username or password missing"])) ∧
    (userName ≠ "" → password ≠ "" → ∀ err, conf.GetUserDetails userName = .error err →
      ∃ e, CheckSessionCreationCredentials conf userName password = .error e ∧
        e.ErrNo = err.ErrNo) ∧
    (userName ≠ "" → password ≠ "" → ∀ u, conf.GetUserDetails userName = .ok u →
      u.Password ≠ conf.hashPassword password →
      CheckSessionCreationCredentials conf userName password =
        .error (errors.PackError errors.ErrType.UndefinedErrorType
          ["error: password mismatch "])) := by
  refine ⟨?_, ?_, ?_, ?_⟩
  · intro u
    unfold CheckSessionCreationCredentials
    by_cases hn : userName = ""
    · simp [hn]
    · by_cases hp : password = ""
      · simp [hp]
      · cases hl : conf.GetUserDetails userName with
        | error err => simp [hn, hp]
        | ok user =>
          have hne : (userName == "" || password == "") = false := by simp [hn, hp]
          simp only [hne, Bool.false_eq_true, if_false]
          by_cases hm : user.Password = conf.hashPassword password
          · have hb : (user.Password != conf.hashPassword password) = false := by simp [hm]
            simp only [hb, Bool.false_eq_true, if_false, Except.ok.injEq]
            constructor
            · intro h; subst h; exact ⟨hn, hp, rfl, hm⟩
            · intro h; exact h.2.2.1
          · have hb : (user.Password != conf.hashPassword password) = true := by simp [hm]
            simp only [hb, if_true]
            constructor
            · intro h; cases h
            · intro h
              have hu := h.2.2.1
              simp only [Except.ok.injEq] at hu
              subst hu
              exact absurd h.2.2.2 hm
  · intro h
    unfold CheckSessionCreationCredentials
    rcases h with h | h <;> simp [h]
  · intro hn hp err hl
    refine ⟨errors.PackError err.ErrNo
      ["error while trying to get user with username ", userName, ": ", err.text], ?_, rfl⟩
    simp [CheckSessionCreationCredentials, hn, hp, hl]
  · intro hn hp u hl hm
    simp [CheckSessionCreationCredentials, hn, hp, hl, hm]

/-- A call that does not enumerate the table changes nothing. -/
theorem expiredSessionCleanUp_of_not_enumerates (conf : AuthConf) (c : SweepCall)
    (st : AuthState) (h : enumerates conf c st = false) :
    expiredSessionCleanUp conf c.faults c.now st = st := by
  unfold enumerates at h
  unfold expiredSessionCleanUp asmodel.GetAllSessionKeys
  split
  · rename_i hdue
    simp only [hdue, decide_True, Bool.true_and, Option.isNone_eq_false_iff] at h
    obtain ⟨e, he⟩ := Option.isSome_iff_exists.mp h
    simp [he]
  · rfl

/-- A call that enumerates the table stamps one of its clock readings. -/
theorem expiredSessionCleanUp_stamp (conf : AuthConf) (c : SweepCall) (st : AuthState)
    (h : enumerates conf c st = true) :
    ∃ k, (expiredSessionCleanUp conf c.faults c.now st).lastExpiredSessionCleanUpTime =
      c.now k := by
  unfold enumerates at h
  simp only [Bool.and_eq_true, decide_eq_true_eq, Option.isNone_iff_eq_none] at h
  unfold expiredSessionCleanUp asmodel.GetAllSessionKeys
  simp only [h.1, if_true, h.2]
  exact ⟨_, rfl⟩

/-- After a stamp made within the window, no call within the window enumerates. -/
theorem enumerations_after_stamp (conf : AuthConf) (all : List SweepCall)
    (hwindow : ∀ c1 ∈ all, ∀ c2 ∈ all, ∀ i j,
      ¬ conf.Minutes (time.Since (c1.now i) (c2.now j)) > conf.ExpiredSessionCleanUpTimeInMins)
    (calls : List SweepCall) :
    (∀ c ∈ calls, c ∈ all) → ∀ st : AuthState,
      (∃ c0 ∈ all, ∃ k, st.lastExpiredSessionCleanUpTime = c0.now k) →
      enumerations conf calls st = 0 := by
  induction calls with
  | nil => intro _ _ _; rfl
  | cons c cs ih =>
    intro hsub st hst
    obtain ⟨c0, hc0, k, hk⟩ := hst
    have hc : c ∈ all := hsub c (List.mem_cons_self _ _)
    have hnot : enumerates conf c st = false := by
      unfold enumerates
      rw [hk]
      have := hwindow c hc c0 hc0 0 k
      simp [this]
    unfold enumerations
    rw [hnot, expiredSessionCleanUp_of_not_enumerates conf c st hnot]
    simp only [Bool.false_eq_true, if_false, Nat.zero_add]
    exact ih (fun x hx => hsub x (List.mem_cons_of_mem _ hx)) st ⟨c0, hc0, k, hk⟩

theorem enumerations_le_one (conf : AuthConf) (all : List SweepCall)
    (hwindow : ∀ c1 ∈ all, ∀ c2 ∈ all, ∀ i j,
      ¬ conf.Minutes (time.Since (c1.now i) (c2.now j)) > conf.ExpiredSessionCleanUpTimeInMins)
    (calls : List SweepCall) :
    (∀ c ∈ calls, c ∈ all) → ∀ st : AuthState, enumerations conf calls st ≤ 1 := by
  induction calls with
  | nil => intro _ _; exact Nat.zero_le _
  | cons c cs ih =>
    intro hsub st
    have hc : c ∈ all := hsub c (List.mem_cons_self _ _)
    have hcs : ∀ x ∈ cs, x ∈ all := fun x hx => hsub x (List.mem_cons_of_mem _ hx)
    unfold enumerations
    cases hen : enumerates conf c st with
    | false =>
      rw [expiredSessionCleanUp_of_not_enumerates conf c st hen]
      simp only [Bool.false_eq_true, if_false, Nat.zero_add]
      exact ih hcs st
    | true =>
      obtain ⟨k, hk⟩ := expiredSessionCleanUp_stamp conf c st hen
      rw [enumerations_after_stamp conf all hwindow cs hcs _ ⟨c, hc, k, hk⟩]
      simp

/-- C14: of a sequence of calls of `expiredSessionCleanUp` whose clock readings all lie
within one cleanup interval of each other, at most one enumerates the session table; and a
call that does not enumerate it leaves the session table and
`lastExpiredSessionCleanUpTime` as they were. -/
theorem expiredSessionCleanUp_throttled (conf : AuthConf) (calls : List SweepCall)
    (st : AuthState)
    (hwindow : ∀ c1 ∈ calls, ∀ c2 ∈ calls, ∀ i j,
      ¬ conf.Minutes (time.Since (c1.now i) (c2.now j)) >
        conf.ExpiredSessionCleanUpTimeInMins) :
    enumerations conf calls st ≤ 1 ∧
      ∀ (c : SweepCall) (st1 : AuthState), enumerates conf c st1 = false →
        expiredSessionCleanUp conf c.faults c.now st1 = st1 :=
  ⟨enumerations_le_one conf calls hwindow calls (fun _ h => h) st,
    fun c st1 h => expiredSessionCleanUp_of_not_enumerates conf c st1 h⟩

theorem sample_window :
    ∀ c1 ∈ [(⟨noFaults, atOneHour⟩ : SweepCall), ⟨noFaults, atOneHour⟩, ⟨noFaults, atOneHour⟩],
    ∀ c2 ∈ [(⟨noFaults, atOneHour⟩ : SweepCall), ⟨noFaults, atOneHour⟩, ⟨noFaults, atOneHour⟩],
    ∀ i j, ¬ sampleAuthConf.Minutes (time.Since (c1.now i) (c2.now j)) >
      sampleAuthConf.ExpiredSessionCleanUpTimeInMins := by
  intro c1 h1 c2 h2 i j
  simp only [List.mem_cons, List.mem_singleton, or_self, List.not_mem_nil, or_false] at h1 h2
  subst h1; subst h2
  simp only [sampleAuthConf, exactMinutes, atOneHour, minute, time.Since, time.Sub,
    time.minDuration, time.maxDuration]
  norm_num

/-- C14, at three calls at the same clock reading. -/
theorem expiredSessionCleanUp_throttled_witness :
    enumerations sampleAuthConf
        [⟨noFaults, atOneHour⟩, ⟨noFaults, atOneHour⟩, ⟨noFaults, atOneHour⟩]
        ⟨[oldSession, freshSession], time.zero⟩ ≤ 1 :=
  (expiredSessionCleanUp_throttled sampleAuthConf
    [⟨noFaults, atOneHour⟩, ⟨noFaults, atOneHour⟩, ⟨noFaults, atOneHour⟩]
    ⟨[oldSession, freshSession], time.zero⟩ sample_window).1

/-- Without store failures, and when no session crosses the timeout during the sweep, the
survivors are the sessions that have not timed out. -/
theorem survivors_eq_filter (conf : AuthConf) (faults : StoreFaults) (now : Nat → Int)
    (table : List Session) :
    ∀ k, (∀ s ∈ table, ∀ i, timedOut conf (now i) s = timedOut conf (now 0) s) →
      survivors conf faults now k table =
        table.filter fun s =>
          (faults.GetSession s.Token).isSome || !timedOut conf (now 0) s ||
            (faults.Delete s.Token).isSome := by
  induction table with
  | nil => intro k _; rfl
  | cons s rest ih =>
    intro k hstable
    have hrest : ∀ x ∈ rest, ∀ i, timedOut conf (now i) x = timedOut conf (now 0) x :=
      fun x hx => hstable x (List.mem_cons_of_mem _ hx)
    have hs := hstable s (List.mem_cons_self _ _) k
    unfold survivors
    rw [ih k hrest, ih (k + 1) hrest, hs, List.filter_cons]
    cases faults.GetSession s.Token <;> cases faults.Delete s.Token <;>
      cases timedOut conf (now 0) s <;> simp

theorem lookups_noFaults (table : List Session) : lookups noFaults table = table.length := by
  unfold lookups noFaults
  simp

/-- The sweep that is due and obtains the keys, on a table with pairwise distinct
tokens. -/
theorem expiredSessionCleanUp_eq_survivors (conf : AuthConf) (faults : StoreFaults)
    (now : Nat → Int) (st : AuthState)
    (hdue : conf.Minutes (time.Since (now 0) st.lastExpiredSessionCleanUpTime) >
      conf.ExpiredSessionCleanUpTimeInMins)
    (hkeys : faults.GetAllSessionKeys = none)
    (hnodup : (st.table.map fun s => s.Token).Nodup) :
    expiredSessionCleanUp conf faults now st =
      { table := survivors conf faults now 1 st.table,
        lastExpiredSessionCleanUpTime := now (1 + lookups faults st.table) } := by
  have h := sweepLoop_eq_survivors conf faults now st.table [] 1
    (fun x hx => absurd hx (List.not_mem_nil _)) hnodup
  simp only [List.nil_append] at h
  unfold expiredSessionCleanUp asmodel.GetAllSessionKeys
  simp only [hdue, if_true, hkeys, h]

/-- C15: after a sweep that is due, on a table with pairwise distinct tokens and a store
without failures, when no session crosses the timeout while the sweep runs, the table is
the table before restricted to the sessions that have not timed out (the others are
deleted, these are kept as they were, in their order), and the time of the sweep is
stamped. -/
theorem expiredSessionCleanUp_deletes_exactly_timed_out (conf : AuthConf) (now : Nat → Int)
    (st : AuthState)
    (hdue : conf.Minutes (time.Since (now 0) st.lastExpiredSessionCleanUpTime) >
      conf.ExpiredSessionCleanUpTimeInMins)
    (hnodup : (st.table.map fun s => s.Token).Nodup)
    (hstable : ∀ s ∈ st.table, ∀ i, timedOut conf (now i) s = timedOut conf (now 0) s) :
    (expiredSessionCleanUp conf noFaults now st).table =
        st.table.filter (fun s => !timedOut conf (now 0) s) ∧
      (∀ s, s ∈ (expiredSessionCleanUp conf noFaults now st).table ↔
        s ∈ st.table ∧ timedOut conf (now 0) s = false) ∧
      (expiredSessionCleanUp conf noFaults now st).lastExpiredSessionCleanUpTime =
        now (1 + st.table.length) := by
  have h := expiredSessionCleanUp_eq_survivors conf noFaults now st hdue rfl hnodup
  have htable : (expiredSessionCleanUp conf noFaults now st).table =
      st.table.filter (fun s => !timedOut conf (now 0) s) := by
    rw [h, survivors_eq_filter conf noFaults now st.table 1 hstable]
    simp [noFaults]
  refine ⟨htable, ?_, ?_⟩
  · intro s
    rw [htable, List.mem_filter]
    simp
  · rw [h, lookups_noFaults]

/-- C16: in a sweep that is due and obtains the keys, on a table with pairwise distinct
tokens, the failure of a lookup or of a deletion does not end the sweep: the table after
it is made of the survivors, session by session (a session stays exactly when its own
lookup fails, it has not timed out, or its own deletion fails), and
`lastExpiredSessionCleanUpTime` is set to the clock reading made after the loop. -/
theorem expiredSessionCleanUp_continues_past_failures (conf : AuthConf) (faults : StoreFaults)
    (now : Nat → Int) (st : AuthState)
    (hdue : conf.Minutes (time.Since (now 0) st.lastExpiredSessionCleanUpTime) >
      conf.ExpiredSessionCleanUpTimeInMins)
    (hkeys : faults.GetAllSessionKeys = none)
    (hnodup : (st.table.map fun s => s.Token).Nodup) :
    (expiredSessionCleanUp conf faults now st).table = survivors conf faults now 1 st.table ∧
      (expiredSessionCleanUp conf faults now st).lastExpiredSessionCleanUpTime =
        now (1 + lookups faults st.table) ∧
      ((∀ s ∈ st.table, ∀ i, timedOut conf (now i) s = timedOut conf (now 0) s) →
        ∀ s, s ∈ (expiredSessionCleanUp conf faults now st).table ↔
          s ∈ st.table ∧ ((faults.GetSession s.Token).isSome ∨
            timedOut conf (now 0) s = false ∨ (faults.Delete s.Token).isSome)) := by
  have h := expiredSessionCleanUp_eq_survivors conf faults now st hdue hkeys hnodup
  refine ⟨by rw [h], by rw [h], ?_⟩
  intro hstable s
  rw [h]
  simp only [survivors_eq_filter conf faults now st.table 1 hstable, List.mem_filter,
    Bool.or_eq_true, Bool.not_eq_true', or_assoc]

theorem sample_due :
    sampleAuthConf.Minutes (time.Since (atOneHour 0) time.zero) >
      sampleAuthConf.ExpiredSessionCleanUpTimeInMins := by
  simp only [sampleAuthConf, exactMinutes, atOneHour, minute, time.Since, time.Sub,
    time.minDuration, time.maxDuration, time.zero]
  norm_num

theorem timedOut_at_zero (token user : String) :
    timedOut sampleAuthConf (60 * minute) ⟨token, user, [], 0⟩ = true := by
  simp only [timedOut, sampleAuthConf, exactMinutes, minute, time.Since, time.Sub,
    time.minDuration, time.maxDuration, decide_eq_true_eq]
  norm_num

theorem timedOut_freshSession : timedOut sampleAuthConf (60 * minute) freshSession = false := by
  simp only [timedOut, sampleAuthConf, exactMinutes, freshSession, minute, time.Since, time.Sub,
    time.minDuration, time.maxDuration, decide_eq_false_iff_not]
  norm_num

/-- C15, at a table with a session last used an hour ago and one used ten minutes ago:
the sweep leaves the second. -/
theorem expiredSessionCleanUp_deletes_exactly_timed_out_witness :
    (expiredSessionCleanUp sampleAuthConf noFaults atOneHour
      ⟨[oldSession, freshSession], time.zero⟩).table = [freshSession] :=
  (expiredSessionCleanUp_deletes_exactly_timed_out sampleAuthConf atOneHour
    ⟨[oldSession, freshSession], time.zero⟩ sample_due (by decide)
    (fun _ _ _ => rfl)).1.trans
    (by
      have h1 : timedOut sampleAuthConf (atOneHour 0) oldSession = true :=
        timedOut_at_zero "t-old" "admin"
      have h2 : timedOut sampleAuthConf (atOneHour 0) freshSession = false :=
        timedOut_freshSession
      simp [List.filter, h1, h2])

/-- C16, at a table of three sessions last used an hour ago, of which the first cannot be
looked up and the second cannot be deleted, and a fresh one: the third is deleted all the
same, and the time is stamped. -/
theorem expiredSessionCleanUp_continues_past_failures_witness :
    (expiredSessionCleanUp sampleAuthConf brokenStore atOneHour
        ⟨[⟨"t-bad", "a", [], 0⟩, ⟨"t-stuck", "b", [], 0⟩, oldSession, freshSession],
          time.zero⟩).table =
        [⟨"t-bad", "a", [], 0⟩, ⟨"t-stuck", "b", [], 0⟩, freshSession] ∧
      (expiredSessionCleanUp sampleAuthConf brokenStore atOneHour
        ⟨[⟨"t-bad", "a", [], 0⟩, ⟨"t-stuck", "b", [], 0⟩, oldSession, freshSession],
          time.zero⟩).lastExpiredSessionCleanUpTime = 60 * minute :=
  have h := expiredSessionCleanUp_continues_past_failures sampleAuthConf brokenStore atOneHour
    ⟨[⟨"t-bad", "a", [], 0⟩, ⟨"t-stuck", "b", [], 0⟩, oldSession, freshSession], time.zero⟩
    sample_due rfl (by decide)
  ⟨h.1.trans (by
      have h1 : timedOut sampleAuthConf (atOneHour 2) oldSession = true :=
        timedOut_at_zero "t-old" "admin"
      have h2 : timedOut sampleAuthConf (atOneHour 3) freshSession = false :=
        timedOut_freshSession
      have h3 : timedOut sampleAuthConf (atOneHour 1) ⟨"t-stuck", "b", [], 0⟩ = true :=
        timedOut_at_zero "t-stuck" "b"
      have t1 : oldSession.Token = "t-old" := rfl
      have t2 : freshSession.Token = "t-new" := rfl
      simp [survivors, brokenStore, h1, h2, h3, t1, t2]),
    h.2.1⟩

/-! ## Properties of the event subscriptions -/

section
open rfphandler

/-- C17, as stated, fails: the subscription on the device has no event types (nil after
decoding) and the desired list is empty, so that the two sequences are equal, yet
`checkCreateSub` deletes the subscription and creates one. -/
theorem checkCreateSub_nil_and_empty_counterexample :
    (((samplePluginEnv (subscribedDevice "none")).jsonEvtSubPost "none").toOption.map
        fun obj => elements obj.EventTypes) =
      some (elements (sampleStartup (some [])).EventTypes) ∧
      (checkCreateSub (samplePluginEnv (subscribedDevice "none")) (sampleStartup (some []))
          []).2 =
        [DeviceCall.GetSubscriptionDetail (redfishDevice (sampleStartup (some []))),
         DeviceCall.DeleteSubscriptionDetail (redfishDevice (sampleStartup (some []))),
         DeviceCall.SubscribeForEvents
          { redfishDevice (sampleStartup (some [])) with PostBody := some "" }] := by
  decide

/-- C17, amended: when the query is answered 200 with a body that decodes to event types
deeply equal to the desired ones (`reflect.DeepEqual`: both nil, or both non-nil with the
same elements in the same order), the query is the only call `checkCreateSub` makes: no
deletion and no subscription; the message is the map of the query's `location`. -/
theorem checkCreateSub_matching_subscription (env : PluginEnv) (startup : Startup)
    (trace : List DeviceCall) (client : RedfishClient) (resp : http.Response) (body : String)
    (obj : EvtSubPost)
    (hclient : env.GetRedfishClient = .ok client)
    (hquery : client trace (DeviceCall.GetSubscriptionDetail (redfishDevice startup)) =
      (some resp, none))
    (hstatus : resp.StatusCode = 200)
    (hbody : resp.Body = .ok body)
    (hdecode : env.jsonEvtSubPost body = .ok obj)
    (hequal : DeepEqual obj.EventTypes startup.EventTypes = true) :
    checkCreateSub env startup trace =
      (some (located startup resp),
        trace ++ [DeviceCall.GetSubscriptionDetail (redfishDevice startup)]) := by
  unfold checkCreateSub
  simp only [hclient, call, hquery, hstatus, http.StatusOK, beq_self_eq_true, if_true, hbody,
    hdecode, hequal, Bool.not_true, Bool.false_eq_true, if_false]

/-- C17, amended, at a device subscribed for `Alert` when `Alert` is desired. -/
theorem checkCreateSub_matching_subscription_witness :
    checkCreateSub (samplePluginEnv (subscribedDevice "alert")) (sampleStartup (some ["Alert"]))
        [] =
      (some (located (sampleStartup (some ["Alert"])) ⟨200, [], .ok "alert"⟩),
        [] ++ [DeviceCall.GetSubscriptionDetail
          (redfishDevice (sampleStartup (some ["Alert"])))]) :=
  checkCreateSub_matching_subscription (samplePluginEnv (subscribedDevice "alert"))
    (sampleStartup (some ["Alert"])) [] (subscribedDevice "alert") ⟨200, [], .ok "alert"⟩
    "alert" ⟨"https://odim:45000/events", some ["Alert"], "Event Subscription", "Redfish"⟩
    rfl rfl rfl rfl rfl (by decide)

/-- C18, evaluated: the device is subscribed for `Alert`, and `Alert` and `StatusChange`
are desired. `checkCreateSub` makes one deletion and then one subscription with the
desired types, which returns the location of the new subscription; but the entry of the
device in the map is the `location` header of the answer to the query (empty here), not
that location. -/
theorem checkCreateSub_records_location_of_query :
    checkCreateSub (samplePluginEnv (subscribedDevice "alert"))
        (sampleStartup (some ["Alert", "StatusChange"])) [] =
      (some (Message.result [("10.0.0.9", "")]),
        [DeviceCall.GetSubscriptionDetail ⟨"10.0.0.9", "root", "pw", "", none⟩,
         DeviceCall.DeleteSubscriptionDetail ⟨"10.0.0.9", "root", "pw", "", none⟩,
         DeviceCall.SubscribeForEvents
          ⟨"10.0.0.9", "root", "pw", "", some "Alert,StatusChange"⟩]) ∧
      ((subscribedDevice "alert" [] (DeviceCall.SubscribeForEvents
          ⟨"10.0.0.9", "root", "pw", "", some "Alert,StatusChange"⟩)).1.map
        fun r => r.Header.Get "Location") =
        some "/redfish/v1/EventService/Subscriptions/2" := by
  decide

/-- C19: when the query is answered 404, `checkCreateSub` makes no deletion and one
subscription, whose body is the encoded request for the event types `["Alert"]` whatever
types are desired, and when that call returns a response the message is the map with the
`location` header of that response under the host of the device. -/
theorem checkCreateSub_creates_default_subscription (env : PluginEnv) (startup : Startup)
    (trace : List DeviceCall) (client : RedfishClient) (resp resp1 : http.Response)
    (postBody : String)
    (hclient : env.GetRedfishClient = .ok client)
    (hquery : client trace (DeviceCall.GetSubscriptionDetail (redfishDevice startup)) =
      (some resp, none))
    (hstatus : resp.StatusCode = 404)
    (hencode : env.jsonMarshal (subscriptionRequest env (some ["Alert"])) = .ok postBody)
    (hcreate : client (trace ++ [DeviceCall.GetSubscriptionDetail (redfishDevice startup)])
        (DeviceCall.SubscribeForEvents { redfishDevice startup with PostBody := some postBody }) =
      (some resp1, none)) :
    checkCreateSub env startup trace =
      (some (Message.result [(startup.Device.Host, resp1.Header.Get "Location")]),
        trace ++ [DeviceCall.GetSubscriptionDetail (redfishDevice startup),
          DeviceCall.SubscribeForEvents
            { redfishDevice startup with PostBody := some postBody }]) ∧
      (subscriptionRequest env (some ["Alert"])).EventTypes = some ["Alert"] := by
  refine ⟨?_, rfl⟩
  have hcanon : http.CanonicalMIMEHeaderKey "location" = "Location" := by decide
  unfold checkCreateSub
  simp only [hclient, call, hquery, hstatus, http.StatusOK, http.StatusNotFound, hencode,
    hcreate, located, hcanon]
  simp

/-- C19, at a device without subscription when `StatusChange` is desired. -/
theorem checkCreateSub_creates_default_subscription_witness :
    checkCreateSub (samplePluginEnv unsubscribedDevice) (sampleStartup (some ["StatusChange"]))
        [] =
      (some (Message.result [("10.0.0.9", "/redfish/v1/EventService/Subscriptions/1")]),
        [DeviceCall.GetSubscriptionDetail ⟨"10.0.0.9", "root", "pw", "", none⟩,
         DeviceCall.SubscribeForEvents ⟨"10.0.0.9", "root", "pw", "", some "Alert"⟩]) :=
  (checkCreateSub_creates_default_subscription (samplePluginEnv unsubscribedDevice)
    (sampleStartup (some ["StatusChange"])) [] unsubscribedDevice ⟨404, [], .ok ""⟩
    ⟨201, [("Location", "/redfish/v1/EventService/Subscriptions/1")], .ok ""⟩ "Alert"
    rfl rfl rfl rfl rfl).1

/-- The entry of a key after the maps of single results have been merged into a map, when
the keys of the results are pairwise distinct. -/
theorem merge_singles_eq_some (results : List (String × String)) :
    ∀ (m : String → Option String), (results.map Prod.fst).Nodup → ∀ k v,
      ((results.map fun d => [d]).foldl mergeResult m) k = some v ↔
        (k, v) ∈ results ∨ (k ∉ results.map Prod.fst ∧ m k = some v) := by
  induction results with
  | nil => intro m _ k v; simp
  | cons a rest ih =>
    intro m hnodup k v
    have hnd := List.nodup_cons.mp hnodup
    simp only [List.map_cons, List.foldl_cons]
    rw [ih _ hnd.2 k v]
    simp only [mergeResult, List.foldl_cons, List.foldl_nil, List.mem_cons, List.mem_map,
      not_or, not_exists, not_and]
    constructor
    · rintro (h | ⟨hk, hm⟩)
      · exact Or.inl (Or.inr h)
      · by_cases hka : k = a.1
        · simp only [hka, if_true, Option.some.injEq] at hm
          left; left
          rw [hka, ← hm]
        · simp only [hka, if_false] at hm
          right
          exact ⟨⟨hka, hk⟩, hm⟩
    · rintro ((h | h) | ⟨⟨hka, hk⟩, hm⟩)
      · have hk : k = a.1 := by rw [← h]
        right
        refine ⟨?_, ?_⟩
        · intro x hx hxk
          apply hnd.1
          rw [← hk, ← hxk]
          exact List.mem_map.mpr ⟨x, hx, rfl⟩
        · have hv : v = a.2 := by rw [← h]
          simp [hk, hv]
      · exact Or.inl h
      · right
        exact ⟨hk, by simp [hka, hm]⟩

/-- C20: when the hosts of a batch of results are pairwise distinct, the map that the
collector builds is the same for every order of arrival of the results, and it holds
exactly the entries of the batch: a host is mapped to a location exactly when the pair is a
result of the batch. -/
theorem mergeAll_independent_of_arrival_order (results arrival : List (String × String))
    (hdistinct : (results.map Prod.fst).Nodup) (harrival : arrival.Perm results) :
    mergeAll (arrival.map fun d => [d]) = mergeAll (results.map fun d => [d]) ∧
      ∀ host location,
        mergeAll (arrival.map fun d => [d]) host = some location ↔
          (host, location) ∈ results := by
  have hdistinct1 : (arrival.map Prod.fst).Nodup :=
    (harrival.map Prod.fst).nodup_iff.mpr hdistinct
  have h1 : ∀ k v, mergeAll (arrival.map fun d => [d]) k = some v ↔ (k, v) ∈ results := by
    intro k v
    unfold mergeAll
    rw [merge_singles_eq_some arrival _ hdistinct1 k v]
    simp [harrival.mem_iff]
  have h2 : ∀ k v, mergeAll (results.map fun d => [d]) k = some v ↔ (k, v) ∈ results := by
    intro k v
    unfold mergeAll
    rw [merge_singles_eq_some results _ hdistinct k v]
    simp
  refine ⟨?_, h1⟩
  funext k
  apply Option.ext
  intro v
  rw [Option.mem_def, Option.mem_def, h1, h2]

/-- C20, at two results that arrive in the other order. -/
theorem mergeAll_independent_of_arrival_order_witness :
    mergeAll ([("10.0.0.8", "/subs/8"), ("10.0.0.9", "/subs/9")].map fun d => [d]) =
      mergeAll ([("10.0.0.9", "/subs/9"), ("10.0.0.8", "/subs/8")].map fun d => [d]) :=
  (mergeAll_independent_of_arrival_order [("10.0.0.9", "/subs/9"), ("10.0.0.8", "/subs/8")]
    [("10.0.0.8", "/subs/8"), ("10.0.0.9", "/subs/9")] (by decide)
    (List.Perm.swap _ _ _)).1

end

/-! ## Properties of the translation -/

theorem replaceFrom_skip (old new : List Char) :
    ∀ (l : List Char) (k : Nat),
      strings.replaceFrom old new k l = strings.replaceFrom old new 0 (l.drop k) := by
  intro l
  induction l with
  | nil => intro k; cases k <;> simp [strings.replaceFrom]
  | cons c cs ih =>
    intro k
    cases k with
    | zero => rfl
    | succ k => simp only [strings.replaceFrom, List.drop_succ_cons]; exact ih k

/-- One step of the scan of `strings.Replace` for a non-empty `old`. -/
theorem replaceFrom_cons (old new : List Char) (hold : old ≠ []) (c : Char) (cs : List Char) :
    strings.replaceFrom old new 0 (c :: cs) =
      if old.isPrefixOf (c :: cs) then
        new ++ strings.replaceFrom old new 0 ((c :: cs).drop old.length)
      else c :: strings.replaceFrom old new 0 cs := by
  have hlen : old.length = (old.length - 1) + 1 := by
    have := List.length_pos.mpr hold; omega
  simp only [strings.replaceFrom]
  split
  · rw [replaceFrom_skip old new cs (old.length - 1)]
    congr 2
    rw [hlen, List.drop_succ_cons]
    simp
  · rfl

/-- A prefix of the translation of `x` is a prefix of `x`, or begins with a prefix of `x`
and goes on, with at least one character, into an inserted copy of `new`. -/
theorem prefix_of_replaceFrom (old new : List Char) (hold : old ≠ []) :
    ∀ (n : Nat) (x p : List Char), x.length ≤ n → p <+: strings.replaceFrom old new 0 x →
      p <+: x ∨ ∃ u q, p = u ++ q ∧ q ≠ [] ∧ u <+: x ∧ (q <+: new ∨ new <+: q) := by
  intro n
  induction n with
  | zero =>
    intro x p hx hp
    have : x = [] := List.length_eq_zero.mp (Nat.le_zero.mp hx)
    subst this
    left
    simpa [strings.replaceFrom] using hp
  | succ n ih =>
    intro x p hx hp
    cases x with
    | nil => left; simpa [strings.replaceFrom] using hp
    | cons c cs =>
      rw [replaceFrom_cons old new hold] at hp
      by_cases hpre : old.isPrefixOf (c :: cs) = true
      · simp only [hpre, if_true] at hp
        by_cases hpnil : p = []
        · left; rw [hpnil]; exact List.nil_prefix
        · right
          refine ⟨[], p, by simp, hpnil, List.nil_prefix, ?_⟩
          exact List.prefix_or_prefix_of_prefix hp (List.prefix_append _ _)
      · simp only [hpre, Bool.false_eq_true, if_false] at hp
        cases p with
        | nil => left; exact List.nil_prefix
        | cons d q =>
          have hd := List.cons_prefix_cons.mp hp
          have hcs : cs.length ≤ n := by simpa using hx
          rcases ih cs q hcs hd.2 with h | ⟨u, q1, hq, hq1, hu, hcase⟩
          · left
            rw [hd.1]
            exact List.cons_prefix_cons.mpr ⟨rfl, h⟩
          · right
            refine ⟨c :: u, q1, ?_, hq1, List.cons_prefix_cons.mpr ⟨rfl, hu⟩, hcase⟩
            rw [hd.1, hq]; rfl
theorem replaceFrom_append_old (old new : List Char) (hold : old ≠ []) (y : List Char) :
    strings.replaceFrom old new 0 (old ++ y) = new ++ strings.replaceFrom old new 0 y := by
  cases old with
  | nil => exact absurd rfl hold
  | cons c cs =>
    have h := replaceFrom_cons (c :: cs) new hold c (cs ++ y)
    have hp : (c :: cs).isPrefixOf (c :: (cs ++ y)) = true := by
      rw [List.isPrefixOf_iff_prefix]
      exact List.prefix_append (c :: cs) y
    rw [hp] at h
    simp only [if_true] at h
    rw [List.cons_append, h]
    congr 2
    have : c :: (cs ++ y) = (c :: cs) ++ y := rfl
    rw [this, List.drop_left]

theorem unbordered_of_bordered_eq_false (s : List Char) (h : bordered s = false)
    (p : List Char) (hp : p ≠ []) (hps : p ≠ s) (hpre : p <+: s) (hsuf : p <:+ s) : False := by
  have hlen : p.length < s.length := by
    rcases Nat.lt_or_ge p.length s.length with h1 | h1
    · exact h1
    · exact absurd (hpre.eq_of_length (Nat.le_antisymm hpre.length_le h1)) hps
  have hpos : 0 < p.length := List.length_pos.mpr hp
  have h1 : s.take p.length = p := (List.prefix_iff_eq_take.mp hpre).symm
  have h2 : s.drop (s.length - p.length) = p := (List.suffix_iff_eq_drop.mp hsuf).symm
  have : bordered s = true := by
    unfold bordered
    rw [List.any_eq_true]
    refine ⟨p.length, List.mem_range.mpr hlen, ?_⟩
    simp [hpos, h1, h2]
  rw [h] at this
  exact Bool.noConfusion this

/-- The translation of `old` to `new` and back, for a non-empty `old`, on a text without
`new`, when `new` has no border. -/
theorem replaceFrom_round_trip (n s : List Char) (hn : n ≠ []) (hs : s ≠ [])
    (hunb : bordered s = false) :
    ∀ (m : Nat) (x : List Char), x.length ≤ m → ¬ s <:+: x →
      strings.replaceFrom s n 0 (strings.replaceFrom n s 0 x) = x := by
  intro m
  induction m with
  | zero =>
    intro x hx _
    have : x = [] := List.length_eq_zero.mp (Nat.le_zero.mp hx)
    subst this
    simp [strings.replaceFrom]
  | succ m ih =>
    intro x hx hinfix
    cases x with
    | nil => simp [strings.replaceFrom]
    | cons c cs =>
      rw [replaceFrom_cons n s hn]
      by_cases hpre : n.isPrefixOf (c :: cs) = true
      · simp only [hpre, if_true]
        have hprefix : n <+: c :: cs := List.isPrefixOf_iff_prefix.mp hpre
        have hx1 : n ++ (c :: cs).drop n.length = c :: cs := List.prefix_iff_eq_append.mp hprefix
        have hlen : ((c :: cs).drop n.length).length ≤ m := by
          have := List.length_pos.mpr hn
          simp only [List.length_drop, List.length_cons] at hx ⊢
          omega
        have hno : ¬ s <:+: (c :: cs).drop n.length :=
          fun h => hinfix (h.trans (List.drop_suffix _ _).isInfix)
        rw [replaceFrom_append_old s n hs, ih _ hlen hno, hx1]
      · simp only [hpre, Bool.false_eq_true, if_false]
        have hcs : cs.length ≤ m := by simpa using hx
        have hno : ¬ s <:+: cs := fun h => hinfix (h.trans (List.suffix_cons c cs).isInfix)
        have hnot : s.isPrefixOf (c :: strings.replaceFrom n s 0 cs) = false := by
          cases hb : s.isPrefixOf (c :: strings.replaceFrom n s 0 cs) with
          | false => rfl
          | true =>
            exfalso
            have hsp := List.isPrefixOf_iff_prefix.mp hb
            cases s with
            | nil => exact hs rfl
            | cons d q =>
              have hd := List.cons_prefix_cons.mp hsp
              rcases prefix_of_replaceFrom n (d :: q) hn cs.length cs q (Nat.le_refl _) hd.2
                with h | ⟨u, q1, hq, hq1, _, hcase⟩
              · apply hinfix
                rw [hd.1]
                exact (List.cons_prefix_cons.mpr ⟨rfl, h⟩).isInfix
              · have hsuf : q1 <:+ d :: q := ⟨d :: u, by rw [hq]; rfl⟩
                have hlt : q1.length < (d :: q).length := by
                  rw [hq]; simp; omega
                have hne : q1 ≠ d :: q := fun h => by rw [h] at hlt; exact Nat.lt_irrefl _ hlt
                rcases hcase with h | h
                · exact unbordered_of_bordered_eq_false (d :: q) hunb q1 hq1 hne h hsuf
                · have := h.length_le
                  omega
        rw [replaceFrom_cons s n hs, hnot]
        simp only [Bool.false_eq_true, if_false]
        rw [ih cs hcs hno]

theorem prefix_insertEverywhere (s : List Char) :
    ∀ x : List Char, s <+: strings.insertEverywhere s x := by
  intro x
  cases x with
  | nil => exact List.prefix_refl s
  | cons c cs => exact List.prefix_append _ _

/-- The insertion of `new` everywhere (the translation of the empty `old`) and back, on a
text without `new`, when `new` has no border. -/
theorem insertEverywhere_round_trip (s : List Char) (hs : s ≠ []) (hunb : bordered s = false) :
    ∀ x : List Char, ¬ s <:+: x →
      strings.replaceFrom s [] 0 (strings.insertEverywhere s x) = x := by
  intro x
  induction x with
  | nil =>
    intro _
    have := replaceFrom_append_old s [] hs []
    simp only [List.append_nil] at this
    simp [strings.insertEverywhere, this, strings.replaceFrom]
  | cons c cs ih =>
    intro hinfix
    have hno : ¬ s <:+: cs := fun h => hinfix (h.trans (List.suffix_cons c cs).isInfix)
    have hnot : s.isPrefixOf (c :: strings.insertEverywhere s cs) = false := by
      cases hb : s.isPrefixOf (c :: strings.insertEverywhere s cs) with
      | false => rfl
      | true =>
        exfalso
        have hsp := List.isPrefixOf_iff_prefix.mp hb
        cases s with
        | nil => exact hs rfl
        | cons d q =>
          have hd := List.cons_prefix_cons.mp hsp
          have hq : q <+: d :: q :=
            List.prefix_of_prefix_length_le hd.2 (prefix_insertEverywhere (d :: q) cs)
              (by simp)
          have hsuf : q <:+ d :: q := List.suffix_cons d q
          have hne : q ≠ d :: q := fun h => by
            have := congrArg List.length h
            simp at this
          by_cases hqnil : q = []
          · apply hinfix
            rw [hqnil, hd.1]
            exact (List.prefix_append [c] cs).isInfix
          · exact unbordered_of_bordered_eq_false (d :: q) hunb q hqnil hne hq hsuf
    show strings.replaceFrom s [] 0 (s ++ c :: strings.insertEverywhere s cs) = c :: cs
    rw [replaceFrom_append_old s [] hs, replaceFrom_cons s [] hs, hnot]
    simp only [Bool.false_eq_true, if_false, List.nil_append]
    rw [ih hno]

/-- The round trip of `strings.Replace`. -/
theorem Replace_round_trip (n s x : String) (hcontains : ¬ s.data <:+: x.data)
    (hunb : bordered s.data = false) :
    strings.Replace (strings.Replace x n s) s n = x := by
  have hs : s.data ≠ [] := fun h => hcontains (by rw [h]; exact List.nil_infix)
  by_cases hns : n = s
  · simp [strings.Replace, hns]
  · have hsn : ¬ s = n := fun h => hns h.symm
    unfold strings.Replace
    simp only [hns, hsn, if_false, hs]
    by_cases hn : n.data = []
    · simp only [hn, if_true]
      rw [insertEverywhere_round_trip s.data hs hunb x.data hcontains]
    · simp only [hn, if_false]
      rw [replaceFrom_round_trip n.data s.data hn hs hunb x.data.length x.data (Nat.le_refl _)
        hcontains]

/-- C27: the round trip fails for the pair ("b", "aa") on the text "ab", which does not
contain "aa": the southbound translation gives "aaa", in which the northbound translation
finds "aa" one place too early and gives "ba". -/
theorem translation_round_trip_counterexample :
    ¬ "aa".data <:+: "ab".data ∧
    southboundLoop [("b", "aa")] "ab" "ab" = ("aaa", "aaa") ∧
    northboundLoop [("aa", "b")] "aaa" "aaa" = ("ba", "ba") ∧
    [("aa", "b")].foldl (fun acc kv => strings.Replace acc kv.1 kv.2) "aaa" = "ba" := by
  decide

/-- C27, amended: with the single pair (n, s) in the southbound table and (s, n) in the
northbound table, the southbound translation followed by the northbound translation, of
the fabrics package and of the managers package alike, gives back every text that does not
contain s, provided that no proper non-empty prefix of s is also a suffix of s. -/
theorem translation_round_trip_unbordered (n s x : String)
    (hcontains : ¬ s.data <:+: x.data) (hunb : bordered s.data = false) :
    northboundLoop [(s, n)] (southboundLoop [(n, s)] x x).1 (southboundLoop [(n, s)] x x).2
      = (x, x) ∧
    [(s, n)].foldl (fun acc kv => strings.Replace acc kv.1 kv.2)
      (southboundLoop [(n, s)] x x).2 = x := by
  simp [northboundLoop, southboundLoop, Replace_round_trip n s x hcontains hunb]

/-- C27, amended, at the pair of `/redfish/v1` and `/ODIM/v1`. -/
theorem translation_round_trip_unbordered_witness :
    ¬ "/ODIM/v1".data <:+: "/redfish/v1/Fabrics".data ∧ bordered "/ODIM/v1".data = false ∧
    southboundLoop [("/redfish/v1", "/ODIM/v1")] "/redfish/v1/Fabrics" "/redfish/v1/Fabrics"
      = ("/ODIM/v1/Fabrics", "/ODIM/v1/Fabrics") ∧
    northboundLoop [("/ODIM/v1", "/redfish/v1")] "/ODIM/v1/Fabrics" "/ODIM/v1/Fabrics"
      = ("/redfish/v1/Fabrics", "/redfish/v1/Fabrics") :=
  ⟨by decide, by decide, by decide,
    by
      have h := (translation_round_trip_unbordered "/redfish/v1" "/ODIM/v1"
        "/redfish/v1/Fabrics" (by decide) (by decide)).1
      have e : southboundLoop [("/redfish/v1", "/ODIM/v1")] "/redfish/v1/Fabrics"
          "/redfish/v1/Fabrics" = ("/ODIM/v1/Fabrics", "/ODIM/v1/Fabrics") := by decide
      rw [e] at h
      exact h⟩

/-! ## Properties of the request parsing -/

/-- With a token-based plugin and no cached token, the state after `parseFabricsRequest`
is the state after the login. -/
theorem parseFabricsRequest_state_after_login (env : Env) (f : Fabrics) (req : FabricRequest)
    (s : State) (fabric : Fabric) (plugin : Plugin)
    (hauth : (f.Auth req.SessionToken [PrivilegeConfigureComponents] []).1 = http.StatusOK)
    (hurl : req.URL ≠ "/redfish/v1/Fabrics")
    (hfab : env.GetManagingPluginIDForFabricID (getFabricID req.URL) = .ok fabric)
    (hplug : env.GetPluginData fabric.PluginID = .ok plugin)
    (htoken : strings.EqualFold plugin.PreferredAuthType "XAuthToken" = true)
    (hcache : getToken s plugin.ID = "") :
    (parseFabricsRequest env f req s).2 = (createToken env f plugin s).2 := by
  unfold parseFabricsRequest
  simp only [hauth, bne_self_eq_false, Bool.false_eq_true, if_false, beq_iff_eq, hurl, hfab,
    hplug, htoken, if_true, getPluginToken, hcache]
  rcases createToken env f plugin s with ⟨res, s1⟩
  cases res with
  | none => rfl
  | some t =>
    by_cases ht : t = ""
    · simp [ht]
    · simp only [ht, if_false]
      split
      · split <;> rfl
      · rfl

/-- C22: with a token-based plugin and no cached token, a POST whose body is not a JSON
text is answered 400 only after a login has been sent to the plugin. -/
theorem parseFabricsRequest_login_before_decode_counterexample :
    tokenEnv.jsonError emptyBodyRequest.RequestBody = some "unexpected end of JSON input" ∧
    ((parseFabricsRequest tokenEnv (sampleFabrics expiredSessions) emptyBodyRequest
      emptyState).1.map fun r => (r.2.1, r.2.2)) =
      some (malformedBody "unexpected end of JSON input",
        some "error while trying to get JSON request body: unexpected end of JSON input") ∧
    (parseFabricsRequest tokenEnv (sampleFabrics expiredSessions) emptyBodyRequest
      emptyState).2.trace =
      [Event.call ⟨"https://10.0.0.1:9091/ODIM/v1/Sessions", "POST", "", "",
        PostBody.login "admin" "secret", none⟩] := by
  refine ⟨by decide, by decide, by decide⟩

/-- C22, amended: for an authorised request for a known fabric of a known plugin, whose
method is neither GET nor DELETE and whose translated body cannot be decoded,
`parseFabricsRequest` returns the 400 MalformedJSON response without any invocation when
the plugin is not token-based or a token is cached; with a token-based plugin and no
cached token the login is sent first, and the 400 response follows when the login gave a
token. -/
theorem parseFabricsRequest_malformed_body (env : Env) (f : Fabrics) (req : FabricRequest)
    (s : State) (fabric : Fabric) (plugin : Plugin) (e : String)
    (hauth : (f.Auth req.SessionToken [PrivilegeConfigureComponents] []).1 = http.StatusOK)
    (hurl : req.URL ≠ "/redfish/v1/Fabrics")
    (hfab : env.GetManagingPluginIDForFabricID (getFabricID req.URL) = .ok fabric)
    (hplug : env.GetPluginData fabric.PluginID = .ok plugin)
    (hget : req.Method ≠ http.MethodGet) (hdelete : req.Method ≠ http.MethodDelete)
    (hjson : env.jsonError (southboundLoop env.SouthBoundURL req.URL req.RequestBody).2
      = some e) :
    (strings.EqualFold plugin.PreferredAuthType "XAuthToken" = false ∨
        getToken s plugin.ID ≠ "" →
      ∃ r, parseFabricsRequest env f req s =
        (some (r, malformedBody e,
          some ("error while trying to get JSON request body: " ++ e)), s)) ∧
    (strings.EqualFold plugin.PreferredAuthType "XAuthToken" = true →
        getToken s plugin.ID = "" →
      (∃ rest, (parseFabricsRequest env f req s).2.trace =
        s.trace ++ Event.call ⟨"https://" ++ plugin.IP ++ ":" ++ plugin.Port ++
          "/ODIM/v1/Sessions", "POST", "", "", PostBody.login plugin.Username plugin.Password,
          none⟩ :: rest) ∧
      ∀ t, (createToken env f plugin s).1 = some t → t ≠ "" →
        ∃ r, parseFabricsRequest env f req s =
          (some (r, malformedBody e,
            some ("error while trying to get JSON request body: " ++ e)),
           (createToken env f plugin s).2)) := by
  have hm : (!(req.Method == http.MethodGet || req.Method == http.MethodDelete)) = true := by
    simp [hget, hdelete]
  refine ⟨?_, ?_⟩
  · intro h
    unfold parseFabricsRequest
    simp only [hauth, bne_self_eq_false, Bool.false_eq_true, if_false, beq_iff_eq, hurl, hfab,
      hplug, hm, if_true, hjson, malformedBody]
    rcases h with h | h
    · simp only [h, Bool.false_eq_true, if_false]
      exact ⟨_, rfl⟩
    · by_cases ht : strings.EqualFold plugin.PreferredAuthType "XAuthToken" = true
      · simp only [ht, if_true, getPluginToken, beq_iff_eq, h, if_false]
        exact ⟨_, rfl⟩
      · simp only [ht, if_false]
        exact ⟨_, rfl⟩
  · intro htoken hcache
    refine ⟨?_, ?_⟩
    · rw [parseFabricsRequest_state_after_login env f req s fabric plugin hauth hurl hfab hplug
        htoken hcache, createToken_trace, ← contactPlugin_trace env (loginRequest f plugin)
        "error while logging in to plugin: " s]
      exact login_first_event env f plugin s
    · intro t ht hne
      unfold parseFabricsRequest
      simp only [hauth, bne_self_eq_false, Bool.false_eq_true, if_false, beq_iff_eq, hurl,
        hfab, hplug, hm, if_true, hjson, malformedBody, htoken, getPluginToken, hcache]
      rcases hc : createToken env f plugin s with ⟨res, s1⟩
      rw [hc] at ht
      simp only at ht
      subst ht
      simp only [hne, if_false]
      exact ⟨_, rfl⟩

/-- C22, amended, at a plugin with basic authentication: no invocation is made. -/
theorem parseFabricsRequest_malformed_body_witness :
    ∃ r, parseFabricsRequest (sampleEnv true) (sampleFabrics expiredSessions) emptyBodyRequest
      emptyState =
      (some (r, malformedBody "unexpected end of JSON input",
        some ("error while trying to get JSON request body: " ++
          "unexpected end of JSON input")), emptyState) :=
  (parseFabricsRequest_malformed_body (sampleEnv true) (sampleFabrics expiredSessions)
    emptyBodyRequest emptyState ⟨"f1", "GRF"⟩
    ⟨"GRF", "10.0.0.1", "9091", "admin", "secret", "BasicAuth"⟩
    "unexpected end of JSON input" (by decide) (by decide)
    (congrArg (fun i => Except.ok (Fabric.mk i "GRF"))
      (by decide : getFabricID emptyBodyRequest.URL = "f1"))
    rfl (by decide) (by decide) (by decide)).1 (Or.inl (by decide))

/-! ## Properties of the subscription query -/

section
open rfphandler

/-- C28: with a client that never answers with both a nil response and a nil error,
`checkCreateSub` sends exactly one message, a result or an error; and when the query is
answered with a status other than 200 and 404, the query is the only call made (no
deletion, no subscription) and the message is a result, the map of the `location` header
of the answer to the query. -/
theorem checkCreateSub_other_status_is_success (env : PluginEnv) (startup : Startup)
    (trace : List DeviceCall)
    (hanswer : ∀ client, env.GetRedfishClient = .ok client →
      ∀ t c, client t c ≠ (none, none)) :
    (∃ m, (checkCreateSub env startup trace).1 = some m) ∧
    ∀ client resp, env.GetRedfishClient = .ok client →
      client trace (DeviceCall.GetSubscriptionDetail (redfishDevice startup)) =
        (some resp, none) →
      resp.StatusCode ≠ http.StatusOK → resp.StatusCode ≠ http.StatusNotFound →
      checkCreateSub env startup trace =
        (some (located startup resp),
          trace ++ [DeviceCall.GetSubscriptionDetail (redfishDevice startup)]) := by
  refine ⟨?_, ?_⟩
  · unfold checkCreateSub
    cases hc : env.GetRedfishClient with
    | error e => exact ⟨_, rfl⟩
    | ok client =>
      have hne := hanswer client hc
      simp only [call]
      rcases h1 : client trace (DeviceCall.GetSubscriptionDetail (redfishDevice startup))
        with ⟨r1, e1⟩
      rcases r1 with _ | resp <;> rcases e1 with _ | e
      · exact absurd h1 (hne _ _)
      · exact ⟨_, rfl⟩
      · simp only []
        split
        · cases resp.Body with
          | error e => exact ⟨_, rfl⟩
          | ok body =>
            simp only []
            cases env.jsonEvtSubPost body with
            | error e => exact ⟨_, rfl⟩
            | ok obj =>
              simp only []
              split
              · rcases h2 : client
                  (trace ++ [DeviceCall.GetSubscriptionDetail (redfishDevice startup)])
                  (DeviceCall.DeleteSubscriptionDetail (redfishDevice startup))
                  with ⟨r2, e2⟩
                rcases r2 with _ | resp2 <;> rcases e2 with _ | e
                · exact absurd h2 (hne _ _)
                · exact ⟨_, rfl⟩
                · simp only []
                  cases env.jsonMarshal (subscriptionRequest env startup.EventTypes) with
                  | error e => exact ⟨_, rfl⟩
                  | ok postBody =>
                    simp only []
                    rcases h3 : client
                      (trace ++ [DeviceCall.GetSubscriptionDetail (redfishDevice startup)]
                        ++ [DeviceCall.DeleteSubscriptionDetail (redfishDevice startup)])
                      (DeviceCall.SubscribeForEvents
                        { redfishDevice startup with PostBody := some postBody })
                      with ⟨r3, e3⟩
                    rcases r3 with _ | resp3 <;> rcases e3 with _ | e
                    · exact absurd h3 (hne _ _)
                    · exact ⟨_, rfl⟩
                    · exact ⟨_, rfl⟩
                    · exact ⟨_, rfl⟩
                · exact ⟨_, rfl⟩
              · exact ⟨_, rfl⟩
        · split
          · cases env.jsonMarshal (subscriptionRequest env (some ["Alert"])) with
            | error e => exact ⟨_, rfl⟩
            | ok postBody =>
              simp only []
              rcases h2 : client
                (trace ++ [DeviceCall.GetSubscriptionDetail (redfishDevice startup)])
                (DeviceCall.SubscribeForEvents
                  { redfishDevice startup with PostBody := some postBody })
                with ⟨r2, e2⟩
              rcases r2 with _ | resp2 <;> rcases e2 with _ | e
              · exact absurd h2 (hne _ _)
              · exact ⟨_, rfl⟩
              · exact ⟨_, rfl⟩
              · exact ⟨_, rfl⟩
          · exact ⟨_, rfl⟩
      · exact ⟨_, rfl⟩
  · intro client resp hclient hquery h200 h404
    unfold checkCreateSub
    simp only [hclient, call, hquery, beq_iff_eq, h200, h404, if_false]

/-- C28 at a device that answers the query with 500. -/
theorem checkCreateSub_other_status_is_success_witness :
    checkCreateSub (samplePluginEnv failingDevice) (sampleStartup (some ["Alert"])) [] =
      (some (Message.result [("10.0.0.9", "/redfish/v1/EventService/Subscriptions/7")]),
        [DeviceCall.GetSubscriptionDetail (redfishDevice (sampleStartup (some ["Alert"])))]) :=
  (checkCreateSub_other_status_is_success (samplePluginEnv failingDevice)
    (sampleStartup (some ["Alert"])) []
    (fun client h t c => by
      have e : client = failingDevice := by
        have h2 : Except.ok failingDevice = Except.ok client := h
        injection h2 with h3
        exact h3.symm
      rw [e]
      simp [failingDevice])).2 failingDevice
    ⟨500, [("Location", "/redfish/v1/EventService/Subscriptions/7")], .ok ""⟩ rfl rfl
    (by decide) (by decide)

end

/-! ## Properties of the manager resources -/

/-- C29 fails: a stored manager record that is a JSON object without the field "Name"
(or with a "Name" that is not a string) makes the type assertion of
`getPluginManagerResoure` panic, and with it `GetManagersResource` for a manager id
without a colon; a "ManagerType" that is not a string makes the assertion of `GetManagers`
panic; and a request URL without a slash makes `urlData[len(urlData)-2]` an index out of
range. -/
theorem manager_handlers_abort_on_valid_record :
    namelessDeps.jsonObject "{}" = .ok [] ∧
    (managers.getPluginManagerResoure (sampleEnv true) namelessDeps ⟨notFound⟩ "GRF"
      "/redfish/v1/Managers/GRF" emptyState).1 = none ∧
    (managers.GetManagersResource (sampleEnv true) namelessDeps sampleResourceDeps ⟨notFound⟩
      ⟨"token", "GRF", "/redfish/v1/Managers/GRF/EthernetInterfaces", ""⟩ emptyState).1
      = none ∧
    (∀ text, managers.assertString
      (managers.index [("Name", managers.JSONValue.other text)] "Name") = none) ∧
    (∀ text, managers.managerType [("ManagerType", managers.JSONValue.other text)] = none) ∧
    (managers.GetManagersResource (sampleEnv true) sampleDeps sampleResourceDeps ⟨notFound⟩
      ⟨"token", "uuid:1", "EthernetInterfaces", "1"⟩ emptyState).1 = none := by
  refine ⟨rfl, by decide, by decide, fun _ => rfl, fun _ => rfl, by decide⟩

/-! ## Properties of the account update -/

section
open account

/-- The role of a request passes the check of `Update` when it is empty, one of the three
predefined roles, or a role that the lookup finds. -/
theorem invalidRole_eq_false_iff (deps : Deps) (roleID : String) :
    invalidRole deps roleID = false ↔
      (roleID = "" ∨ roleID = deps.RoleAdmin ∨ roleID = deps.RoleMonitor ∨
        roleID = deps.RoleClient ∨ deps.GetRoleDetailsByID roleID = none) := by
  unfold invalidRole
  by_cases h0 : roleID = ""
  · simp [h0]
  · by_cases h1 : roleID = deps.RoleAdmin
    · simp [h0, ← h1]
    · by_cases h2 : roleID = deps.RoleMonitor
      · simp [h0, h1, ← h2]
      · by_cases h3 : roleID = deps.RoleClient
        · simp [h0, h1, h2, ← h3]
        · simp [h0, h1, h2, h3]

/-- A request with a role, under a session without `ConfigureUsers`, is rejected before
the write; the response is 400, 403, 404 or the internal error response. -/
theorem Update_role_rejected (deps : Deps) (req : UpdateAccountRequest) (session : Session)
    (hrole : req.RoleId ≠ "")
    (hpriv : privilege session PrivilegeConfigureUsers = false) :
    (Update deps req session).2 = [] ∧
    ((Update deps req session).1.StatusCode = http.StatusBadRequest ∨
      (Update deps req session).1.StatusCode = http.StatusForbidden ∨
      (Update deps req session).1.StatusCode = http.StatusNotFound ∨
      ∃ m, (Update deps req session).1.StatusCode =
        (deps.CreateInternalErrorResponse m).StatusCode) := by
  unfold Update
  simp only [bne_iff_ne, ne_eq, ite_not, hpriv, Bool.not_false, Bool.and_true, hrole,
    not_false_eq_true, decide_True, decide_not, Bool.and_eq_true, Bool.not_eq_true',
    decide_eq_false_iff_not, decide_eq_true_eq]
  by_cases hu : req.UserName = ""
  · simp only [hu, if_true]
    by_cases hr : invalidRole deps req.RoleId = true
    · simp [hr, errorResponse]
    · simp only [hr, Bool.false_eq_true, if_false]
      cases hg : deps.GetUserDetails req.AccountID with
      | error gerr =>
        simp only []
        by_cases hk : (gerr.ErrNo == errors.ErrType.DBKeyNotFound) = true
        · simp [hk, errorResponse]
        · simp only [hk, if_false]
          exact ⟨rfl, Or.inr (Or.inr (Or.inr ⟨_, rfl⟩))⟩
      | ok user =>
        simp only []
        by_cases hn : user.UserName = session.UserName
        · simp [hn, errorResponse]
        · simp [hn, errorResponse]
  · simp [hu]

/-- C23: a request with a non-empty role, under a session without `ConfigureUsers`, is
never answered 200 and never writes the account (the internal error response being a
500); when the request names no user, the role is known and the account exists, the
answer is 403 InsufficientPrivilege. This holds for the own account of the session as for
any other. -/
theorem Update_role_needs_ConfigureUsers (deps : Deps) (req : UpdateAccountRequest)
    (session : Session)
    (hinternal : ∀ m,
      (deps.CreateInternalErrorResponse m).StatusCode = http.StatusInternalServerError)
    (hrole : req.RoleId ≠ "")
    (hpriv : privilege session PrivilegeConfigureUsers = false) :
    (Update deps req session).1.StatusCode ≠ http.StatusOK ∧
    (Update deps req session).2 = [] ∧
    (req.UserName = "" →
      (req.RoleId = deps.RoleAdmin ∨ req.RoleId = deps.RoleMonitor ∨
        req.RoleId = deps.RoleClient ∨ deps.GetRoleDetailsByID req.RoleId = none) →
      ∀ user, deps.GetUserDetails req.AccountID = .ok user →
        (Update deps req session).1.StatusCode = http.StatusForbidden ∧
        (Update deps req session).1.StatusMessage = response.InsufficientPrivilege) := by
  have h := Update_role_rejected deps req session hrole hpriv
  refine ⟨?_, h.1, ?_⟩
  · rcases h.2 with h1 | h1 | h1 | ⟨m, h1⟩
    · rw [h1]; decide
    · rw [h1]; decide
    · rw [h1]; decide
    · rw [h1, hinternal]; decide
  · intro hu hknown user hg
    have hr : invalidRole deps req.RoleId = false :=
      (invalidRole_eq_false_iff deps req.RoleId).2 (Or.inr hknown)
    unfold Update
    simp only [bne_iff_ne, ne_eq, hu, not_true_eq_false, if_false, hr, Bool.false_eq_true, hg,
      hpriv, Bool.not_false, Bool.and_true, hrole, not_false_eq_true, decide_True,
      decide_not, Bool.not_eq_true', decide_eq_false_iff_not]
    by_cases hn : user.UserName = session.UserName
    · simp [hn, errorResponse]
    · simp [hn, errorResponse]

/-- C23 at the own account of a session that holds `ConfigureSelf` only. -/
theorem Update_role_needs_ConfigureUsers_witness :
    Update sampleAccountDeps ⟨"operator", "", "", "Administrator"⟩ operatorSession =
      (errorResponse http.StatusForbidden response.InsufficientPrivilege
        "error: user does not have the privilege to update any account role, including his own account"
        [], []) ∧
    (Update sampleAccountDeps ⟨"operator", "", "", "Administrator"⟩
      operatorSession).1.StatusCode ≠ http.StatusOK :=
  ⟨by decide,
    (Update_role_needs_ConfigureUsers sampleAccountDeps ⟨"operator", "", "", "Administrator"⟩
      operatorSession (fun _ => rfl) (by decide) (by decide)).1⟩

/-- The responses with which `checkPassword` rejects a password are 403 and 400. -/
theorem checkPassword_error (deps : Deps) (session : Session) (user requestUser : User)
    (resp : account.RPC) (h : checkPassword deps session user requestUser = .error resp) :
    resp.StatusCode = http.StatusForbidden ∨ resp.StatusCode = http.StatusBadRequest := by
  unfold checkPassword at h
  split at h
  · split at h
    · injection h with h
      rw [← h]
      exact Or.inl rfl
    · split at h
      · injection h with h
        rw [← h]
        exact Or.inr rfl
      · exact absurd h (by simp)
  · exact absurd h (by simp)

/-- What `checkPassword` lets through: a request without password as it is, and a request
with a password that the session may change and that is valid, with the digest of the
password. -/
theorem checkPassword_ok (deps : Deps) (session : Session) (user requestUser ru : User)
    (h : checkPassword deps session user requestUser = .ok ru) :
    (requestUser.Password = "" ∧ ru = requestUser) ∨
    (requestUser.Password ≠ "" ∧
      (privilege session PrivilegeConfigureSelf = true ∨
        privilege session PrivilegeConfigureUsers = true) ∧
      deps.validatePassword user.UserName requestUser.Password = none ∧
      ru = { requestUser with Password := deps.hashPassword requestUser.Password }) := by
  unfold checkPassword at h
  by_cases hp : requestUser.Password = ""
  · simp only [hp, bne_self_eq_false, Bool.false_eq_true, if_false] at h
    injection h with h
    exact Or.inl ⟨hp, h.symm⟩
  · right
    have hp2 : (requestUser.Password != "") = true := by simp [hp]
    simp only [hp2, if_true] at h
    split at h
    · exact absurd h (by simp)
    · rename_i hpriv
      split at h
      · exact absurd h (by simp)
      · rename_i hvalid
        injection h with h
        refine ⟨hp, ?_, hvalid, h.symm⟩
        cases hs : privilege session PrivilegeConfigureSelf
        · cases hu : privilege session PrivilegeConfigureUsers
          · simp [hs, hu] at hpriv
          · exact Or.inr rfl
        · exact Or.inl rfl

/-- Either `Update` makes no call of `UpdateUserDetails` and answers 400, 403, 404 or with
the internal error response, or it makes exactly one call, after every check has passed,
and answers 200 or with the internal error response. -/
theorem Update_cases (deps : Deps) (req : UpdateAccountRequest) (session : Session) :
    ((Update deps req session).2 = [] ∧
      ((Update deps req session).1.StatusCode = http.StatusBadRequest ∨
        (Update deps req session).1.StatusCode = http.StatusForbidden ∨
        (Update deps req session).1.StatusCode = http.StatusNotFound ∨
        ∃ m, (Update deps req session).1.StatusCode =
          (deps.CreateInternalErrorResponse m).StatusCode)) ∨
    (∃ user ru, (Update deps req session).2 = [(user, ru)] ∧
      req.UserName = "" ∧ invalidRole deps req.RoleId = false ∧
      deps.GetUserDetails req.AccountID = .ok user ∧
      (user.UserName = session.UserName ∨
        privilege session PrivilegeConfigureUsers = true) ∧
      (req.RoleId = "" ∨ privilege session PrivilegeConfigureUsers = true) ∧
      checkPassword deps session user ⟨req.UserName, req.Password, req.RoleId, ["Redfish"]⟩
        = .ok ru ∧
      ((Update deps req session).1 = accountModified req user ∨
        ∃ m, (Update deps req session).1.StatusCode =
          (deps.CreateInternalErrorResponse m).StatusCode)) := by
  unfold Update
  simp only [bne_iff_ne, ne_eq, ite_not, Bool.and_eq_true, Bool.not_eq_true',
    decide_eq_true_eq, decide_not, decide_eq_false_iff_not]
  by_cases hu : req.UserName = ""
  · simp only [hu, if_true]
    by_cases hr : invalidRole deps req.RoleId = true
    · simp [hr, errorResponse]
    · simp only [hr, Bool.false_eq_true, if_false]
      cases hg : deps.GetUserDetails req.AccountID with
      | error gerr =>
        simp only []
        by_cases hk : (gerr.ErrNo == errors.ErrType.DBKeyNotFound) = true
        · simp [hk, errorResponse]
        · simp only [hk, if_false]
          exact Or.inl ⟨rfl, Or.inr (Or.inr (Or.inr ⟨_, rfl⟩))⟩
      | ok user =>
        simp only []
        by_cases h1 : ¬ user.UserName = session.UserName ∧
            privilege session PrivilegeConfigureUsers = false
        · simp [h1, errorResponse]
        · simp only [h1, if_false]
          by_cases h2 : ¬ req.RoleId = "" ∧ privilege session PrivilegeConfigureUsers = false
          · simp [h2, errorResponse]
          · simp only [h2, if_false]
            have h1b : user.UserName = session.UserName ∨
                privilege session PrivilegeConfigureUsers = true := by
              by_cases hh : user.UserName = session.UserName
              · exact Or.inl hh
              · right
                cases hc : privilege session PrivilegeConfigureUsers
                · exact absurd ⟨hh, hc⟩ h1
                · rfl
            have h2b : req.RoleId = "" ∨
                privilege session PrivilegeConfigureUsers = true := by
              by_cases hh : req.RoleId = ""
              · exact Or.inl hh
              · right
                cases hc : privilege session PrivilegeConfigureUsers
                · exact absurd ⟨hh, hc⟩ h2
                · rfl
            have hrf : invalidRole deps req.RoleId = false := by
              cases hc : invalidRole deps req.RoleId
              · rfl
              · exact absurd hc hr
            cases hp : checkPassword deps session user
                ⟨"", req.Password, req.RoleId, ["Redfish"]⟩ with
            | error resp =>
              simp only []
              left
              refine ⟨by trivial, ?_⟩
              rcases checkPassword_error deps session user _ resp hp with h | h
              · exact Or.inr (Or.inl h)
              · exact Or.inl h
            | ok ru =>
              simp only []
              right
              cases hw : deps.UpdateUserDetails user ru with
              | some uerr =>
                exact ⟨user, ru, by trivial, by trivial, by trivial, by trivial, h1b, h2b, by trivial,
                  Or.inr ⟨_, rfl⟩⟩
              | none =>
                exact ⟨user, ru, by trivial, by trivial, by trivial, by trivial, h1b, h2b, by trivial,
                  Or.inl rfl⟩
  · simp [hu]

/-- C24: a request with a non-empty password, under a session with neither `ConfigureSelf`
nor `ConfigureUsers`, is never answered 200 and never writes the account (the internal
error response being a 500); and under a session without `ConfigureUsers` every write of
such a request is to the account whose user name is that of the session, and writes the
digest of the password and nothing else. -/
theorem Update_password_needs_privilege (deps : Deps) (req : UpdateAccountRequest)
    (session : Session)
    (hinternal : ∀ m,
      (deps.CreateInternalErrorResponse m).StatusCode = http.StatusInternalServerError)
    (hpassword : req.Password ≠ "") :
    (privilege session PrivilegeConfigureSelf = false →
      privilege session PrivilegeConfigureUsers = false →
      (Update deps req session).1.StatusCode ≠ http.StatusOK ∧
      (Update deps req session).2 = []) ∧
    (privilege session PrivilegeConfigureUsers = false →
      ∀ w ∈ (Update deps req session).2,
        w.1.UserName = session.UserName ∧
        deps.GetUserDetails req.AccountID = .ok w.1 ∧
        w.2 = ⟨"", deps.hashPassword req.Password, "", ["Redfish"]⟩) := by
  refine ⟨?_, ?_⟩
  · intro hs hu
    rcases Update_cases deps req session with ⟨hw, hst⟩ | ⟨user, ru, _, _, _, _, _, _, hp, _⟩
    · refine ⟨?_, hw⟩
      rcases hst with h1 | h1 | h1 | ⟨m, h1⟩
      · rw [h1]; decide
      · rw [h1]; decide
      · rw [h1]; decide
      · rw [h1, hinternal]; decide
    · rcases checkPassword_ok deps session user _ ru hp with ⟨h, _⟩ | ⟨_, h, _⟩
      · exact absurd h hpassword
      · rcases h with h | h
        · rw [hs] at h; exact absurd h (by decide)
        · rw [hu] at h; exact absurd h (by decide)
  · intro hu w hw
    rcases Update_cases deps req session with ⟨hnil, _⟩ |
      ⟨user, ru, hwrites, hname, _, hget, hown, hrole, hp, _⟩
    · rw [hnil] at hw
      exact absurd hw (List.not_mem_nil _)
    · rw [hwrites, List.mem_singleton] at hw
      subst hw
      have hown2 : user.UserName = session.UserName := by
        rcases hown with h | h
        · exact h
        · rw [hu] at h; exact absurd h (by decide)
      have hrole2 : req.RoleId = "" := by
        rcases hrole with h | h
        · exact h
        · rw [hu] at h; exact absurd h (by decide)
      refine ⟨hown2, hget, ?_⟩
      rcases checkPassword_ok deps session user _ ru hp with ⟨h, _⟩ | ⟨_, _, _, h⟩
      · exact absurd h hpassword
      · rw [h, hname, hrole2]

/-- C24 at a session that holds `Login` only, and at the own account of a session that
holds `ConfigureSelf`. -/
theorem Update_password_needs_privilege_witness :
    ((Update sampleAccountDeps ⟨"operator", "", "newsecret", ""⟩ loginOnlySession).1.StatusCode
        ≠ http.StatusOK ∧
      (Update sampleAccountDeps ⟨"operator", "", "newsecret", ""⟩ loginOnlySession).2 = []) ∧
    (Update sampleAccountDeps ⟨"operator", "", "newsecret", ""⟩ operatorSession).2 =
      [(⟨"operator", "sha3(opsecret)", "Operator", ["Redfish"]⟩,
        ⟨"", "sha3(newsecret)", "", ["Redfish"]⟩)] ∧
    (Update sampleAccountDeps ⟨"admin", "", "newsecret", ""⟩ operatorSession).2 = [] :=
  ⟨(Update_password_needs_privilege sampleAccountDeps ⟨"operator", "", "newsecret", ""⟩
      loginOnlySession (fun _ => rfl) (by decide)).1 (by decide) (by decide),
    by decide, by decide⟩

/-- C26: when `Update` answers 400, 403 or 404 it has made no call of `UpdateUserDetails`
(the internal error response being a 500); it makes at most one call; and a call is made
only after every check has passed: no user name in the request, a role that is empty,
predefined or found, an existing account, which is the own account of the session unless
the session holds `ConfigureUsers`, no role in the request unless the session holds
`ConfigureUsers`, and no password in the request unless the session holds `ConfigureSelf`
or `ConfigureUsers` and the password is valid. -/
theorem Update_writes_only_after_all_checks (deps : Deps) (req : UpdateAccountRequest)
    (session : Session)
    (hinternal : ∀ m,
      (deps.CreateInternalErrorResponse m).StatusCode = http.StatusInternalServerError) :
    ((Update deps req session).1.StatusCode = http.StatusBadRequest ∨
      (Update deps req session).1.StatusCode = http.StatusForbidden ∨
      (Update deps req session).1.StatusCode = http.StatusNotFound →
      (Update deps req session).2 = []) ∧
    (Update deps req session).2.length ≤ 1 ∧
    (∀ w ∈ (Update deps req session).2,
      req.UserName = "" ∧
      (req.RoleId = "" ∨ req.RoleId = deps.RoleAdmin ∨ req.RoleId = deps.RoleMonitor ∨
        req.RoleId = deps.RoleClient ∨ deps.GetRoleDetailsByID req.RoleId = none) ∧
      deps.GetUserDetails req.AccountID = .ok w.1 ∧
      (w.1.UserName = session.UserName ∨
        privilege session PrivilegeConfigureUsers = true) ∧
      (req.RoleId = "" ∨ privilege session PrivilegeConfigureUsers = true) ∧
      (req.Password = "" ∨
        ((privilege session PrivilegeConfigureSelf = true ∨
          privilege session PrivilegeConfigureUsers = true) ∧
        deps.validatePassword w.1.UserName req.Password = none))) := by
  rcases Update_cases deps req session with ⟨hnil, _⟩ |
    ⟨user, ru, hwrites, hname, hvalid, hget, hown, hrole, hp, hresp⟩
  · refine ⟨fun _ => hnil, by simp [hnil], ?_⟩
    intro w hw
    rw [hnil] at hw
    exact absurd hw (List.not_mem_nil _)
  · refine ⟨?_, by simp [hwrites], ?_⟩
    · intro hst
      exfalso
      rcases hresp with h | ⟨m, h⟩
      · rw [h] at hst
        revert hst
        simp only [accountModified]
        decide
      · rw [h, hinternal] at hst
        revert hst
        decide
    · intro w hw
      rw [hwrites, List.mem_singleton] at hw
      subst hw
      refine ⟨hname, (invalidRole_eq_false_iff deps req.RoleId).1 hvalid, hget, hown, hrole, ?_⟩
      rcases checkPassword_ok deps session user _ ru hp with ⟨h, _⟩ | ⟨_, h1, h2, _⟩
      · exact Or.inl h
      · exact Or.inr ⟨h1, h2⟩

/-- C26 at a request with a password that is too short: it is answered 400 and nothing is
written. -/
theorem Update_writes_only_after_all_checks_witness :
    (Update sampleAccountDeps ⟨"operator", "", "short", ""⟩ operatorSession).1.StatusCode
      = http.StatusBadRequest ∧
    (Update sampleAccountDeps ⟨"operator", "", "short", ""⟩ operatorSession).2 = [] :=
  ⟨by decide,
    (Update_writes_only_after_all_checks sampleAccountDeps ⟨"operator", "", "short", ""⟩
      operatorSession (fun _ => rfl)).1 (Or.inl (by decide))⟩

end

/-! ## Properties of the handlers of the plugin -/

section
open rfphandler

/-- The loop over the queue names appends one entry per name, in order. -/
theorem messageQueueInfo_loop (queues : List String) :
    ∀ info : Option (List EmbQueue),
      (queues.foldl
        (fun info name => some (info.getD [] ++ [⟨name, "Queue for redfish events"⟩]))
        info).getD [] =
      info.getD [] ++ queues.map fun name => ⟨name, "Queue for redfish events"⟩ := by
  induction queues with
  | nil => intro info; simp
  | cons q rest ih =>
    intro info
    rw [List.foldl_cons, ih]
    simp

/-- A transition changes the state as follows: a receive removes a pending message,
counts down, and either ends the collector with one write or leaves collector, handler and
writes as they are; the return of the wait needs a counter of zero; the receive on `quit`
needs the collector in its `select`. -/
theorem step_spec (a : Action) (r r1 : Run) (h : step a r = some r1) :
    (∃ i m, a = Action.receive i ∧ r.pending.get? i = some m ∧
      r.collector = Collector.selecting ∧ r1.pending = r.pending.eraseIdx i ∧
      r1.counter = r.counter - 1 ∧ r1.handler = r.handler ∧
      ((∃ text, m = Message.error text ∧ r1.collector = Collector.returned ∧
          r1.written = r.written ++ [Written.error text]) ∨
        (r1.collector = Collector.selecting ∧ r1.written = r.written))) ∨
    (a = Action.waitReturns ∧ r.handler = Handler.waiting ∧ r.counter = 0 ∧
      r1.pending = r.pending ∧ r1.counter = r.counter ∧ r1.collector = r.collector ∧
      r1.handler = Handler.sendingQuit ∧ r1.written = r.written) ∨
    (a = Action.quit ∧ r.handler = Handler.sendingQuit ∧ r.collector = Collector.selecting ∧
      r1.pending = r.pending ∧ r1.counter = r.counter ∧ r1.collector = Collector.selecting ∧
      r1.handler = Handler.returned ∧ r1.written = r.written ++ [Written.respBody]) := by
  cases a with
  | receive i =>
    left
    unfold step at h
    simp only [] at h
    by_cases hc : r.collector = Collector.selecting
    · rw [if_pos hc] at h
      cases hm : r.pending.get? i with
      | none =>
        rw [hm] at h
        exact absurd h (by simp)
      | some m =>
        rw [hm] at h
        cases m with
        | error text =>
          injection h with h
          subst h
          exact ⟨i, _, rfl, hm, hc, rfl, rfl, rfl, Or.inl ⟨text, rfl, rfl, rfl⟩⟩
        | result startResp =>
          injection h with h
          subst h
          exact ⟨i, _, rfl, hm, hc, rfl, rfl, rfl, Or.inr ⟨hc, rfl⟩⟩
    · rw [if_neg hc] at h
      exact absurd h (by simp)
  | waitReturns =>
    right; left
    unfold step at h
    simp only [] at h
    by_cases hc : r.handler = Handler.waiting ∧ r.counter = 0
    · rw [if_pos hc] at h
      injection h with h
      subst h
      exact ⟨rfl, hc.1, hc.2, rfl, rfl, rfl, rfl, rfl⟩
    · rw [if_neg hc] at h
      exact absurd h (by simp)
  | quit =>
    right; right
    unfold step at h
    simp only [] at h
    by_cases hc : r.handler = Handler.sendingQuit ∧ r.collector = Collector.selecting
    · rw [if_pos hc] at h
      injection h with h
      subst h
      exact ⟨rfl, hc.1, hc.2, rfl, rfl, hc.2, rfl, rfl⟩
    · rw [if_neg hc] at h
      exact absurd h (by simp)

theorem Reached_start (messages : List Message) : Reached messages (start messages) := by
  refine ⟨rfl, fun m h => h, fun h => absurd rfl h, fun h => ?_, fun h => ?_, fun _ _ => rfl⟩
  · exact absurd h (by simp [start])
  · exact absurd h (by simp [start])

theorem Reached_step (messages : List Message) (a : Action) (r r1 : Run)
    (hr : Reached messages r) (h : step a r = some r1) : Reached messages r1 := by
  obtain ⟨h1, h2, h3, h4, h5, h6⟩ := hr
  rcases step_spec a r r1 h with
    ⟨i, m, _, hget, hcol, hpend, hcount, hhand, hrest⟩ |
    ⟨_, hhand, hzero, hpend, hcount, hcol, hhand1, hwr⟩ |
    ⟨_, hhand, hcol, hpend, hcount, hcol1, hhand1, hwr⟩
  · have hlt : i < r.pending.length := by
      rcases List.get?_eq_some.1 hget with ⟨hi, _⟩
      exact hi
    have hmem : m ∈ r.pending := List.get?_mem hget
    have hwait : r.handler = Handler.waiting := by
      by_contra hne
      have := h3 hne
      rw [this] at hlt
      exact absurd hlt (by simp)
    refine ⟨?_, ?_, ?_, ?_, ?_, ?_⟩
    · rw [hcount, hpend, h1, List.length_eraseIdx]
      simp only [hlt, if_true]
      omega
    · intro m1 hm1
      rw [hpend] at hm1
      exact h2 m1 (List.mem_of_mem_eraseIdx hm1)
    · intro hne
      rw [hhand, hwait] at hne
      exact absurd rfl hne
    · intro hret
      rw [hhand, hwait] at hret
      exact absurd hret (by decide)
    · intro hret
      rcases hrest with ⟨text, hm, _, hw⟩ | ⟨hsel, _⟩
      · refine ⟨text, h2 _ (hm ▸ hmem), ?_⟩
        rw [hw, h6 hcol (by rw [hwait]; decide)]
        rfl
      · rw [hsel] at hret
        exact absurd hret (by decide)
    · intro hsel _
      rcases hrest with ⟨text, _, hret, _⟩ | ⟨_, hw⟩
      · rw [hret] at hsel
        exact absurd hsel (by decide)
      · rw [hw]
        exact h6 hcol (by rw [hwait]; decide)
  · have hnil : r.pending = [] := by
      have : (r.pending.length : Int) = 0 := by rw [← h1]; exact hzero
      exact List.length_eq_zero.1 (by exact_mod_cast this)
    refine ⟨?_, ?_, ?_, ?_, ?_, ?_⟩
    · rw [hcount, hpend]; exact h1
    · rw [hpend]; exact h2
    · intro _; rw [hpend]; exact hnil
    · intro hret
      rw [hhand1] at hret
      exact absurd hret (by decide)
    · intro hret
      rw [hcol] at hret
      rw [hwr]
      exact h5 hret
    · intro hsel _
      rw [hcol] at hsel
      rw [hwr]
      exact h6 hsel (by rw [hhand]; decide)
  · refine ⟨?_, ?_, ?_, ?_, ?_, ?_⟩
    · rw [hcount, hpend]; exact h1
    · rw [hpend]; exact h2
    · intro _; rw [hpend]; exact h3 (by rw [hhand]; decide)
    · intro _
      refine ⟨hcol1, ?_⟩
      rw [hwr, h6 hcol (by rw [hhand]; decide)]
      rfl
    · intro hret
      rw [hcol1] at hret
      exact absurd hret (by decide)
    · intro _ hne
      exact absurd hhand1 hne

theorem Reached_run (messages : List Message) (actions : List Action) :
    ∀ r r1, Reached messages r → run actions r = some r1 → Reached messages r1 := by
  induction actions with
  | nil =>
    intro r r1 hr h
    simp only [run, Option.some.injEq] at h
    exact h ▸ hr
  | cons a rest ih =>
    intro r r1 hr h
    simp only [run] at h
    cases hs : step a r with
    | none => simp [hs] at h
    | some r2 =>
      rw [hs] at h
      exact ih r2 r1 (Reached_step messages a r r2 hr hs) h

/-- A transition that is enabled is in the list `enabled`. -/
theorem mem_enabled_of_step (a : Action) (r r1 : Run) (h : step a r = some r1) :
    a ∈ enabled r := by
  unfold enabled
  rw [List.mem_filter]
  refine ⟨?_, by simp [h]⟩
  rcases step_spec a r r1 h with ⟨i, m, ha, hget, _⟩ | ⟨ha, _⟩ | ⟨ha, _⟩
  · rcases List.get?_eq_some.1 hget with ⟨hi, _⟩
    rw [ha]
    simp only [List.mem_append, List.mem_map, List.mem_range]
    exact Or.inl ⟨i, hi, rfl⟩
  · rw [ha]; simp
  · rw [ha]; simp

/-- C21 fails. In every state that the goroutines of `GetPluginStartup` reach: once the
collector has received an error it has written that error with status 500, it has
returned, and the handler has not returned and never does, for no transition is enabled
once the handler is in `quit <- true` or as long as a worker is pending; and once the
handler has returned, the collector is in its `select` with no transition enabled. -/
theorem GetPluginStartup_goroutines_stay_blocked (messages : List Message)
    (actions : List Action) (r : Run) (h : run actions (start messages) = some r) :
    (r.collector = Collector.returned →
      (∃ text, Message.error text ∈ messages ∧ r.written = [Written.error text]) ∧
      r.handler ≠ Handler.returned ∧
      (r.pending ≠ [] ∨ r.handler = Handler.sendingQuit → ∀ a, step a r = none)) ∧
    (r.handler = Handler.returned →
      r.collector = Collector.selecting ∧ ∀ a, step a r = none) := by
  obtain ⟨h1, h2, h3, h4, h5, h6⟩ := Reached_run messages actions _ r (Reached_start messages) h
  refine ⟨fun hret => ⟨h5 hret, ?_, ?_⟩, fun hret => ⟨(h4 hret).1, ?_⟩⟩
  · intro hh
    rw [(h4 hh).1] at hret
    exact absurd hret (by decide)
  · intro hblocked a
    cases hs : step a r with
    | none => rfl
    | some r1 =>
      exfalso
      rcases step_spec a r r1 hs with ⟨_, _, _, _, hcol, _⟩ | ⟨_, hhand, hzero, _⟩ |
        ⟨_, _, hcol, _⟩
      · rw [hret] at hcol
        exact absurd hcol (by decide)
      · rcases hblocked with hp | hq
        · apply hp
          have : (r.pending.length : Int) = 0 := by rw [← h1]; exact hzero
          exact List.length_eq_zero.1 (by exact_mod_cast this)
        · rw [hhand] at hq
          exact absurd hq (by decide)
      · rw [hret] at hcol
        exact absurd hcol (by decide)
  · intro a
    cases hs : step a r with
    | none => rfl
    | some r1 =>
      exfalso
      rcases step_spec a r r1 hs with ⟨i, m, _, hget, _⟩ | ⟨_, hhand, _⟩ | ⟨_, hhand, _⟩
      · have hnil := h3 (by rw [hret]; decide)
        rw [hnil] at hget
        simp at hget
      · rw [hret] at hhand
        exact absurd hhand (by decide)
      · rw [hret] at hhand
        exact absurd hhand (by decide)

/-- C21 at a request with one device whose reconciliation fails: the collector writes the
error and returns, the wait returns, and the handler stays in `quit <- true`. -/
theorem GetPluginStartup_goroutines_stay_blocked_witness :
    blockedHandler.written = [Written.error "connection refused"] ∧
    blockedHandler.handler ≠ Handler.returned ∧
    enabled blockedHandler = [] ∧
    ∀ a, step a blockedHandler = none :=
  have h := (GetPluginStartup_goroutines_stay_blocked [Message.error "connection refused"]
    [Action.receive 0, Action.waitReturns] blockedHandler rfl).1 rfl
  ⟨rfl, h.2.1, by decide, h.2.2 (Or.inr rfl)⟩

/-- C30: `GetPluginStatus` and `GetPluginStartup` answer 401 exactly when the request has
a non-empty `X-Auth-Token` that `TokenValidation` rejects, and no later write of
`GetPluginStartup` has status 401; for a request with an empty token neither handler
depends on `TokenValidation`, and `GetPluginStatus` answers 200 with one queue entry per
configured queue name, in the order of the configuration. -/
theorem plugin_handlers_answer_401_iff_token_rejected (TokenValidation : String → Bool)
    (conf : StatusConf) (ReadJSON : String → Except String (List Startup))
    (worker : Startup → Message) (req : Request) :
    ((GetPluginStatus TokenValidation conf req).StatusCode = http.StatusUnauthorized ↔
      req.Header.Get "X-Auth-Token" ≠ "" ∧
        TokenValidation (req.Header.Get "X-Auth-Token") = false) ∧
    ((∃ reply, GetPluginStartup TokenValidation ReadJSON worker req = .error reply ∧
        reply.StatusCode = http.StatusUnauthorized) ↔
      req.Header.Get "X-Auth-Token" ≠ "" ∧
        TokenValidation (req.Header.Get "X-Auth-Token") = false) ∧
    (∀ started actions r, GetPluginStartup TokenValidation ReadJSON worker req = .ok started →
      run actions started = some r → ∀ w ∈ r.written, w.StatusCode ≠ http.StatusUnauthorized) ∧
    (req.Header.Get "X-Auth-Token" = "" →
      (∀ validation : String → Bool,
        GetPluginStatus validation conf req = GetPluginStatus TokenValidation conf req ∧
        GetPluginStartup validation ReadJSON worker req =
          GetPluginStartup TokenValidation ReadJSON worker req) ∧
      ∃ resp, GetPluginStatus TokenValidation conf req = Reply.status http.StatusOK resp ∧
        resp.EventMessageBus.EmbQueue.getD [] =
          conf.EmbQueue.map fun name => ⟨name, "Queue for redfish events"⟩) := by
  have hkey : http.CanonicalMIMEHeaderKey "X-Auth-Token" = "X-Auth-Token" := by decide
  refine ⟨?_, ?_, ?_, ?_⟩
  · unfold GetPluginStatus
    rw [hkey]
    by_cases ht : req.Header.Get "X-Auth-Token" = ""
    · simp [ht, Reply.StatusCode, http.StatusOK, http.StatusUnauthorized]
    · cases hv : TokenValidation (req.Header.Get "X-Auth-Token")
      · simp [ht, hv, Reply.StatusCode]
      · simp [ht, hv, Reply.StatusCode, http.StatusOK, http.StatusUnauthorized]
  · constructor
    · rintro ⟨reply, h, hcode⟩
      unfold GetPluginStartup at h
      rw [hkey] at h
      by_cases hrej : (req.Header.Get "X-Auth-Token" != "" &&
          !TokenValidation (req.Header.Get "X-Auth-Token")) = true
      · simpa using hrej
      · exfalso
        simp only [hrej, if_false] at h
        cases hj : ReadJSON req.Body with
        | error e =>
          rw [hj] at h
          injection h with h
          rw [← h] at hcode
          exact absurd hcode (by decide)
        | ok startup =>
          rw [hj] at h
          exact absurd h (by simp)
    · rintro ⟨hne, hv⟩
      refine ⟨Reply.text http.StatusUnauthorized "Invalid/Expired X-Auth-Token", ?_, rfl⟩
      unfold GetPluginStartup
      rw [hkey]
      simp [hne, hv]
  · intro started actions r hstart hrun w hw
    have hs : ∃ startup : List Startup, started = start (startup.map worker) := by
      unfold GetPluginStartup at hstart
      simp only [] at hstart
      split at hstart
      · exact absurd hstart (by simp)
      · cases hj : ReadJSON req.Body with
        | error e =>
          rw [hj] at hstart
          exact absurd hstart (by simp)
        | ok startup =>
          rw [hj] at hstart
          injection hstart with hstart
          exact ⟨startup, hstart.symm⟩
    obtain ⟨startup, hs⟩ := hs
    rw [hs] at hrun
    obtain ⟨_, _, _, h4, h5, h6⟩ :=
      Reached_run (startup.map worker) actions _ r (Reached_start _) hrun
    cases hc : r.collector with
    | returned =>
      obtain ⟨text, _, hwr⟩ := h5 hc
      rw [hwr, List.mem_singleton] at hw
      rw [hw]
      simp [Written.StatusCode, http.StatusInternalServerError, http.StatusUnauthorized]
    | selecting =>
      by_cases hh : r.handler = Handler.returned
      · rw [(h4 hh).2, List.mem_singleton] at hw
        rw [hw]
        decide
      · rw [h6 hc hh] at hw
        exact absurd hw (List.not_mem_nil _)
  · intro ht
    refine ⟨fun validation => ⟨?_, ?_⟩, ?_⟩
    · unfold GetPluginStatus
      rw [hkey]
      simp [ht]
    · unfold GetPluginStartup
      rw [hkey]
      simp [ht]
    · unfold GetPluginStatus
      rw [hkey]
      simp only [ht, bne_self_eq_false, Bool.false_and, Bool.false_eq_true, if_false]
      refine ⟨_, rfl, ?_⟩
      simp only [messageQueueInfo]
      rw [messageQueueInfo_loop]
      simp

end

end ODIM
